import Mathlib

/-!
# STM32MP1 SCMI server (`core/arch/arm/plat-stm32mp1/scmi_server.c`)

Shallow embedding of the platform SCMI resource broker and proofs about it.

Conventions of the embedding:

* The C globals that a handler can read or write are gathered in `World`:
  the per-agent resource tables (whose clock entries carry the mutable
  `enabled` flag), the state `hw` of the external drivers, and `trace`, the
  list of driver calls issued so far, oldest first.
* The external drivers and the access-policy functions are not part of the
  file under study; they are the fields of `Platform`.  A driver function
  that only reads (`clk_get_rate`, `stm32mp1_pwr_regulator_mv`, ...) is a
  function of the driver state, a driver function that acts returns the new
  driver state.  Every driver call, reading or acting, is appended to
  `trace`.  The access-policy functions are pure predicates of the driver
  state and are not traced.
* A handler returns `none` when the C code stops in `panic()` or in a failed
  `assert`, and `some (result, world)` when it returns.
* A pointer into a resource table is the index of the entry; `NULL` is
  `none`.  A `const char *` that the code tests against `NULL` is an
  `Option String`.
* The platform is 32-bit Arm: `size_t`, `unsigned int`, `unsigned long` are
  32-bit unsigned and `long` is 32-bit signed.
-/

namespace Stm32Scmi

/-! ## Constants and types -/

/-- Modelled from the spec: `drivers/scmi.h` is not among the sources; the
status vocabulary is the closed enumeration of section 6 (Success, NotFound,
Denied, NotSupported, InvalidParameters, GenericError, HardwareError), under
the names the code uses. -/
inductive scmi_status where
  | SCMI_SUCCESS
  | SCMI_NOT_SUPPORTED
  | SCMI_INVALID_PARAMETERS
  | SCMI_DENIED
  | SCMI_NOT_FOUND
  | SCMI_GENERIC_ERROR
  | SCMI_HARDWARE_ERROR
  deriving DecidableEq

open scmi_status

/-- The macro `TIMEOUT_US_1MS`. -/
def TIMEOUT_US_1MS : Nat := 1000

/-- The macro `SCMI_CLOCK_NAME_SIZE`. -/
def SCMI_CLOCK_NAME_SIZE : Nat := 16

/-- The macro `SCMI_RD_NAME_SIZE`. -/
def SCMI_RD_NAME_SIZE : Nat := 16

/-- The macro `SCMI_VOLTD_NAME_SIZE`. -/
def SCMI_VOLTD_NAME_SIZE : Nat := 16

/-- Number of values of a `size_t` (32-bit target). -/
def SIZE_T_MOD : Nat := 2 ^ 32

/-- The constant `UINT32_MAX`. -/
def UINT32_MAX : Nat := 2 ^ 32 - 1

/-- The constant `UINT16_MAX`. -/
def UINT16_MAX : Nat := 65535

/-- The constant `LONG_MAX` of the 32-bit target. -/
def LONG_MAX : Int := 2 ^ 31 - 1

/-- Conversion of an integer to `long`: the value modulo `2 ^ 32`, read as a
two's-complement 32-bit number. -/
def to_long (x : Int) : Int :=
  let r := x % 2 ^ 32
  if r ≤ LONG_MAX then r else r - 2 ^ 32

/-- The C type `struct stm32_scmi_clk`. -/
structure stm32_scmi_clk where
  clock_id : Nat
  name : Option String
  enabled : Bool
  deriving DecidableEq

/-- The C type `struct stm32_scmi_rd`. -/
structure stm32_scmi_rd where
  reset_id : Nat
  name : Option String
  deriving DecidableEq

/-- The enumerator `VOLTD_PWR` of `enum voltd_device`. -/
def VOLTD_PWR : Nat := 0

/-- The enumerator `VOLTD_PMIC` of `enum voltd_device`. -/
def VOLTD_PMIC : Nat := 1

/-- The C type `struct stm32_scmi_voltd`.  The field `priv_dev` is kept as
the integer underlying `enum voltd_device`, so that the `default:` branches
of the dispatching switches have inputs. -/
structure stm32_scmi_voltd where
  name : Option String
  priv_id : String
  priv_dev : Nat
  deriving DecidableEq

/-- The C type `struct scmi_agent_resources`.  Each table is a list; the
`*_count` fields, which the source initialises with `ARRAY_SIZE` of the
table (and leaves zero with a null table), are the lengths. -/
structure scmi_agent_resources where
  clock : List stm32_scmi_clk
  rd : List stm32_scmi_rd
  voltd : List stm32_scmi_voltd
  deriving DecidableEq

/-- The field `clock_count`. -/
def scmi_agent_resources.clock_count (r : scmi_agent_resources) : Nat :=
  r.clock.length

/-- The field `rd_count`. -/
def scmi_agent_resources.rd_count (r : scmi_agent_resources) : Nat :=
  r.rd.length

/-- The field `voltd_count`. -/
def scmi_agent_resources.voltd_count (r : scmi_agent_resources) : Nat :=
  r.voltd.length

/-- The regulators of the power controller, `enum pwr_regulator` of
`drivers/stm32mp1_pwr.h` (not among the sources), as far as
`pwr_scmi_to_regu_id` names them. -/
inductive pwr_regulator where
  | PWR_REG11
  | PWR_REG18
  | PWR_USB33
  deriving DecidableEq

/-- The clock and reset identifiers of `dt-bindings/clock/stm32mp1-clks.h`
and `dt-bindings/reset/stm32mp1-resets.h`.  Neither header is among the
sources, so the numeric values are parameters. -/
structure dt_bindings where
  CK_HSE : Nat
  CK_HSI : Nat
  CK_CSI : Nat
  CK_LSE : Nat
  CK_LSI : Nat
  PLL2_Q : Nat
  PLL2_R : Nat
  CK_MPU : Nat
  CK_AXI : Nat
  BSEC : Nat
  CRYP1 : Nat
  GPIOZ : Nat
  HASH1 : Nat
  I2C4_K : Nat
  I2C6_K : Nat
  IWDG1 : Nat
  RNG1_K : Nat
  RTC : Nat
  RTCAPB : Nat
  SPI6_K : Nat
  USART1_K : Nat
  PLL3_Q : Nat
  PLL3_R : Nat
  CK_MCU : Nat
  SPI6_R : Nat
  I2C4_R : Nat
  I2C6_R : Nat
  USART1_R : Nat
  STGEN_R : Nat
  GPIOZ_R : Nat
  CRYP1_R : Nat
  HASH1_R : Nat
  RNG1_R : Nat
  MDMA_R : Nat
  MCU_R : Nat
  MCU_HOLD_BOOT_R : Nat
  deriving DecidableEq

/-- Modelled from the spec: the SCMI handle macros `CK_SCMI0_*` of the
missing dt-bindings header.  Section 3 makes the handle the dense zero-based
index of the entry in its table, so `CK_SCMI0_MPU`, the eighth entry of
`stm32_scmi0_clock`, is 7. -/
def CK_SCMI0_MPU : Nat := 7

/-- A call of an external driver function, with its arguments. -/
inductive DriverCall where
  | clk_enable (id : Nat)
  | clk_disable (id : Nat)
  | clk_get_rate (id : Nat)
  | stm32mp1_set_opp_khz (khz : Nat)
  | stm32_reset_assert (id : Nat) (to_us : Nat)
  | stm32_reset_deassert (id : Nat) (to_us : Nat)
  | stm32_reset_set (id : Nat)
  | stm32_reset_release (id : Nat)
  | stm32_reset_assert_deassert_mcu (assert_not_deassert : Bool)
  | stm32mp1_pwr_regulator_mv (id : pwr_regulator)
  | stm32mp1_pwr_regulator_is_enabled (id : pwr_regulator)
  | stm32mp1_pwr_regulator_set_state (id : pwr_regulator) (enable : Bool)
  | stm32mp_get_pmic
  | stm32mp_put_pmic
  | stpmic1_regulator_levels_mv (name : String)
  | stpmic1_regulator_voltage_get (name : String)
  | stpmic1_regulator_voltage_set (name : String) (mv : Nat)
  | stpmic1_is_regulator_enabled (name : String)
  | stpmic1_regulator_enable (name : String)
  | stpmic1_regulator_disable (name : String)
  deriving DecidableEq

/-- The external collaborators of the broker over a driver state `H`: the
access-policy functions, the clock, reset, power-controller and PMIC
drivers, the dt-bindings constants, whether `DMSG` is compiled in (its
arguments are evaluated only then), and the two voltage-domain state values
and three protocol identifiers of `drivers/scmi-msg.h` and `drivers/scmi.h`
(not among the sources). -/
structure Platform (H : Type) where
  dt : dt_bindings
  dmsg : Bool
  stm32mp_nsec_can_access_clock : H → Nat → Bool
  stm32mp_nsec_can_access_reset : H → Nat → Bool
  stm32mp_nsec_can_access_pmic_regu : H → String → Bool
  clk_enable : H → Nat → H
  clk_disable : H → Nat → H
  clk_get_rate : H → Nat → Nat
  stm32mp1_set_opp_khz : H → Nat → H × Int
  stm32_reset_assert : H → Nat → Nat → H × Int
  stm32_reset_deassert : H → Nat → Nat → H × Int
  stm32_reset_set : H → Nat → H
  stm32_reset_release : H → Nat → H
  stm32_reset_assert_deassert_mcu : H → Bool → H
  stm32mp1_pwr_regulator_mv : H → pwr_regulator → Nat
  stm32mp1_pwr_regulator_is_enabled : H → pwr_regulator → Bool
  stm32mp1_pwr_regulator_set_state : H → pwr_regulator → Bool → H
  stm32mp_get_pmic : H → H
  stm32mp_put_pmic : H → H
  stpmic1_regulator_levels_mv : H → String → List Nat
  stpmic1_regulator_voltage_get : H → String → Nat
  stpmic1_regulator_voltage_set : H → String → Nat → H × Int
  stpmic1_is_regulator_enabled : H → String → Bool
  stpmic1_regulator_enable : H → String → H × Int
  stpmic1_regulator_disable : H → String → H × Int
  SCMI_VOLTAGE_DOMAIN_CONFIG_ARCH_ON : Nat
  SCMI_VOLTAGE_DOMAIN_CONFIG_ARCH_OFF : Nat
  SCMI_PROTOCOL_ID_CLOCK : Nat
  SCMI_PROTOCOL_ID_RESET_DOMAIN : Nat
  SCMI_PROTOCOL_ID_VOLTAGE_DOMAIN : Nat

/-- Everything a handler can read or change: the resource tables of the
agents (`agent_resources` with the tables it points to), the driver state,
and the driver calls issued so far. -/
structure World (H : Type) where
  tables : List scmi_agent_resources
  hw : H
  trace : List DriverCall

/-- A driver call that only reads: the driver state stays, the call is
traced. -/
def World.read {H : Type} (w : World H) (c : DriverCall) : World H :=
  { w with trace := w.trace ++ [c] }

/-- A driver call that acts: the driver state becomes `h`, the call is
traced. -/
def World.act {H : Type} (w : World H) (c : DriverCall) (h : H) : World H :=
  { w with hw := h, trace := w.trace ++ [c] }

/-! ## The shipped resource tables -/

/-- The macro `CLOCK_CELL`, the designated index left out: the cells of a
table are listed in handle order. -/
def CLOCK_CELL (id : Nat) (name : String) (init_enabled : Bool) :
    stm32_scmi_clk :=
  { clock_id := id, name := some name, enabled := init_enabled }

/-- The table `stm32_scmi0_clock`. -/
def stm32_scmi0_clock (dt : dt_bindings) : List stm32_scmi_clk :=
  [ CLOCK_CELL dt.CK_HSE "ck_hse" true,
    CLOCK_CELL dt.CK_HSI "ck_hsi" true,
    CLOCK_CELL dt.CK_CSI "ck_csi" true,
    CLOCK_CELL dt.CK_LSE "ck_lse" true,
    CLOCK_CELL dt.CK_LSI "ck_lsi" true,
    CLOCK_CELL dt.PLL2_Q "pll2_q" true,
    CLOCK_CELL dt.PLL2_R "pll2_r" true,
    CLOCK_CELL dt.CK_MPU "ck_mpu" true,
    CLOCK_CELL dt.CK_AXI "ck_axi" true,
    CLOCK_CELL dt.BSEC "bsec" true,
    CLOCK_CELL dt.CRYP1 "cryp1" false,
    CLOCK_CELL dt.GPIOZ "gpioz" false,
    CLOCK_CELL dt.HASH1 "hash1" false,
    CLOCK_CELL dt.I2C4_K "i2c4_k" false,
    CLOCK_CELL dt.I2C6_K "i2c6_k" false,
    CLOCK_CELL dt.IWDG1 "iwdg1" false,
    CLOCK_CELL dt.RNG1_K "rng1_k" true,
    CLOCK_CELL dt.RTC "ck_rtc" true,
    CLOCK_CELL dt.RTCAPB "rtcapb" true,
    CLOCK_CELL dt.SPI6_K "spi6_k" false,
    CLOCK_CELL dt.USART1_K "usart1_k" false ]

/-- The table `stm32_scmi1_clock`. -/
def stm32_scmi1_clock (dt : dt_bindings) : List stm32_scmi_clk :=
  [ CLOCK_CELL dt.PLL3_Q "pll3_q" true,
    CLOCK_CELL dt.PLL3_R "pll3_r" true,
    CLOCK_CELL dt.CK_MCU "ck_mcu" false ]

/-- The macro `RESET_CELL`, the designated index left out. -/
def RESET_CELL (id : Nat) (name : String) : stm32_scmi_rd :=
  { reset_id := id, name := some name }

/-- The table `stm32_scmi0_reset_domain`. -/
def stm32_scmi0_reset_domain (dt : dt_bindings) : List stm32_scmi_rd :=
  [ RESET_CELL dt.SPI6_R "spi6",
    RESET_CELL dt.I2C4_R "i2c4",
    RESET_CELL dt.I2C6_R "i2c6",
    RESET_CELL dt.USART1_R "usart1",
    RESET_CELL dt.STGEN_R "stgen",
    RESET_CELL dt.GPIOZ_R "gpioz",
    RESET_CELL dt.CRYP1_R "cryp1",
    RESET_CELL dt.HASH1_R "hash1",
    RESET_CELL dt.RNG1_R "rng1",
    RESET_CELL dt.MDMA_R "mdma",
    RESET_CELL dt.MCU_R "mcu",
    RESET_CELL dt.MCU_HOLD_BOOT_R "mcu_hold_boot" ]

/-- The macro `VOLTD_CELL`, the designated index left out. -/
def VOLTD_CELL (dev_id : Nat) (priv_id : String) (name : String) :
    stm32_scmi_voltd :=
  { priv_id := priv_id, priv_dev := dev_id, name := some name }

/-- The macro `PWR_REG11_NAME_ID`. -/
def PWR_REG11_NAME_ID : String := "0"

/-- The macro `PWR_REG18_NAME_ID`. -/
def PWR_REG18_NAME_ID : String := "1"

/-- The macro `PWR_USB33_NAME_ID`. -/
def PWR_USB33_NAME_ID : String := "2"

/-- The table `scmi0_voltage_domain`. -/
def scmi0_voltage_domain : List stm32_scmi_voltd :=
  [ VOLTD_CELL VOLTD_PWR PWR_REG11_NAME_ID "reg11",
    VOLTD_CELL VOLTD_PWR PWR_REG18_NAME_ID "reg18",
    VOLTD_CELL VOLTD_PWR PWR_USB33_NAME_ID "usb33" ]

/-- The table `agent_resources`: agent 0 has the three tables, agent 1 only
a clock table (its other tables are null with count zero). -/
def agent_resources (dt : dt_bindings) : List scmi_agent_resources :=
  [ { clock := stm32_scmi0_clock dt,
      rd := stm32_scmi0_reset_domain dt,
      voltd := scmi0_voltage_domain },
    { clock := stm32_scmi1_clock dt,
      rd := [],
      voltd := [] } ]

/-! ## Catalog lookup -/

/-- The function `find_resource`: the entry of `agent_resources` for the
agent; `none` is the failed `assert(agent_id < ARRAY_SIZE(agent_resources))`.
The address it returns is never null, so the `if (resource)` tests of its
callers always take the non-null branch. -/
def find_resource {H : Type} (w : World H) (agent_id : Nat) :
    Option scmi_agent_resources :=
  w.tables[agent_id]?

/-- The loop `for (n = 0; n < count; n++) if (n == scmi_id) return &table[n];`
shared by `find_clock`, `find_rd` and `find_voltd`, started at `n` with
`left = count - n` iterations to go; the result is the index the returned
pointer designates, `none` when the loop runs out (`return NULL`). -/
def find_loop (scmi_id : Nat) : Nat → Nat → Option Nat
  | 0, _ => none
  | left + 1, n => if n = scmi_id then some n else find_loop scmi_id left (n + 1)

/-- The function `find_clock`. -/
def find_clock {H : Type} (w : World H) (agent_id scmi_id : Nat) :
    Option (Option Nat) :=
  match find_resource w agent_id with
  | none => none
  | some resource => some (find_loop scmi_id resource.clock_count 0)

/-- The function `plat_scmi_clock_count`. -/
def plat_scmi_clock_count {H : Type} (w : World H) (agent_id : Nat) :
    Option Nat :=
  match find_resource w agent_id with
  | none => none
  | some resource => some resource.clock_count

/-- The function `find_rd`. -/
def find_rd {H : Type} (w : World H) (agent_id scmi_id : Nat) :
    Option (Option Nat) :=
  match find_resource w agent_id with
  | none => none
  | some resource => some (find_loop scmi_id resource.rd_count 0)

/-- The function `plat_scmi_rd_count`. -/
def plat_scmi_rd_count {H : Type} (w : World H) (agent_id : Nat) :
    Option Nat :=
  match find_resource w agent_id with
  | none => none
  | some resource => some resource.rd_count

/-- The function `find_voltd`. -/
def find_voltd {H : Type} (w : World H) (agent_id scmi_id : Nat) :
    Option (Option Nat) :=
  match find_resource w agent_id with
  | none => none
  | some resource => some (find_loop scmi_id resource.voltd_count 0)

/-- The function `plat_scmi_voltd_count`. -/
def plat_scmi_voltd_count {H : Type} (w : World H) (agent_id : Nat) :
    Option Nat :=
  match find_resource w agent_id with
  | none => none
  | some resource => some resource.voltd_count

/-- Dereference of a pointer into the clock table of an agent; `none` is an
access outside the table. -/
def clock_at {H : Type} (w : World H) (agent_id n : Nat) :
    Option stm32_scmi_clk :=
  match w.tables[agent_id]? with
  | none => none
  | some resource => resource.clock[n]?

/-- Dereference of a pointer into the reset-domain table of an agent. -/
def rd_at {H : Type} (w : World H) (agent_id n : Nat) :
    Option stm32_scmi_rd :=
  match w.tables[agent_id]? with
  | none => none
  | some resource => resource.rd[n]?

/-- Dereference of a pointer into the voltage-domain table of an agent. -/
def voltd_at {H : Type} (w : World H) (agent_id n : Nat) :
    Option stm32_scmi_voltd :=
  match w.tables[agent_id]? with
  | none => none
  | some resource => resource.voltd[n]?

/-- The store `clock->enabled = v` through a pointer into the clock table of
an agent. -/
def store_enabled {H : Type} (w : World H) (agent_id n : Nat) (v : Bool) :
    World H :=
  { w with
    tables := w.tables.modify
      (fun resource =>
        { resource with
          clock := resource.clock.modify
            (fun clock => { clock with enabled := v }) n })
      agent_id }

/-- The cached enabled flags of every clock table, agent by agent. -/
def enabled_flags {H : Type} (w : World H) : List (List Bool) :=
  w.tables.map (fun resource => resource.clock.map (fun clock => clock.enabled))

/-! ## Driver calls -/

/-- Call of `clk_enable`. -/
def clk_enable {H : Type} (p : Platform H) (w : World H) (id : Nat) : World H :=
  w.act (DriverCall.clk_enable id) (p.clk_enable w.hw id)

/-- Call of `clk_disable`. -/
def clk_disable {H : Type} (p : Platform H) (w : World H) (id : Nat) : World H :=
  w.act (DriverCall.clk_disable id) (p.clk_disable w.hw id)

/-- Call of `clk_get_rate`. -/
def clk_get_rate {H : Type} (p : Platform H) (w : World H) (id : Nat) :
    Nat × World H :=
  (p.clk_get_rate w.hw id, w.read (DriverCall.clk_get_rate id))

/-- Call of `stm32mp1_set_opp_khz`. -/
def stm32mp1_set_opp_khz {H : Type} (p : Platform H) (w : World H) (khz : Nat) :
    Int × World H :=
  ((p.stm32mp1_set_opp_khz w.hw khz).2,
   w.act (DriverCall.stm32mp1_set_opp_khz khz) (p.stm32mp1_set_opp_khz w.hw khz).1)

/-- Call of `stm32_reset_assert`. -/
def stm32_reset_assert {H : Type} (p : Platform H) (w : World H)
    (id to_us : Nat) : Int × World H :=
  ((p.stm32_reset_assert w.hw id to_us).2,
   w.act (DriverCall.stm32_reset_assert id to_us)
     (p.stm32_reset_assert w.hw id to_us).1)

/-- Call of `stm32_reset_deassert`. -/
def stm32_reset_deassert {H : Type} (p : Platform H) (w : World H)
    (id to_us : Nat) : Int × World H :=
  ((p.stm32_reset_deassert w.hw id to_us).2,
   w.act (DriverCall.stm32_reset_deassert id to_us)
     (p.stm32_reset_deassert w.hw id to_us).1)

/-- Call of `stm32_reset_set`. -/
def stm32_reset_set {H : Type} (p : Platform H) (w : World H) (id : Nat) :
    World H :=
  w.act (DriverCall.stm32_reset_set id) (p.stm32_reset_set w.hw id)

/-- Call of `stm32_reset_release`. -/
def stm32_reset_release {H : Type} (p : Platform H) (w : World H) (id : Nat) :
    World H :=
  w.act (DriverCall.stm32_reset_release id) (p.stm32_reset_release w.hw id)

/-- Call of `stm32_reset_assert_deassert_mcu`. -/
def stm32_reset_assert_deassert_mcu {H : Type} (p : Platform H) (w : World H)
    (assert_not_deassert : Bool) : World H :=
  w.act (DriverCall.stm32_reset_assert_deassert_mcu assert_not_deassert)
    (p.stm32_reset_assert_deassert_mcu w.hw assert_not_deassert)

/-! ## Platform SCMI clocks -/

/-- The function `plat_scmi_clock_get_name`; the result `none` is `NULL`. -/
def plat_scmi_clock_get_name {H : Type} (p : Platform H) (w : World H)
    (agent_id scmi_id : Nat) : Option (Option String × World H) :=
  match find_clock w agent_id scmi_id with
  | none => none
  | some none => some (none, w)
  | some (some n) =>
    match clock_at w agent_id n with
    | none => none
    | some clock =>
      if !p.stm32mp_nsec_can_access_clock w.hw clock.clock_id then
        some (none, w)
      else
        some (clock.name, w)

/-- The function `plat_scmi_clock_rates_array`; `array` and `nb_elts` are
the contents behind the two output pointers, returned as the call leaves
them. -/
def plat_scmi_clock_rates_array {H : Type} (_p : Platform H) (w : World H)
    (_agent_id _scmi_id _start_index : Nat) (array : List Nat) (nb_elts : Nat) :
    Option (scmi_status × List Nat × Nat × World H) :=
  some (SCMI_NOT_SUPPORTED, array, nb_elts, w)

/-- The function `plat_scmi_clock_rates_by_step`; `array` is the contents of
the three-slot output array, returned as the call leaves it. -/
def plat_scmi_clock_rates_by_step {H : Type} (p : Platform H) (w : World H)
    (agent_id scmi_id : Nat) (array : List Nat) :
    Option (scmi_status × List Nat × World H) :=
  match find_clock w agent_id scmi_id with
  | none => none
  | some none => some (SCMI_NOT_FOUND, array, w)
  | some (some n) =>
    match clock_at w agent_id n with
    | none => none
    | some clock =>
      if !p.stm32mp_nsec_can_access_clock w.hw clock.clock_id then
        some (SCMI_DENIED, array, w)
      else if scmi_id = CK_SCMI0_MPU then
        some (SCMI_SUCCESS, ((array.set 0 0).set 1 UINT32_MAX).set 2 1, w)
      else
        some (SCMI_SUCCESS,
          ((array.set 0 (clk_get_rate p w clock.clock_id).1).set 1
            (clk_get_rate p w clock.clock_id).1).set 2 0,
          (clk_get_rate p w clock.clock_id).2)

/-- The function `plat_scmi_clock_set_rate`. -/
def plat_scmi_clock_set_rate {H : Type} (p : Platform H) (w : World H)
    (agent_id scmi_id rate : Nat) : Option (scmi_status × World H) :=
  match find_clock w agent_id scmi_id with
  | none => none
  | some none => some (SCMI_NOT_FOUND, w)
  | some (some n) =>
    match clock_at w agent_id n with
    | none => none
    | some clock =>
      if !p.stm32mp_nsec_can_access_clock w.hw clock.clock_id then
        some (SCMI_DENIED, w)
      else if scmi_id = CK_SCMI0_MPU then
        if (stm32mp1_set_opp_khz p w (rate / 1000)).1 ≠ 0 then
          some (SCMI_INVALID_PARAMETERS, (stm32mp1_set_opp_khz p w (rate / 1000)).2)
        else
          some (SCMI_SUCCESS, (stm32mp1_set_opp_khz p w (rate / 1000)).2)
      else
        if rate ≠ (clk_get_rate p w clock.clock_id).1 then
          some (SCMI_INVALID_PARAMETERS, (clk_get_rate p w clock.clock_id).2)
        else
          some (SCMI_SUCCESS, (clk_get_rate p w clock.clock_id).2)

/-- The function `plat_scmi_clock_get_rate`. -/
def plat_scmi_clock_get_rate {H : Type} (p : Platform H) (w : World H)
    (agent_id scmi_id : Nat) : Option (Nat × World H) :=
  match find_clock w agent_id scmi_id with
  | none => none
  | some none => some (0, w)
  | some (some n) =>
    match clock_at w agent_id n with
    | none => none
    | some clock =>
      if !p.stm32mp_nsec_can_access_clock w.hw clock.clock_id then
        some (0, w)
      else
        some (clk_get_rate p w clock.clock_id)

/-- The function `plat_scmi_clock_get_state`; the result is the `int32_t`
value: 0, or the flag converted. -/
def plat_scmi_clock_get_state {H : Type} (p : Platform H) (w : World H)
    (agent_id scmi_id : Nat) : Option (Int × World H) :=
  match find_clock w agent_id scmi_id with
  | none => none
  | some none => some (0, w)
  | some (some n) =>
    match clock_at w agent_id n with
    | none => none
    | some clock =>
      if !p.stm32mp_nsec_can_access_clock w.hw clock.clock_id then
        some (0, w)
      else
        some (if clock.enabled then 1 else 0, w)

/-- The function `plat_scmi_clock_set_state`. -/
def plat_scmi_clock_set_state {H : Type} (p : Platform H) (w : World H)
    (agent_id scmi_id : Nat) (enable_not_disable : Bool) :
    Option (scmi_status × World H) :=
  match find_clock w agent_id scmi_id with
  | none => none
  | some none => some (SCMI_NOT_FOUND, w)
  | some (some n) =>
    match clock_at w agent_id n with
    | none => none
    | some clock =>
      if !p.stm32mp_nsec_can_access_clock w.hw clock.clock_id then
        some (SCMI_DENIED, w)
      else if enable_not_disable then
        if !clock.enabled then
          some (SCMI_SUCCESS,
            store_enabled (clk_enable p w clock.clock_id) agent_id n true)
        else
          some (SCMI_SUCCESS, w)
      else
        if clock.enabled then
          some (SCMI_SUCCESS,
            store_enabled (clk_disable p w clock.clock_id) agent_id n false)
        else
          some (SCMI_SUCCESS, w)

/-! ## Platform SCMI reset domains -/

/-- The function `plat_scmi_rd_get_name`; the result `none` is `NULL`. -/
def plat_scmi_rd_get_name {H : Type} (_p : Platform H) (w : World H)
    (agent_id scmi_id : Nat) : Option (Option String × World H) :=
  match find_rd w agent_id scmi_id with
  | none => none
  | some none => some (none, w)
  | some (some n) =>
    match rd_at w agent_id n with
    | none => none
    | some rd => some (rd.name, w)

/-- The function `plat_scmi_rd_autonomous`. -/
def plat_scmi_rd_autonomous {H : Type} (p : Platform H) (w : World H)
    (agent_id scmi_id state : Nat) : Option (scmi_status × World H) :=
  match find_rd w agent_id scmi_id with
  | none => none
  | some none => some (SCMI_NOT_FOUND, w)
  | some (some n) =>
    match rd_at w agent_id n with
    | none => none
    | some rd =>
      if !p.stm32mp_nsec_can_access_reset w.hw rd.reset_id then
        some (SCMI_DENIED, w)
      else if rd.reset_id = p.dt.MCU_HOLD_BOOT_R then
        some (SCMI_NOT_SUPPORTED, w)
      else if state ≠ 0 then
        some (SCMI_NOT_SUPPORTED, w)
      else if (stm32_reset_assert p w rd.reset_id TIMEOUT_US_1MS).1 ≠ 0 then
        some (SCMI_HARDWARE_ERROR,
          (stm32_reset_assert p w rd.reset_id TIMEOUT_US_1MS).2)
      else if (stm32_reset_deassert p
            (stm32_reset_assert p w rd.reset_id TIMEOUT_US_1MS).2
            rd.reset_id TIMEOUT_US_1MS).1 ≠ 0 then
        some (SCMI_HARDWARE_ERROR,
          (stm32_reset_deassert p
            (stm32_reset_assert p w rd.reset_id TIMEOUT_US_1MS).2
            rd.reset_id TIMEOUT_US_1MS).2)
      else
        some (SCMI_SUCCESS,
          (stm32_reset_deassert p
            (stm32_reset_assert p w rd.reset_id TIMEOUT_US_1MS).2
            rd.reset_id TIMEOUT_US_1MS).2)

/-- The function `plat_scmi_rd_set_state`. -/
def plat_scmi_rd_set_state {H : Type} (p : Platform H) (w : World H)
    (agent_id scmi_id : Nat) (assert_not_deassert : Bool) :
    Option (scmi_status × World H) :=
  match find_rd w agent_id scmi_id with
  | none => none
  | some none => some (SCMI_NOT_FOUND, w)
  | some (some n) =>
    match rd_at w agent_id n with
    | none => none
    | some rd =>
      if !p.stm32mp_nsec_can_access_reset w.hw rd.reset_id then
        some (SCMI_DENIED, w)
      else if rd.reset_id = p.dt.MCU_HOLD_BOOT_R then
        some (SCMI_SUCCESS,
          stm32_reset_assert_deassert_mcu p w assert_not_deassert)
      else if assert_not_deassert then
        some (SCMI_SUCCESS, stm32_reset_set p w rd.reset_id)
      else
        some (SCMI_SUCCESS, stm32_reset_release p w rd.reset_id)

/-! ## Platform SCMI voltage domains -/

/-- Call of `stm32mp1_pwr_regulator_mv`. -/
def stm32mp1_pwr_regulator_mv {H : Type} (p : Platform H) (w : World H)
    (id : pwr_regulator) : Nat × World H :=
  (p.stm32mp1_pwr_regulator_mv w.hw id,
   w.read (DriverCall.stm32mp1_pwr_regulator_mv id))

/-- Call of `stm32mp1_pwr_regulator_is_enabled`. -/
def stm32mp1_pwr_regulator_is_enabled {H : Type} (p : Platform H) (w : World H)
    (id : pwr_regulator) : Bool × World H :=
  (p.stm32mp1_pwr_regulator_is_enabled w.hw id,
   w.read (DriverCall.stm32mp1_pwr_regulator_is_enabled id))

/-- Call of `stm32mp1_pwr_regulator_set_state`. -/
def stm32mp1_pwr_regulator_set_state {H : Type} (p : Platform H) (w : World H)
    (id : pwr_regulator) (enable : Bool) : World H :=
  w.act (DriverCall.stm32mp1_pwr_regulator_set_state id enable)
    (p.stm32mp1_pwr_regulator_set_state w.hw id enable)

/-- Call of `stm32mp_get_pmic`. -/
def stm32mp_get_pmic {H : Type} (p : Platform H) (w : World H) : World H :=
  w.act DriverCall.stm32mp_get_pmic (p.stm32mp_get_pmic w.hw)

/-- Call of `stm32mp_put_pmic`. -/
def stm32mp_put_pmic {H : Type} (p : Platform H) (w : World H) : World H :=
  w.act DriverCall.stm32mp_put_pmic (p.stm32mp_put_pmic w.hw)

/-- Call of `stpmic1_regulator_levels_mv`: the array of `uint16_t` levels it
hands back, whose length is the count it hands back. -/
def stpmic1_regulator_levels_mv {H : Type} (p : Platform H) (w : World H)
    (name : String) : List Nat × World H :=
  (p.stpmic1_regulator_levels_mv w.hw name,
   w.read (DriverCall.stpmic1_regulator_levels_mv name))

/-- Call of `stpmic1_regulator_voltage_get`. -/
def stpmic1_regulator_voltage_get {H : Type} (p : Platform H) (w : World H)
    (name : String) : Nat × World H :=
  (p.stpmic1_regulator_voltage_get w.hw name,
   w.read (DriverCall.stpmic1_regulator_voltage_get name))

/-- Call of `stpmic1_regulator_voltage_set`. -/
def stpmic1_regulator_voltage_set {H : Type} (p : Platform H) (w : World H)
    (name : String) (mv : Nat) : Int × World H :=
  ((p.stpmic1_regulator_voltage_set w.hw name mv).2,
   w.act (DriverCall.stpmic1_regulator_voltage_set name mv)
     (p.stpmic1_regulator_voltage_set w.hw name mv).1)

/-- Call of `stpmic1_is_regulator_enabled`. -/
def stpmic1_is_regulator_enabled {H : Type} (p : Platform H) (w : World H)
    (name : String) : Bool × World H :=
  (p.stpmic1_is_regulator_enabled w.hw name,
   w.read (DriverCall.stpmic1_is_regulator_enabled name))

/-- Call of `stpmic1_regulator_enable`. -/
def stpmic1_regulator_enable {H : Type} (p : Platform H) (w : World H)
    (name : String) : Int × World H :=
  ((p.stpmic1_regulator_enable w.hw name).2,
   w.act (DriverCall.stpmic1_regulator_enable name)
     (p.stpmic1_regulator_enable w.hw name).1)

/-- Call of `stpmic1_regulator_disable`. -/
def stpmic1_regulator_disable {H : Type} (p : Platform H) (w : World H)
    (name : String) : Int × World H :=
  ((p.stpmic1_regulator_disable w.hw name).2,
   w.act (DriverCall.stpmic1_regulator_disable name)
     (p.stpmic1_regulator_disable w.hw name).1)

/-- The function `plat_scmi_voltd_get_name`; the result `none` is `NULL`. -/
def plat_scmi_voltd_get_name {H : Type} (_p : Platform H) (w : World H)
    (agent_id scmi_id : Nat) : Option (Option String × World H) :=
  match find_voltd w agent_id scmi_id with
  | none => none
  | some none => some (none, w)
  | some (some n) =>
    match voltd_at w agent_id n with
    | none => none
    | some voltd => some (voltd.name, w)

/-- The function `pwr_scmi_to_regu_id`; `none` is the final `panic()`. -/
def pwr_scmi_to_regu_id (voltd : stm32_scmi_voltd) : Option pwr_regulator :=
  if voltd.priv_id = PWR_REG11_NAME_ID then some pwr_regulator.PWR_REG11
  else if voltd.priv_id = PWR_REG18_NAME_ID then some pwr_regulator.PWR_REG18
  else if voltd.priv_id = PWR_USB33_NAME_ID then some pwr_regulator.PWR_USB33
  else none

/-- The function `pwr_get_level`.  The product is taken in `long`; where it
leaves the range of `long` the C result is undefined and the value here is
the wrapped one. -/
def pwr_get_level {H : Type} (p : Platform H) (w : World H)
    (voltd : stm32_scmi_voltd) : Option (Int × World H) :=
  match pwr_scmi_to_regu_id voltd with
  | none => none
  | some regu_id =>
    some (to_long (to_long (stm32mp1_pwr_regulator_mv p w regu_id).1 * 1000),
      (stm32mp1_pwr_regulator_mv p w regu_id).2)

/-- The function `pwr_set_level`. -/
def pwr_set_level {H : Type} (p : Platform H) (w : World H)
    (voltd : stm32_scmi_voltd) (level_uv : Int) :
    Option (scmi_status × World H) :=
  match pwr_get_level p w voltd with
  | none => none
  | some (level, w1) =>
    if level_uv ≠ level then some (SCMI_INVALID_PARAMETERS, w1)
    else some (SCMI_SUCCESS, w1)

/-- The function `pwr_describe_levels`; `microvolt` is the output buffer
(`none` for a null pointer) and `nb_elts` the value behind the count
pointer, both returned as the call leaves them. -/
def pwr_describe_levels {H : Type} (p : Platform H) (w : World H)
    (voltd : stm32_scmi_voltd) (start_index : Nat)
    (microvolt : Option (List Int)) (nb_elts : Nat) :
    Option (scmi_status × Option (List Int) × Nat × World H) :=
  if start_index ≠ 0 then some (SCMI_INVALID_PARAMETERS, microvolt, nb_elts, w)
  else
    match microvolt with
    | none => some (SCMI_SUCCESS, none, 1, w)
    | some buf =>
      if nb_elts < 1 then some (SCMI_GENERIC_ERROR, some buf, nb_elts, w)
      else
        match pwr_get_level p w voltd with
        | none => none
        | some (level, w1) =>
          match buf with
          | [] => none
          | _ :: rest => some (SCMI_SUCCESS, some (level :: rest), 1, w1)

/-- The function `pwr_get_state`. -/
def pwr_get_state {H : Type} (p : Platform H) (w : World H)
    (voltd : stm32_scmi_voltd) : Option (Nat × World H) :=
  match pwr_scmi_to_regu_id voltd with
  | none => none
  | some regu_id =>
    if (stm32mp1_pwr_regulator_is_enabled p w regu_id).1 then
      some (p.SCMI_VOLTAGE_DOMAIN_CONFIG_ARCH_ON,
        (stm32mp1_pwr_regulator_is_enabled p w regu_id).2)
    else
      some (p.SCMI_VOLTAGE_DOMAIN_CONFIG_ARCH_OFF,
        (stm32mp1_pwr_regulator_is_enabled p w regu_id).2)

/-- The function `pwr_set_state`; the `DMSG` line reads the regulator state
when it is compiled in. -/
def pwr_set_state {H : Type} (p : Platform H) (w : World H)
    (voltd : stm32_scmi_voltd) (enable : Bool) : Option (World H) :=
  match pwr_scmi_to_regu_id voltd with
  | none => none
  | some regu_id =>
    some (stm32mp1_pwr_regulator_set_state p
      (if p.dmsg then (stm32mp1_pwr_regulator_is_enabled p w regu_id).2 else w)
      regu_id enable)

/-- The subtraction `a - b` in `size_t`. -/
def size_t_sub (a b : Nat) : Nat :=
  (a % SIZE_T_MOD + SIZE_T_MOD - b % SIZE_T_MOD) % SIZE_T_MOD

/-- The macro `SUB_OVERFLOW` on `size_t` operands: whether `a - b` wraps,
with the wrapped difference. -/
def SUB_OVERFLOW (a b : Nat) : Bool × Nat :=
  (decide (a % SIZE_T_MOD < b % SIZE_T_MOD), size_t_sub a b)

/-- The loop `for (i = 0; i < out_count; i++) microvolt[i] =
levels[start_index + i] * 1000;` of `pmic_describe_levels`, at index `i`
with `left = out_count - i` iterations to go.  A level is a `uint16_t`, the
product is an `int`; `none` is an access outside `levels` or outside the
buffer. -/
def pmic_copy_levels (levels : List Nat) (start_index : Nat) :
    Nat → Nat → List Int → Option (List Int)
  | 0, _, microvolt => some microvolt
  | left + 1, i, microvolt =>
    match levels[start_index + i]? with
    | none => none
    | some level =>
      if i < microvolt.length then
        pmic_copy_levels levels start_index left (i + 1)
          (microvolt.set i (to_long ((level % 2 ^ 16 : Nat) * 1000)))
      else none

/-- The function `pmic_describe_levels`; `microvolt` is the output buffer
(`none` for a null pointer) and `nb_elts` the value behind the count
pointer, both returned as the call leaves them. -/
def pmic_describe_levels {H : Type} (p : Platform H) (w : World H)
    (voltd : stm32_scmi_voltd) (start_index : Nat)
    (microvolt : Option (List Int)) (nb_elts : Nat) :
    Option (scmi_status × Option (List Int) × Nat × World H) :=
  if !p.stm32mp_nsec_can_access_pmic_regu w.hw voltd.priv_id then
    some (SCMI_DENIED, microvolt, nb_elts, w)
  else
    match stpmic1_regulator_levels_mv p w voltd.priv_id with
    | (levels, w1) =>
      match microvolt with
      | none =>
        some (SCMI_SUCCESS, none, size_t_sub levels.length start_index, w1)
      | some buf =>
        if (SUB_OVERFLOW levels.length start_index).1 then
          some (SCMI_GENERIC_ERROR, some buf, nb_elts, w1)
        else
          match pmic_copy_levels levels start_index
              (min (SUB_OVERFLOW levels.length start_index).2 nb_elts) 0 buf with
          | none => none
          | some out =>
            some (SCMI_SUCCESS, some out,
              min (SUB_OVERFLOW levels.length start_index).2 nb_elts, w1)

/-- The function `pmic_get_level`. -/
def pmic_get_level {H : Type} (p : Platform H) (w : World H)
    (voltd : stm32_scmi_voltd) : Int × World H :=
  if !p.stm32mp_nsec_can_access_pmic_regu w.hw voltd.priv_id then (0, w)
  else
    (to_long
      (to_long (stpmic1_regulator_voltage_get p (stm32mp_get_pmic p w)
        voltd.priv_id).1 * 1000),
     stm32mp_put_pmic p
       (stpmic1_regulator_voltage_get p (stm32mp_get_pmic p w) voltd.priv_id).2)

/-- The function `pmic_set_level`. -/
def pmic_set_level {H : Type} (p : Platform H) (w : World H)
    (voltd : stm32_scmi_voltd) (level_uv : Int) : scmi_status × World H :=
  if !p.stm32mp_nsec_can_access_pmic_regu w.hw voltd.priv_id then
    (SCMI_DENIED, w)
  else if level_uv < 0 ∨ level_uv > (UINT16_MAX : Int) * 1000 then
    (SCMI_INVALID_PARAMETERS, w)
  else
    (if (stpmic1_regulator_voltage_set p (stm32mp_get_pmic p w) voltd.priv_id
          (level_uv.toNat / 1000)).1 ≠ 0
      then SCMI_GENERIC_ERROR else SCMI_SUCCESS,
     stm32mp_put_pmic p
       (stpmic1_regulator_voltage_set p (stm32mp_get_pmic p w) voltd.priv_id
         (level_uv.toNat / 1000)).2)

/-- The function `pmic_get_state`. -/
def pmic_get_state {H : Type} (p : Platform H) (w : World H)
    (voltd : stm32_scmi_voltd) : Nat × World H :=
  if !p.stm32mp_nsec_can_access_pmic_regu w.hw voltd.priv_id then
    (p.SCMI_VOLTAGE_DOMAIN_CONFIG_ARCH_OFF, w)
  else
    (if (stpmic1_is_regulator_enabled p (stm32mp_get_pmic p w)
          voltd.priv_id).1
      then p.SCMI_VOLTAGE_DOMAIN_CONFIG_ARCH_ON
      else p.SCMI_VOLTAGE_DOMAIN_CONFIG_ARCH_OFF,
     stm32mp_put_pmic p
       (stpmic1_is_regulator_enabled p (stm32mp_get_pmic p w) voltd.priv_id).2)

/-- The world of `pmic_set_state` after `stm32mp_get_pmic()` and the `DMSG`
line, which reads the regulator state when it is compiled in. -/
def pmic_set_state_acquired {H : Type} (p : Platform H) (w : World H)
    (voltd : stm32_scmi_voltd) : World H :=
  if p.dmsg then
    (stpmic1_is_regulator_enabled p (stm32mp_get_pmic p w) voltd.priv_id).2
  else stm32mp_get_pmic p w

/-- The function `pmic_set_state`. -/
def pmic_set_state {H : Type} (p : Platform H) (w : World H)
    (voltd : stm32_scmi_voltd) (enable : Bool) : scmi_status × World H :=
  if !p.stm32mp_nsec_can_access_pmic_regu w.hw voltd.priv_id then
    (SCMI_DENIED, w)
  else if enable then
    (if (stpmic1_regulator_enable p (pmic_set_state_acquired p w voltd)
          voltd.priv_id).1 ≠ 0
      then SCMI_GENERIC_ERROR else SCMI_SUCCESS,
     stm32mp_put_pmic p
       (stpmic1_regulator_enable p (pmic_set_state_acquired p w voltd)
         voltd.priv_id).2)
  else
    (if (stpmic1_regulator_disable p (pmic_set_state_acquired p w voltd)
          voltd.priv_id).1 ≠ 0
      then SCMI_GENERIC_ERROR else SCMI_SUCCESS,
     stm32mp_put_pmic p
       (stpmic1_regulator_disable p (pmic_set_state_acquired p w voltd)
         voltd.priv_id).2)

/-- The function `plat_scmi_voltd_levels_array`. -/
def plat_scmi_voltd_levels_array {H : Type} (p : Platform H) (w : World H)
    (agent_id scmi_id start_index : Nat) (levels : Option (List Int))
    (nb_elts : Nat) :
    Option (scmi_status × Option (List Int) × Nat × World H) :=
  match find_voltd w agent_id scmi_id with
  | none => none
  | some none => some (SCMI_NOT_FOUND, levels, nb_elts, w)
  | some (some n) =>
    match voltd_at w agent_id n with
    | none => none
    | some voltd =>
      if voltd.priv_dev = VOLTD_PWR then
        pwr_describe_levels p w voltd start_index levels nb_elts
      else if voltd.priv_dev = VOLTD_PMIC then
        pmic_describe_levels p w voltd start_index levels nb_elts
      else some (SCMI_GENERIC_ERROR, levels, nb_elts, w)

/-- The function `plat_scmi_voltd_get_level`; the `default:` branch is a
`panic()`. -/
def plat_scmi_voltd_get_level {H : Type} (p : Platform H) (w : World H)
    (agent_id scmi_id : Nat) : Option (Int × World H) :=
  match find_voltd w agent_id scmi_id with
  | none => none
  | some none => some (0, w)
  | some (some n) =>
    match voltd_at w agent_id n with
    | none => none
    | some voltd =>
      if voltd.priv_dev = VOLTD_PWR then pwr_get_level p w voltd
      else if voltd.priv_dev = VOLTD_PMIC then some (pmic_get_level p w voltd)
      else none

/-- The function `plat_scmi_voltd_set_level`. -/
def plat_scmi_voltd_set_level {H : Type} (p : Platform H) (w : World H)
    (agent_id scmi_id : Nat) (level : Int) : Option (scmi_status × World H) :=
  match find_voltd w agent_id scmi_id with
  | none => none
  | some none => some (SCMI_NOT_FOUND, w)
  | some (some n) =>
    match voltd_at w agent_id n with
    | none => none
    | some voltd =>
      if voltd.priv_dev = VOLTD_PWR then pwr_set_level p w voltd level
      else if voltd.priv_dev = VOLTD_PMIC then
        some (pmic_set_level p w voltd level)
      else some (SCMI_GENERIC_ERROR, w)

/-- The function `plat_scmi_voltd_get_config`; `config` is the value behind
the output pointer, returned as the call leaves it. -/
def plat_scmi_voltd_get_config {H : Type} (p : Platform H) (w : World H)
    (agent_id scmi_id config : Nat) : Option (scmi_status × Nat × World H) :=
  match find_voltd w agent_id scmi_id with
  | none => none
  | some none => some (SCMI_NOT_FOUND, config, w)
  | some (some n) =>
    match voltd_at w agent_id n with
    | none => none
    | some voltd =>
      if voltd.priv_dev = VOLTD_PWR then
        match pwr_get_state p w voltd with
        | none => none
        | some (state, w1) => some (SCMI_SUCCESS, state, w1)
      else if voltd.priv_dev = VOLTD_PMIC then
        some (SCMI_SUCCESS, (pmic_get_state p w voltd).1,
          (pmic_get_state p w voltd).2)
      else some (SCMI_GENERIC_ERROR, config, w)

/-- The function `plat_scmi_voltd_set_config`; the `uint32_t` argument
converts to the `bool` parameter of the backend as `config != 0`. -/
def plat_scmi_voltd_set_config {H : Type} (p : Platform H) (w : World H)
    (agent_id scmi_id config : Nat) : Option (scmi_status × World H) :=
  match find_voltd w agent_id scmi_id with
  | none => none
  | some none => some (SCMI_NOT_FOUND, w)
  | some (some n) =>
    match voltd_at w agent_id n with
    | none => none
    | some voltd =>
      if voltd.priv_dev = VOLTD_PWR then
        match pwr_set_state p w voltd (decide (config ≠ 0)) with
        | none => none
        | some w1 => some (SCMI_SUCCESS, w1)
      else if voltd.priv_dev = VOLTD_PMIC then
        some (pmic_set_state p w voltd (decide (config ≠ 0)))
      else some (SCMI_GENERIC_ERROR, w)

/-! ## Protocol enumeration -/

/-- The loop `for (n = 0; n < agent_count; n++) if (count of agent n) break;`
of `plat_scmi_protocol_count_paranoid`, over the counts of the agents still
to visit, at index `n`: the value of `n` when the loop stops. -/
def paranoid_loop : List Nat → Nat → Nat
  | [], n => n
  | count :: rest, n => if count ≠ 0 then n else paranoid_loop rest (n + 1)

/-- The function `plat_scmi_protocol_count_paranoid`. -/
def plat_scmi_protocol_count_paranoid {H : Type} (w : World H) : Nat :=
  (if paranoid_loop (w.tables.map scmi_agent_resources.clock_count) 0 <
      w.tables.length then 1 else 0) +
  (if paranoid_loop (w.tables.map scmi_agent_resources.rd_count) 0 <
      w.tables.length then 1 else 0) +
  (if paranoid_loop (w.tables.map scmi_agent_resources.voltd_count) 0 <
      w.tables.length then 1 else 0)

/-- The array `plat_protocol_list`, null termination included. -/
def plat_protocol_list {H : Type} (p : Platform H) : List Nat :=
  [p.SCMI_PROTOCOL_ID_CLOCK, p.SCMI_PROTOCOL_ID_RESET_DOMAIN,
   p.SCMI_PROTOCOL_ID_VOLTAGE_DOMAIN, 0]

/-- The function `plat_scmi_protocol_count`; `none` is the failed `assert`. -/
def plat_scmi_protocol_count {H : Type} (p : Platform H) (w : World H) :
    Option (Nat × World H) :=
  if (plat_protocol_list p).length - 1 = plat_scmi_protocol_count_paranoid w
  then some ((plat_protocol_list p).length - 1, w)
  else none

/-- The function `plat_scmi_protocol_list`; `none` is the failed `assert`. -/
def plat_scmi_protocol_list {H : Type} (p : Platform H) (w : World H)
    (_agent_id : Nat) : Option (List Nat × World H) :=
  if plat_scmi_protocol_count_paranoid w = (plat_protocol_list p).length - 1
  then some (plat_protocol_list p, w)
  else none

/-- The function `plat_scmi_vendor_name`. -/
def plat_scmi_vendor_name : String := "ST"

/-- The function `plat_scmi_sub_vendor_name`. -/
def plat_scmi_sub_vendor_name : String := ""

/-! ## Initialisation of the platform SCMI resources -/

/-- The function `strlen` on a name: its length in bytes (a name holds no
NUL character). -/
def strlen (s : String) : Nat :=
  s.utf8ByteSize

/-- The clock loop of `stm32mp1_init_scmi_server` over the entries still to
visit; `none` is `panic("SCMI clock name invalid")`. -/
def init_clock_loop {H : Type} (p : Platform H) :
    List stm32_scmi_clk → World H → Option (World H)
  | [], w => some w
  | clk :: rest, w =>
    match clk.name with
    | none => none
    | some name =>
      if strlen name ≥ SCMI_CLOCK_NAME_SIZE then none
      else
        init_clock_loop p rest
          (if clk.enabled && p.stm32mp_nsec_can_access_clock w.hw clk.clock_id
            then clk_enable p w clk.clock_id else w)

/-- The reset-domain loop of `stm32mp1_init_scmi_server`; `false` is
`panic("SCMI reset domain name invalid")`. -/
def init_rd_loop : List stm32_scmi_rd → Bool
  | [] => true
  | rd :: rest =>
    match rd.name with
    | none => false
    | some name =>
      if strlen name ≥ SCMI_RD_NAME_SIZE then false else init_rd_loop rest

/-- The voltage-domain loop of `stm32mp1_init_scmi_server`; `false` is
`panic("SCMI voltage domain name invalid")`. -/
def init_voltd_loop : List stm32_scmi_voltd → Bool
  | [] => true
  | voltd :: rest =>
    match voltd.name with
    | none => false
    | some name =>
      if strlen name ≥ SCMI_VOLTD_NAME_SIZE then false
      else init_voltd_loop rest

/-- The loop of `stm32mp1_init_scmi_server` over `agent_resources`, on the
agents still to visit. -/
def init_agent_loop {H : Type} (p : Platform H) :
    List scmi_agent_resources → World H → Option (World H)
  | [], w => some w
  | res :: rest, w =>
    match init_clock_loop p res.clock w with
    | none => none
    | some w1 =>
      if !init_rd_loop res.rd then none
      else if !init_voltd_loop res.voltd then none
      else init_agent_loop p rest w1

/-- The function `stm32mp1_init_scmi_server`, from the loop over
`agent_resources` on (lines 886 to 919); `none` is a `panic`, `some` is the
return of `TEE_SUCCESS`.  The statements before that loop register the
power-management callback and set up the two transport channels, which are
not part of `World`. -/
def stm32mp1_init_scmi_server {H : Type} (p : Platform H) (w : World H) :
    Option (World H) :=
  init_agent_loop p w.tables w

/-- A name that the validation of `stm32mp1_init_scmi_server` refuses for
the name-size limit `size`: a null pointer, or a string of `size` bytes or
more. -/
def name_rejected (name : Option String) (size : Nat) : Prop :=
  name = none ∨ ∃ s, name = some s ∧ size ≤ strlen s

/-! ## Sample platform

A driver state with nothing in it and drivers that all answer the same: the
access policy answers `allow`, every driver function with a return code
returns `rc`, and the PMIC regulators offer the levels `levels` (millivolts).
-/

/-- Sample values for the dt-bindings identifiers, all distinct. -/
def sample_dt : dt_bindings :=
  { CK_HSE := 0, CK_HSI := 1, CK_CSI := 2, CK_LSE := 3, CK_LSI := 4,
    PLL2_Q := 5, PLL2_R := 6, CK_MPU := 7, CK_AXI := 8, BSEC := 9,
    CRYP1 := 10, GPIOZ := 11, HASH1 := 12, I2C4_K := 13, I2C6_K := 14,
    IWDG1 := 15, RNG1_K := 16, RTC := 17, RTCAPB := 18, SPI6_K := 19,
    USART1_K := 20, PLL3_Q := 21, PLL3_R := 22, CK_MCU := 23,
    SPI6_R := 100, I2C4_R := 101, I2C6_R := 102, USART1_R := 103,
    STGEN_R := 104, GPIOZ_R := 105, CRYP1_R := 106, HASH1_R := 107,
    RNG1_R := 108, MDMA_R := 109, MCU_R := 110, MCU_HOLD_BOOT_R := 111 }

/-- The sample platform. -/
def sample_platform (allow : Bool) (rc : Int) (levels : List Nat) :
    Platform Unit :=
  { dt := sample_dt,
    dmsg := false,
    stm32mp_nsec_can_access_clock := fun _ _ => allow,
    stm32mp_nsec_can_access_reset := fun _ _ => allow,
    stm32mp_nsec_can_access_pmic_regu := fun _ _ => allow,
    clk_enable := fun h _ => h,
    clk_disable := fun h _ => h,
    clk_get_rate := fun _ _ => 24000000,
    stm32mp1_set_opp_khz := fun h _ => (h, rc),
    stm32_reset_assert := fun h _ _ => (h, rc),
    stm32_reset_deassert := fun h _ _ => (h, rc),
    stm32_reset_set := fun h _ => h,
    stm32_reset_release := fun h _ => h,
    stm32_reset_assert_deassert_mcu := fun h _ => h,
    stm32mp1_pwr_regulator_mv := fun _ id =>
      match id with
      | pwr_regulator.PWR_REG11 => 1100
      | pwr_regulator.PWR_REG18 => 1800
      | pwr_regulator.PWR_USB33 => 3300,
    stm32mp1_pwr_regulator_is_enabled := fun _ _ => true,
    stm32mp1_pwr_regulator_set_state := fun h _ _ => h,
    stm32mp_get_pmic := fun h => h,
    stm32mp_put_pmic := fun h => h,
    stpmic1_regulator_levels_mv := fun _ _ => levels,
    stpmic1_regulator_voltage_get := fun _ _ => 1200,
    stpmic1_regulator_voltage_set := fun h _ _ => (h, rc),
    stpmic1_is_regulator_enabled := fun _ _ => true,
    stpmic1_regulator_enable := fun h _ => (h, rc),
    stpmic1_regulator_disable := fun h _ => (h, rc),
    SCMI_VOLTAGE_DOMAIN_CONFIG_ARCH_ON := 7,
    SCMI_VOLTAGE_DOMAIN_CONFIG_ARCH_OFF := 0,
    SCMI_PROTOCOL_ID_CLOCK := 20,
    SCMI_PROTOCOL_ID_RESET_DOMAIN := 22,
    SCMI_PROTOCOL_ID_VOLTAGE_DOMAIN := 23 }

/-- The world before any handler ran on the sample platform: the shipped
tables and no driver call yet. -/
def sample_world : World Unit :=
  { tables := agent_resources sample_dt, hw := (), trace := [] }

/-- A world with one agent owning one PMIC voltage domain (regulator
`buck1`), one ordinary reset line and the hold-boot reset line. -/
def sample_pmic_world : World Unit :=
  { tables :=
      [ { clock := [],
          rd := [RESET_CELL sample_dt.MCU_R "mcu",
                 RESET_CELL sample_dt.MCU_HOLD_BOOT_R "mcu_hold_boot"],
          voltd := [VOLTD_CELL VOLTD_PMIC "buck1" "vddcore"] } ],
    hw := (),
    trace := [] }

/-! ## Traces and sequences of requests -/

/-- Whether a driver call is an access to a regulator through the PMIC
driver: `stpmic1_regulator_voltage_get`, `stpmic1_regulator_voltage_set`,
`stpmic1_is_regulator_enabled`, `stpmic1_regulator_enable` or
`stpmic1_regulator_disable`. -/
def is_pmic_regulator_call : DriverCall → Bool
  | DriverCall.stpmic1_regulator_voltage_get _ => true
  | DriverCall.stpmic1_regulator_voltage_set _ _ => true
  | DriverCall.stpmic1_is_regulator_enabled _ => true
  | DriverCall.stpmic1_regulator_enable _ => true
  | DriverCall.stpmic1_regulator_disable _ => true
  | _ => false

/-- Scoped acquisition of the PMIC along a list of driver calls, `held`
telling whether the PMIC is held before the first call: `stm32mp_get_pmic`
occurs only when the PMIC is not held, `stm32mp_put_pmic` only when it is
held, a regulator access only when it is held, and the PMIC is not held
after the last call. -/
def pmic_scoped : Bool → List DriverCall → Bool
  | held, [] => !held
  | held, DriverCall.stm32mp_get_pmic :: rest =>
    !held && pmic_scoped true rest
  | held, DriverCall.stm32mp_put_pmic :: rest =>
    held && pmic_scoped false rest
  | held, c :: rest =>
    (!is_pmic_regulator_call c || held) && pmic_scoped held rest

/-- The clock entries of all agents, agent after agent. -/
def all_clocks : List scmi_agent_resources → List stm32_scmi_clk
  | [] => []
  | res :: rest => res.clock ++ all_clocks rest

/-- A request to one of the entry points that take and hand back the
world, with its arguments. -/
inductive Request where
  | clock_get_name (agent_id scmi_id : Nat)
  | clock_rates_array (agent_id scmi_id start_index : Nat) (array : List Nat)
      (nb_elts : Nat)
  | clock_rates_by_step (agent_id scmi_id : Nat) (array : List Nat)
  | clock_set_rate (agent_id scmi_id rate : Nat)
  | clock_get_rate (agent_id scmi_id : Nat)
  | clock_get_state (agent_id scmi_id : Nat)
  | clock_set_state (agent_id scmi_id : Nat) (enable_not_disable : Bool)
  | rd_get_name (agent_id scmi_id : Nat)
  | rd_autonomous (agent_id scmi_id state : Nat)
  | rd_set_state (agent_id scmi_id : Nat) (assert_not_deassert : Bool)
  | voltd_get_name (agent_id scmi_id : Nat)
  | voltd_levels_array (agent_id scmi_id start_index : Nat)
      (levels : Option (List Int)) (nb_elts : Nat)
  | voltd_get_level (agent_id scmi_id : Nat)
  | voltd_set_level (agent_id scmi_id : Nat) (level : Int)
  | voltd_get_config (agent_id scmi_id config : Nat)
  | voltd_set_config (agent_id scmi_id config : Nat)
  | protocol_count
  | protocol_list (agent_id : Nat)

/-- The world an entry point leaves when it serves a request and returns;
`none` when it stops in a panic. -/
def serve {H : Type} (p : Platform H) (w : World H) : Request → Option (World H)
  | Request.clock_get_name agent_id scmi_id =>
    (plat_scmi_clock_get_name p w agent_id scmi_id).map (fun r => r.2)
  | Request.clock_rates_array agent_id scmi_id start_index array nb_elts =>
    (plat_scmi_clock_rates_array p w agent_id scmi_id start_index array
      nb_elts).map (fun r => r.2.2.2)
  | Request.clock_rates_by_step agent_id scmi_id array =>
    (plat_scmi_clock_rates_by_step p w agent_id scmi_id array).map
      (fun r => r.2.2)
  | Request.clock_set_rate agent_id scmi_id rate =>
    (plat_scmi_clock_set_rate p w agent_id scmi_id rate).map (fun r => r.2)
  | Request.clock_get_rate agent_id scmi_id =>
    (plat_scmi_clock_get_rate p w agent_id scmi_id).map (fun r => r.2)
  | Request.clock_get_state agent_id scmi_id =>
    (plat_scmi_clock_get_state p w agent_id scmi_id).map (fun r => r.2)
  | Request.clock_set_state agent_id scmi_id enable_not_disable =>
    (plat_scmi_clock_set_state p w agent_id scmi_id enable_not_disable).map
      (fun r => r.2)
  | Request.rd_get_name agent_id scmi_id =>
    (plat_scmi_rd_get_name p w agent_id scmi_id).map (fun r => r.2)
  | Request.rd_autonomous agent_id scmi_id state =>
    (plat_scmi_rd_autonomous p w agent_id scmi_id state).map (fun r => r.2)
  | Request.rd_set_state agent_id scmi_id assert_not_deassert =>
    (plat_scmi_rd_set_state p w agent_id scmi_id assert_not_deassert).map
      (fun r => r.2)
  | Request.voltd_get_name agent_id scmi_id =>
    (plat_scmi_voltd_get_name p w agent_id scmi_id).map (fun r => r.2)
  | Request.voltd_levels_array agent_id scmi_id start_index levels nb_elts =>
    (plat_scmi_voltd_levels_array p w agent_id scmi_id start_index levels
      nb_elts).map (fun r => r.2.2.2)
  | Request.voltd_get_level agent_id scmi_id =>
    (plat_scmi_voltd_get_level p w agent_id scmi_id).map (fun r => r.2)
  | Request.voltd_set_level agent_id scmi_id level =>
    (plat_scmi_voltd_set_level p w agent_id scmi_id level).map (fun r => r.2)
  | Request.voltd_get_config agent_id scmi_id config =>
    (plat_scmi_voltd_get_config p w agent_id scmi_id config).map
      (fun r => r.2.2)
  | Request.voltd_set_config agent_id scmi_id config =>
    (plat_scmi_voltd_set_config p w agent_id scmi_id config).map
      (fun r => r.2)
  | Request.protocol_count =>
    (plat_scmi_protocol_count p w).map (fun r => r.2)
  | Request.protocol_list agent_id =>
    (plat_scmi_protocol_list p w agent_id).map (fun r => r.2)

/-- Whether a driver call is a call of `clk_enable`. -/
def is_clk_enable : DriverCall → Bool
  | DriverCall.clk_enable _ => true
  | _ => false

/-- Whether a driver call is a call of `clk_disable`. -/
def is_clk_disable : DriverCall → Bool
  | DriverCall.clk_disable _ => true
  | _ => false

/-- The number of `clk_enable` calls minus the number of `clk_disable`
calls in a list of driver calls. -/
def net_enables (calls : List DriverCall) : Int :=
  (calls.countP is_clk_enable : Int) - (calls.countP is_clk_disable : Int)

/-- The driver calls that the step from `w` to `w1` issued: what the trace
of `w1` holds beyond the length of the trace of `w`. -/
def new_calls {H : Type} (w w1 : World H) : List DriverCall :=
  w1.trace.drop w.trace.length

/-- The clock table entry that a request designates, as agent and index in
the clock table of that agent (`find_clock` returns `&table[scmi_id]`);
`none` for the requests that designate no clock. -/
def request_clock_entry : Request → Option (Nat × Nat)
  | Request.clock_get_name agent_id scmi_id => some (agent_id, scmi_id)
  | Request.clock_rates_array agent_id scmi_id _ _ _ =>
    some (agent_id, scmi_id)
  | Request.clock_rates_by_step agent_id scmi_id _ => some (agent_id, scmi_id)
  | Request.clock_set_rate agent_id scmi_id _ => some (agent_id, scmi_id)
  | Request.clock_get_rate agent_id scmi_id => some (agent_id, scmi_id)
  | Request.clock_get_state agent_id scmi_id => some (agent_id, scmi_id)
  | Request.clock_set_state agent_id scmi_id _ => some (agent_id, scmi_id)
  | _ => none

/-- The driver calls issued while a request was served from `w` to `w1`,
each with the clock table entry the request designates. -/
def issued_by {H : Type} (req : Request) (w w1 : World H) :
    List (Option (Nat × Nat) × DriverCall) :=
  (new_calls w w1).map (fun c => (request_clock_entry req, c))

/-- The driver calls issued by the clock loop of `stm32mp1_init_scmi_server`
for the agent `agent_id`, on the entries still to visit, `n` being the index
of the first of them: the calls of each iteration (the loop run on that one
entry) with the entry the iteration visits. -/
def init_clock_issued {H : Type} (p : Platform H) (agent_id : Nat) :
    List stm32_scmi_clk → Nat → World H →
      List (Option (Nat × Nat) × DriverCall)
  | [], _, _ => []
  | clk :: rest, n, w =>
    match init_clock_loop p [clk] w with
    | none => []
    | some w1 =>
      (new_calls w w1).map (fun c => (some (agent_id, n), c)) ++
        init_clock_issued p agent_id rest (n + 1) w1

/-- The driver calls issued by the loop of `stm32mp1_init_scmi_server` over
`agent_resources`, on the agents still to visit, `i` being the index of the
first of them, each call with the clock table entry whose iteration issued
it. -/
def init_issued {H : Type} (p : Platform H) :
    List scmi_agent_resources → Nat → World H →
      List (Option (Nat × Nat) × DriverCall)
  | [], _, _ => []
  | res :: rest, i, w =>
    match init_clock_loop p res.clock w with
    | none => []
    | some w1 =>
      init_clock_issued p i res.clock 0 w ++ init_issued p rest (i + 1) w1

/-- The driver calls of a ledger that were issued for the clock table entry
`n` of the agent `agent_id`, in the order of issue. -/
def issued_for (ledger : List (Option (Nat × Nat) × DriverCall))
    (agent_id n : Nat) : List DriverCall :=
  (ledger.filter (fun x => decide (x.1 = some (agent_id, n)))).map
    (fun x => x.2)

/-- The worlds that a sequence of served requests leads to from `w` with the
ledger `l`, each request served on a platform of its own (so under policy
answers and driver behaviour of its own), together with the ledger of the
driver calls issued so far: every request adds the calls it issued, with the
clock table entry it designates. -/
inductive Served {H : Type} (w : World H)
    (l : List (Option (Nat × Nat) × DriverCall)) :
    World H → List (Option (Nat × Nat) × DriverCall) → Prop where
  | start : Served w l w l
  | call (w1 w2 : World H) (l1 : List (Option (Nat × Nat) × DriverCall))
      (p : Platform H) (req : Request) :
      Served w l w1 l1 → serve p w1 req = some w2 →
      Served w l w2 (l1 ++ issued_by req w1 w2)

/-- A step from `w` to `w1` that keeps the tables and issues no `clk_enable`
and no `clk_disable` call. -/
def quiet_step {H : Type} (w w1 : World H) : Prop :=
  w1.tables = w.tables ∧
  ∃ added, w1.trace = w.trace ++ added ∧
    ∀ c ∈ added, is_clk_enable c = false ∧ is_clk_disable c = false

/-- Whether a name is present, not empty and shorter than `size` bytes. -/
def name_fits (size : Nat) (name : Option String) : Bool :=
  match name with
  | none => false
  | some s => decide (0 < strlen s) && decide (strlen s < size)

/-- A ledger that accounts for the driver calls of `w` beyond the calls
`t0`, entry by entry: its calls are the calls of the trace after `t0`, every
`clk_enable` or `clk_disable` call in it is attributed to a clock table entry
and names the clock of that entry, and for every clock table entry the
`clk_enable` calls minus the `clk_disable` calls attributed to it are 1 if
the cached enabled flag of the entry is set and 0 otherwise. -/
def ledger_balanced {H : Type} (t0 : List DriverCall) (w : World H)
    (ledger : List (Option (Nat × Nat) × DriverCall)) : Prop :=
  w.trace = t0 ++ ledger.map (fun x => x.2) ∧
  (∀ x ∈ ledger, is_clk_enable x.2 = true ∨ is_clk_disable x.2 = true →
    ∃ agent_id n clock, x.1 = some (agent_id, n) ∧
      clock_at w agent_id n = some clock ∧
      (x.2 = DriverCall.clk_enable clock.clock_id ∨
        x.2 = DriverCall.clk_disable clock.clock_id)) ∧
  (∀ agent_id n clock, clock_at w agent_id n = some clock →
    net_enables (issued_for ledger agent_id n) =
      if clock.enabled = true then 1 else 0)

/-- A world with two agents that each expose one entry for the same clock
(clock id 7): the entry of agent 0 is initially enabled, the entry of agent 1
is not. -/
def shared_clock_world : World Unit :=
  { tables :=
      [ { clock := [CLOCK_CELL 7 "ck_a" true], rd := [], voltd := [] },
        { clock := [CLOCK_CELL 7 "ck_b" false], rd := [], voltd := [] } ],
    hw := (),
    trace := [] }

/-- The world `stm32mp1_init_scmi_server` leaves from `shared_clock_world`
on a sample platform that permits every clock: one `clk_enable` call, for
the entry of agent 0. -/
def shared_clock_init_world : World Unit :=
  { shared_clock_world with trace := [DriverCall.clk_enable 7] }

/-- The world after agent 1 enabled its entry in `shared_clock_init_world`:
both cached flags are set and `clk_enable` was called twice for the clock. -/
def shared_clock_served_world : World Unit :=
  { tables :=
      [ { clock := [CLOCK_CELL 7 "ck_a" true], rd := [], voltd := [] },
        { clock := [CLOCK_CELL 7 "ck_b" true], rd := [], voltd := [] } ],
    hw := (),
    trace := [DriverCall.clk_enable 7, DriverCall.clk_enable 7] }

/-- The ledger of `shared_clock_served_world`: the first `clk_enable` call
was issued for the entry of agent 0, the second for the entry of agent 1. -/
def shared_clock_ledger : List (Option (Nat × Nat) × DriverCall) :=
  [(some (0, 0), DriverCall.clk_enable 7),
   (some (1, 0), DriverCall.clk_enable 7)]

/-! ## Lemmas on the catalog lookup -/

theorem find_loop_spec (scmi_id : Nat) :
    ∀ left n : Nat, find_loop scmi_id left n =
      if n ≤ scmi_id ∧ scmi_id < n + left then some scmi_id else none := by
  intro left
  induction left with
  | zero =>
    intro n
    have h : ¬ (n ≤ scmi_id ∧ scmi_id < n + 0) := by omega
    rw [find_loop, if_neg h]
  | succ k ih =>
    intro n
    by_cases hn : n = scmi_id
    · subst hn
      simp [find_loop]
    · rw [find_loop, if_neg hn, ih]
      by_cases h1 : n + 1 ≤ scmi_id ∧ scmi_id < n + 1 + k
      · have h2 : n ≤ scmi_id ∧ scmi_id < n + (k + 1) := by omega
        rw [if_pos h1, if_pos h2]
      · have h2 : ¬ (n ≤ scmi_id ∧ scmi_id < n + (k + 1)) := by omega
        rw [if_neg h1, if_neg h2]

theorem find_loop_in_range {scmi_id count : Nat} (h : scmi_id < count) :
    find_loop scmi_id count 0 = some scmi_id := by
  rw [find_loop_spec, if_pos]
  omega

theorem find_loop_out_of_range {scmi_id count : Nat} (h : count ≤ scmi_id) :
    find_loop scmi_id count 0 = none := by
  rw [find_loop_spec, if_neg]
  omega

theorem find_clock_eq {H : Type} (w : World H) (agent_id scmi_id : Nat)
    (resource : scmi_agent_resources)
    (hr : w.tables[agent_id]? = some resource) :
    find_clock w agent_id scmi_id =
      some (if scmi_id < resource.clock.length then some scmi_id else none) := by
  unfold find_clock find_resource
  rw [hr]
  simp only [scmi_agent_resources.clock_count, find_loop_spec]
  congr 1
  by_cases h : scmi_id < resource.clock.length
  · rw [if_pos h, if_pos]; omega
  · rw [if_neg h, if_neg]; omega

theorem find_rd_eq {H : Type} (w : World H) (agent_id scmi_id : Nat)
    (resource : scmi_agent_resources)
    (hr : w.tables[agent_id]? = some resource) :
    find_rd w agent_id scmi_id =
      some (if scmi_id < resource.rd.length then some scmi_id else none) := by
  unfold find_rd find_resource
  rw [hr]
  simp only [scmi_agent_resources.rd_count, find_loop_spec]
  congr 1
  by_cases h : scmi_id < resource.rd.length
  · rw [if_pos h, if_pos]; omega
  · rw [if_neg h, if_neg]; omega

theorem find_voltd_eq {H : Type} (w : World H) (agent_id scmi_id : Nat)
    (resource : scmi_agent_resources)
    (hr : w.tables[agent_id]? = some resource) :
    find_voltd w agent_id scmi_id =
      some (if scmi_id < resource.voltd.length then some scmi_id else none) := by
  unfold find_voltd find_resource
  rw [hr]
  simp only [scmi_agent_resources.voltd_count, find_loop_spec]
  congr 1
  by_cases h : scmi_id < resource.voltd.length
  · rw [if_pos h, if_pos]; omega
  · rw [if_neg h, if_neg]; omega

theorem find_clock_of_clock_at {H : Type} {w : World H} {agent_id n : Nat}
    {clock : stm32_scmi_clk} (h : clock_at w agent_id n = some clock) :
    find_clock w agent_id n = some (some n) := by
  unfold clock_at at h
  cases hr : w.tables[agent_id]? with
  | none => rw [hr] at h; cases h
  | some resource =>
    simp only [hr] at h
    have hlt : n < resource.clock.length := (List.getElem?_eq_some.mp h).1
    rw [find_clock_eq w agent_id n resource hr, if_pos hlt]

theorem find_rd_of_rd_at {H : Type} {w : World H} {agent_id n : Nat}
    {rd : stm32_scmi_rd} (h : rd_at w agent_id n = some rd) :
    find_rd w agent_id n = some (some n) := by
  unfold rd_at at h
  cases hr : w.tables[agent_id]? with
  | none => rw [hr] at h; cases h
  | some resource =>
    simp only [hr] at h
    have hlt : n < resource.rd.length := (List.getElem?_eq_some.mp h).1
    rw [find_rd_eq w agent_id n resource hr, if_pos hlt]

theorem find_voltd_of_voltd_at {H : Type} {w : World H} {agent_id n : Nat}
    {voltd : stm32_scmi_voltd} (h : voltd_at w agent_id n = some voltd) :
    find_voltd w agent_id n = some (some n) := by
  unfold voltd_at at h
  cases hr : w.tables[agent_id]? with
  | none => rw [hr] at h; cases h
  | some resource =>
    simp only [hr] at h
    have hlt : n < resource.voltd.length := (List.getElem?_eq_some.mp h).1
    rw [find_voltd_eq w agent_id n resource hr, if_pos hlt]

theorem clock_at_store_enabled {H : Type} (w : World H) (agent_id n : Nat)
    (v : Bool) (clock : stm32_scmi_clk)
    (h : clock_at w agent_id n = some clock) :
    clock_at (store_enabled w agent_id n v) agent_id n =
      some { clock with enabled := v } := by
  unfold clock_at at h ⊢
  cases hr : w.tables[agent_id]? with
  | none => rw [hr] at h; cases h
  | some resource =>
    simp only [hr] at h
    simp [store_enabled, List.getElem?_modify, hr, h]

theorem to_long_of_range {x : Int} (h0 : 0 ≤ x) (h1 : x ≤ 2147483647) :
    to_long x = x := by
  unfold to_long LONG_MAX
  have hm : x % 2 ^ 32 = x := Int.emod_eq_of_lt h0 (by omega)
  simp only [hm]
  rw [if_pos (by norm_num; exact h1)]

theorem World.read_hw {H : Type} (w : World H) (c : DriverCall) :
    (w.read c).hw = w.hw :=
  rfl

theorem World.read_tables {H : Type} (w : World H) (c : DriverCall) :
    (w.read c).tables = w.tables :=
  rfl

theorem World.read_trace {H : Type} (w : World H) (c : DriverCall) :
    (w.read c).trace = w.trace ++ [c] :=
  rfl

theorem pmic_copy_levels_spec (levels : List Nat) (start_index : Nat) :
    ∀ (left i : Nat) (buf : List Int),
      start_index + i + left ≤ levels.length → i + left ≤ buf.length →
      ∃ out, pmic_copy_levels levels start_index left i buf = some out ∧
        out.length = buf.length ∧
        (∀ j, i ≤ j → j < i + left →
          out[j]? = (levels[start_index + j]?).map
            (fun level => to_long ((level % 2 ^ 16 : Nat) * 1000))) ∧
        (∀ j, j < i ∨ i + left ≤ j → out[j]? = buf[j]?) := by
  intro left
  induction left with
  | zero =>
    intro i buf _ _
    refine ⟨buf, rfl, rfl, ?_, ?_⟩
    · intro j h1 h2
      omega
    · intro j _
      rfl
  | succ k ih =>
    intro i buf hl hb
    have hi : start_index + i < levels.length := by omega
    have hib : i < buf.length := by omega
    obtain ⟨out, hout, hlen, hin, hout_of⟩ :=
      ih (i + 1)
        (buf.set i (to_long ((levels[start_index + i] % 2 ^ 16 : Nat) * 1000)))
        (by omega) (by rw [List.length_set]; omega)
    refine ⟨out, ?_, ?_, ?_, ?_⟩
    · rw [pmic_copy_levels, List.getElem?_eq_getElem hi]
      simp only [if_pos hib]
      exact hout
    · rw [hlen, List.length_set]
    · intro j h1 h2
      by_cases hj : j = i
      · subst hj
        rw [hout_of j (Or.inl (by omega)), List.getElem?_set,
          List.getElem?_eq_getElem hi]
        simp [hib]
      · exact hin j (by omega) (by omega)
    · intro j hj
      rw [hout_of j (by omega), List.getElem?_set]
      have hne : ¬ i = j := by omega
      rw [if_neg hne]

theorem size_t_sub_of_le {a b : Nat} (hb : b ≤ a) (ha : a < SIZE_T_MOD) :
    size_t_sub a b = a - b := by
  unfold size_t_sub
  unfold SIZE_T_MOD at ha ⊢
  have hbm : b % 2 ^ 32 = b := Nat.mod_eq_of_lt (by omega)
  have h : a + 2 ^ 32 - b = (a - b) + 2 ^ 32 := by omega
  rw [Nat.mod_eq_of_lt ha, hbm, h, Nat.add_mod_right]
  exact Nat.mod_eq_of_lt (by omega)

theorem level_to_microvolt {level : Nat} (h : level ≤ UINT16_MAX) :
    to_long ((level % 2 ^ 16 : Nat) * 1000) = 1000 * (level : Int) := by
  unfold UINT16_MAX at h
  have hm : level % 2 ^ 16 = level := Nat.mod_eq_of_lt (by omega)
  rw [hm, to_long_of_range (by positivity) (by omega)]
  ring

theorem init_clock_loop_rejects {H : Type} (p : Platform H) :
    ∀ (table : List stm32_scmi_clk) (w : World H),
      (∃ clk ∈ table, name_rejected clk.name SCMI_CLOCK_NAME_SIZE) →
      init_clock_loop p table w = none := by
  intro table
  induction table with
  | nil =>
    intro w h
    obtain ⟨clk, hmem, _⟩ := h
    cases hmem
  | cons head rest ih =>
    intro w h
    obtain ⟨clk, hmem, hbad⟩ := h
    rw [init_clock_loop]
    cases hname : head.name with
    | none => rfl
    | some name =>
      simp only
      by_cases hlong : strlen name ≥ SCMI_CLOCK_NAME_SIZE
      · rw [if_pos hlong]
      · rw [if_neg hlong]
        apply ih
        rcases List.mem_cons.mp hmem with heq | hrest
        · subst heq
          rcases hbad with hnone | ⟨s, hs, hlen⟩
          · rw [hname] at hnone
            cases hnone
          · rw [hname] at hs
            cases hs
            exact absurd hlen hlong
        · exact ⟨clk, hrest, hbad⟩

theorem init_rd_loop_rejects :
    ∀ table : List stm32_scmi_rd,
      (∃ rd ∈ table, name_rejected rd.name SCMI_RD_NAME_SIZE) →
      init_rd_loop table = false := by
  intro table
  induction table with
  | nil =>
    intro h
    obtain ⟨rd, hmem, _⟩ := h
    cases hmem
  | cons head rest ih =>
    intro h
    obtain ⟨rd, hmem, hbad⟩ := h
    rw [init_rd_loop]
    cases hname : head.name with
    | none => rfl
    | some name =>
      simp only
      by_cases hlong : strlen name ≥ SCMI_RD_NAME_SIZE
      · rw [if_pos hlong]
      · rw [if_neg hlong]
        apply ih
        rcases List.mem_cons.mp hmem with heq | hrest
        · subst heq
          rcases hbad with hnone | ⟨s, hs, hlen⟩
          · rw [hname] at hnone
            cases hnone
          · rw [hname] at hs
            cases hs
            exact absurd hlen hlong
        · exact ⟨rd, hrest, hbad⟩

theorem init_voltd_loop_rejects :
    ∀ table : List stm32_scmi_voltd,
      (∃ voltd ∈ table, name_rejected voltd.name SCMI_VOLTD_NAME_SIZE) →
      init_voltd_loop table = false := by
  intro table
  induction table with
  | nil =>
    intro h
    obtain ⟨voltd, hmem, _⟩ := h
    cases hmem
  | cons head rest ih =>
    intro h
    obtain ⟨voltd, hmem, hbad⟩ := h
    rw [init_voltd_loop]
    cases hname : head.name with
    | none => rfl
    | some name =>
      simp only
      by_cases hlong : strlen name ≥ SCMI_VOLTD_NAME_SIZE
      · rw [if_pos hlong]
      · rw [if_neg hlong]
        apply ih
        rcases List.mem_cons.mp hmem with heq | hrest
        · subst heq
          rcases hbad with hnone | ⟨s, hs, hlen⟩
          · rw [hname] at hnone
            cases hnone
          · rw [hname] at hs
            cases hs
            exact absurd hlen hlong
        · exact ⟨voltd, hrest, hbad⟩

theorem init_agent_loop_rejects {H : Type} (p : Platform H) :
    ∀ (tables : List scmi_agent_resources) (w : World H),
      (∃ res ∈ tables,
        (∃ clk ∈ res.clock, name_rejected clk.name SCMI_CLOCK_NAME_SIZE) ∨
        (∃ rd ∈ res.rd, name_rejected rd.name SCMI_RD_NAME_SIZE) ∨
        (∃ voltd ∈ res.voltd,
          name_rejected voltd.name SCMI_VOLTD_NAME_SIZE)) →
      init_agent_loop p tables w = none := by
  intro tables
  induction tables with
  | nil =>
    intro w h
    obtain ⟨res, hmem, _⟩ := h
    cases hmem
  | cons head rest ih =>
    intro w h
    obtain ⟨res, hmem, hbad⟩ := h
    rw [init_agent_loop]
    cases hclk : init_clock_loop p head.clock w with
    | none => rfl
    | some w1 =>
      simp only
      cases hrd : init_rd_loop head.rd with
      | false => simp
      | true =>
        cases hvoltd : init_voltd_loop head.voltd with
        | false => simp
        | true =>
          simp only [Bool.not_true, Bool.false_eq_true, if_false]
          apply ih
          rcases List.mem_cons.mp hmem with heq | hrest
          · subst heq
            rcases hbad with hc | hr | hv
            · rw [init_clock_loop_rejects p _ w hc] at hclk
              cases hclk
            · rw [init_rd_loop_rejects _ hr] at hrd
              cases hrd
            · rw [init_voltd_loop_rejects _ hv] at hvoltd
              cases hvoltd
          · exact ⟨res, hrest, hbad⟩

theorem find_clock_of_clock_at_none {H : Type} {w : World H} {agent_id n : Nat}
    (hA : agent_id < w.tables.length)
    (h : clock_at w agent_id n = none) :
    find_clock w agent_id n = some none := by
  have hr : w.tables[agent_id]? = some w.tables[agent_id] :=
    List.getElem?_eq_getElem hA
  unfold clock_at at h
  simp only [hr] at h
  rw [find_clock_eq w agent_id n _ hr, if_neg]
  exact Nat.not_lt.mpr (List.getElem?_eq_none_iff.mp h)

theorem find_voltd_of_voltd_at_none {H : Type} {w : World H} {agent_id n : Nat}
    (hA : agent_id < w.tables.length)
    (h : voltd_at w agent_id n = none) :
    find_voltd w agent_id n = some none := by
  have hr : w.tables[agent_id]? = some w.tables[agent_id] :=
    List.getElem?_eq_getElem hA
  unfold voltd_at at h
  simp only [hr] at h
  rw [find_voltd_eq w agent_id n _ hr, if_neg]
  exact Nat.not_lt.mpr (List.getElem?_eq_none_iff.mp h)

theorem pwr_describe_levels_error_frame {H : Type} (p : Platform H)
    (w : World H) (voltd : stm32_scmi_voltd) (start_index : Nat)
    (microvolt : Option (List Int)) (nb_elts : Nat) (status : scmi_status)
    (out : Option (List Int)) (nb1 : Nat) (w1 : World H)
    (h : pwr_describe_levels p w voltd start_index microvolt nb_elts =
      some (status, out, nb1, w1))
    (hne : status ≠ SCMI_SUCCESS) : out = microvolt ∧ nb1 = nb_elts := by
  unfold pwr_describe_levels at h
  repeat' split at h
  all_goals simp_all

theorem pmic_describe_levels_error_frame {H : Type} (p : Platform H)
    (w : World H) (voltd : stm32_scmi_voltd) (start_index : Nat)
    (microvolt : Option (List Int)) (nb_elts : Nat) (status : scmi_status)
    (out : Option (List Int)) (nb1 : Nat) (w1 : World H)
    (h : pmic_describe_levels p w voltd start_index microvolt nb_elts =
      some (status, out, nb1, w1))
    (hne : status ≠ SCMI_SUCCESS) : out = microvolt ∧ nb1 = nb_elts := by
  unfold pmic_describe_levels at h
  repeat' split at h
  all_goals simp_all

theorem clock_at_store_enabled_other {H : Type} (w : World H)
    (agent_id n : Nat) (v : Bool) (a i : Nat) (h : a ≠ agent_id ∨ i ≠ n) :
    clock_at (store_enabled w agent_id n v) a i = clock_at w a i := by
  unfold clock_at store_enabled
  simp only [List.getElem?_modify]
  cases hr : w.tables[a]? with
  | none => simp
  | some resource =>
    by_cases ha : agent_id = a
    · subst ha
      have hi : ¬ n = i := by
        rcases h with h | h
        · exact absurd rfl h
        · exact fun e => h e.symm
      simp only [Option.map_eq_map, Option.map_some', if_true,
        List.getElem?_modify, if_neg hi]
      cases resource.clock[i]? <;> simp
    · simp [ha]

theorem rd_at_store_enabled {H : Type} (w : World H)
    (agent_id n : Nat) (v : Bool) (a i : Nat) :
    rd_at (store_enabled w agent_id n v) a i = rd_at w a i := by
  unfold rd_at store_enabled
  simp only [List.getElem?_modify]
  cases hr : w.tables[a]? with
  | none => simp
  | some resource =>
    by_cases ha : agent_id = a
    · simp [ha]
    · simp [ha]

theorem voltd_at_store_enabled {H : Type} (w : World H)
    (agent_id n : Nat) (v : Bool) (a i : Nat) :
    voltd_at (store_enabled w agent_id n v) a i = voltd_at w a i := by
  unfold voltd_at store_enabled
  simp only [List.getElem?_modify]
  cases hr : w.tables[a]? with
  | none => simp
  | some resource =>
    by_cases ha : agent_id = a
    · simp [ha]
    · simp [ha]

theorem pmic_get_level_tables {H : Type} (p : Platform H) (w : World H)
    (voltd : stm32_scmi_voltd) : (pmic_get_level p w voltd).2.tables = w.tables := by
  unfold pmic_get_level
  split <;> rfl

theorem pmic_set_level_tables {H : Type} (p : Platform H) (w : World H)
    (voltd : stm32_scmi_voltd) (level_uv : Int) :
    (pmic_set_level p w voltd level_uv).2.tables = w.tables := by
  unfold pmic_set_level
  repeat' split
  all_goals rfl

theorem pmic_get_state_tables {H : Type} (p : Platform H) (w : World H)
    (voltd : stm32_scmi_voltd) : (pmic_get_state p w voltd).2.tables = w.tables := by
  unfold pmic_get_state
  split <;> rfl

theorem pmic_set_state_acquired_tables {H : Type} (p : Platform H) (w : World H)
    (voltd : stm32_scmi_voltd) :
    (pmic_set_state_acquired p w voltd).tables = w.tables := by
  unfold pmic_set_state_acquired
  split <;> rfl

theorem pmic_set_state_tables {H : Type} (p : Platform H) (w : World H)
    (voltd : stm32_scmi_voltd) (enable : Bool) :
    (pmic_set_state p w voltd enable).2.tables = w.tables := by
  unfold pmic_set_state
  repeat' split
  all_goals first
    | rfl
    | exact pmic_set_state_acquired_tables p w voltd

theorem pwr_get_level_tables {H : Type} (p : Platform H) (w : World H)
    (voltd : stm32_scmi_voltd) (level : Int) (w1 : World H)
    (h : pwr_get_level p w voltd = some (level, w1)) : w1.tables = w.tables := by
  unfold pwr_get_level at h
  split at h
  · cases h
  · cases h
    rfl

theorem pwr_set_level_tables {H : Type} (p : Platform H) (w : World H)
    (voltd : stm32_scmi_voltd) (level_uv : Int) (status : scmi_status)
    (w1 : World H)
    (h : pwr_set_level p w voltd level_uv = some (status, w1)) :
    w1.tables = w.tables := by
  unfold pwr_set_level at h
  split at h
  · cases h
  · rename_i level w2 hg
    have ht := pwr_get_level_tables p w voltd level w2 hg
    split at h <;> (cases h; exact ht)

theorem pwr_describe_levels_tables {H : Type} (p : Platform H) (w : World H)
    (voltd : stm32_scmi_voltd) (start_index : Nat)
    (microvolt : Option (List Int)) (nb_elts : Nat) (status : scmi_status)
    (out : Option (List Int)) (nb1 : Nat) (w1 : World H)
    (h : pwr_describe_levels p w voltd start_index microvolt nb_elts =
      some (status, out, nb1, w1)) : w1.tables = w.tables := by
  unfold pwr_describe_levels at h
  repeat' split at h
  all_goals first
    | (cases h; rfl)
    | (cases h; exact pwr_get_level_tables p w voltd _ _ (by assumption))
    | simp at h

theorem pmic_describe_levels_tables {H : Type} (p : Platform H) (w : World H)
    (voltd : stm32_scmi_voltd) (start_index : Nat)
    (microvolt : Option (List Int)) (nb_elts : Nat) (status : scmi_status)
    (out : Option (List Int)) (nb1 : Nat) (w1 : World H)
    (h : pmic_describe_levels p w voltd start_index microvolt nb_elts =
      some (status, out, nb1, w1)) : w1.tables = w.tables := by
  unfold pmic_describe_levels at h
  simp only [stpmic1_regulator_levels_mv] at h
  repeat' split at h
  all_goals first
    | (simp only [Option.some.injEq, Prod.mk.injEq] at h
       obtain ⟨_, _, _, rfl⟩ := h
       rfl)
    | simp at h

theorem pwr_get_state_tables {H : Type} (p : Platform H) (w : World H)
    (voltd : stm32_scmi_voltd) (state : Nat) (w1 : World H)
    (h : pwr_get_state p w voltd = some (state, w1)) : w1.tables = w.tables := by
  unfold pwr_get_state at h
  repeat' split at h
  all_goals first
    | (cases h; rfl)
    | simp at h

theorem pwr_set_state_tables {H : Type} (p : Platform H) (w : World H)
    (voltd : stm32_scmi_voltd) (enable : Bool) (w1 : World H)
    (h : pwr_set_state p w voltd enable = some w1) : w1.tables = w.tables := by
  unfold pwr_set_state at h
  split at h
  · cases h
  · cases h
    show (if p.dmsg = true then _ else w).tables = w.tables
    split <;> rfl

theorem enabled_flags_of_tables {H : Type} {w w1 : World H}
    (h : w1.tables = w.tables) : enabled_flags w1 = enabled_flags w := by
  unfold enabled_flags
  rw [h]

theorem clock_get_state_eq {H : Type} (p : Platform H) (w : World H)
    (agent_id n : Nat) (clock : stm32_scmi_clk)
    (hc : clock_at w agent_id n = some clock)
    (hpol : p.stm32mp_nsec_can_access_clock w.hw clock.clock_id = true) :
    plat_scmi_clock_get_state p w agent_id n =
      some (if clock.enabled then 1 else 0, w) := by
  simp [plat_scmi_clock_get_state, find_clock_of_clock_at hc, hc, hpol]

theorem name_fits_spec {size : Nat} {name : Option String}
    (h : name_fits size name = true) :
    ∃ s, name = some s ∧ 0 < strlen s ∧ strlen s < size := by
  unfold name_fits at h
  cases name with
  | none => simp at h
  | some s =>
    simp only [Bool.and_eq_true, decide_eq_true_eq] at h
    exact ⟨s, rfl, h.1, h.2⟩

theorem shipped_clock_names (dt : dt_bindings) :
    ∀ res ∈ agent_resources dt, ∀ clk ∈ res.clock,
      ∃ s, clk.name = some s ∧ 0 < strlen s ∧ strlen s < SCMI_CLOCK_NAME_SIZE := by
  intro res hres clk hclk
  apply name_fits_spec
  have hall : ((agent_resources dt).all fun r =>
      r.clock.all fun c => name_fits SCMI_CLOCK_NAME_SIZE c.name) = true := rfl
  exact List.all_eq_true.mp (List.all_eq_true.mp hall res hres) clk hclk

theorem shipped_rd_names (dt : dt_bindings) :
    ∀ res ∈ agent_resources dt, ∀ rd ∈ res.rd,
      ∃ s, rd.name = some s ∧ 0 < strlen s ∧ strlen s < SCMI_RD_NAME_SIZE := by
  intro res hres rd hrd
  apply name_fits_spec
  have hall : ((agent_resources dt).all fun r =>
      r.rd.all fun c => name_fits SCMI_RD_NAME_SIZE c.name) = true := rfl
  exact List.all_eq_true.mp (List.all_eq_true.mp hall res hres) rd hrd

theorem shipped_voltd_names (dt : dt_bindings) :
    ∀ res ∈ agent_resources dt, ∀ voltd ∈ res.voltd,
      ∃ s, voltd.name = some s ∧ 0 < strlen s ∧
        strlen s < SCMI_VOLTD_NAME_SIZE := by
  intro res hres voltd hvoltd
  apply name_fits_spec
  have hall : ((agent_resources dt).all fun r =>
      r.voltd.all fun c => name_fits SCMI_VOLTD_NAME_SIZE c.name) = true := rfl
  exact List.all_eq_true.mp (List.all_eq_true.mp hall res hres) voltd hvoltd

theorem init_clock_loop_accepts {H : Type} (p : Platform H) :
    ∀ (table : List stm32_scmi_clk) (w : World H),
      (∀ clk ∈ table, ∃ s, clk.name = some s ∧ strlen s < SCMI_CLOCK_NAME_SIZE) →
      ∃ w1, init_clock_loop p table w = some w1 ∧ w1.tables = w.tables := by
  intro table
  induction table with
  | nil =>
    intro w _
    exact ⟨w, rfl, rfl⟩
  | cons head rest ih =>
    intro w h
    obtain ⟨s, hs, hlen⟩ := h head (List.mem_cons_self _ _)
    have hnot : ¬ strlen s ≥ SCMI_CLOCK_NAME_SIZE := by omega
    obtain ⟨w1, h1, h2⟩ := ih
      (if head.enabled && p.stm32mp_nsec_can_access_clock w.hw head.clock_id
        then clk_enable p w head.clock_id else w)
      (fun clk hclk => h clk (List.mem_cons_of_mem _ hclk))
    refine ⟨w1, ?_, ?_⟩
    · rw [init_clock_loop, hs]
      simp only [if_neg hnot]
      exact h1
    · rw [h2]
      split <;> rfl

theorem init_rd_loop_accepts :
    ∀ table : List stm32_scmi_rd,
      (∀ rd ∈ table, ∃ s, rd.name = some s ∧ strlen s < SCMI_RD_NAME_SIZE) →
      init_rd_loop table = true := by
  intro table
  induction table with
  | nil => intro _; rfl
  | cons head rest ih =>
    intro h
    obtain ⟨s, hs, hlen⟩ := h head (List.mem_cons_self _ _)
    have hnot : ¬ strlen s ≥ SCMI_RD_NAME_SIZE := by omega
    rw [init_rd_loop, hs]
    simp only [if_neg hnot]
    exact ih (fun rd hrd => h rd (List.mem_cons_of_mem _ hrd))

theorem init_voltd_loop_accepts :
    ∀ table : List stm32_scmi_voltd,
      (∀ voltd ∈ table,
        ∃ s, voltd.name = some s ∧ strlen s < SCMI_VOLTD_NAME_SIZE) →
      init_voltd_loop table = true := by
  intro table
  induction table with
  | nil => intro _; rfl
  | cons head rest ih =>
    intro h
    obtain ⟨s, hs, hlen⟩ := h head (List.mem_cons_self _ _)
    have hnot : ¬ strlen s ≥ SCMI_VOLTD_NAME_SIZE := by omega
    rw [init_voltd_loop, hs]
    simp only [if_neg hnot]
    exact ih (fun v hv => h v (List.mem_cons_of_mem _ hv))

theorem init_agent_loop_accepts {H : Type} (p : Platform H) :
    ∀ (tables : List scmi_agent_resources) (w : World H),
      (∀ res ∈ tables,
        (∀ clk ∈ res.clock,
          ∃ s, clk.name = some s ∧ strlen s < SCMI_CLOCK_NAME_SIZE) ∧
        (∀ rd ∈ res.rd, ∃ s, rd.name = some s ∧ strlen s < SCMI_RD_NAME_SIZE) ∧
        (∀ voltd ∈ res.voltd,
          ∃ s, voltd.name = some s ∧ strlen s < SCMI_VOLTD_NAME_SIZE)) →
      ∃ w1, init_agent_loop p tables w = some w1 ∧ w1.tables = w.tables := by
  intro tables
  induction tables with
  | nil =>
    intro w _
    exact ⟨w, rfl, rfl⟩
  | cons head rest ih =>
    intro w h
    obtain ⟨hc, hr, hv⟩ := h head (List.mem_cons_self _ _)
    obtain ⟨w1, h1, h2⟩ := init_clock_loop_accepts p head.clock w hc
    obtain ⟨w2, h3, h4⟩ := ih w1
      (fun res hres => h res (List.mem_cons_of_mem _ hres))
    refine ⟨w2, ?_, by rw [h4, h2]⟩
    rw [init_agent_loop, h1]
    simp only [init_rd_loop_accepts head.rd hr,
      init_voltd_loop_accepts head.voltd hv, Bool.not_true, Bool.false_eq_true,
      if_false]
    exact h3

theorem mem_of_getElem?_eq_some {α : Type} {l : List α} {i : Nat} {a : α}
    (h : l[i]? = some a) : a ∈ l := by
  obtain ⟨hlt, he⟩ := List.getElem?_eq_some.mp h
  rw [← he]
  exact List.getElem_mem hlt

theorem shipped_voltd_entry {H : Type} (p : Platform H) (w : World H)
    (agent_id scmi_id : Nat) (voltd : stm32_scmi_voltd)
    (hshipped : w.tables.map (fun r => r.voltd) =
      (agent_resources p.dt).map (fun r => r.voltd))
    (hv : voltd_at w agent_id scmi_id = some voltd) :
    voltd ∈ scmi0_voltage_domain := by
  unfold voltd_at at hv
  cases hr : w.tables[agent_id]? with
  | none => simp [hr] at hv
  | some resource =>
    simp only [hr] at hv
    have hmem : resource.voltd ∈ w.tables.map (fun r => r.voltd) :=
      List.mem_map.mpr ⟨resource, mem_of_getElem?_eq_some hr, rfl⟩
    rw [hshipped] at hmem
    have hcases : resource.voltd = scmi0_voltage_domain ∨ resource.voltd = [] := by
      simpa [agent_resources] using hmem
    rcases hcases with h | h
    · rw [h] at hv
      exact mem_of_getElem?_eq_some hv
    · rw [h] at hv
      simp at hv

theorem shipped_voltd_fixed_rail :
    ∀ voltd ∈ scmi0_voltage_domain,
      voltd.priv_dev = VOLTD_PWR ∧ voltd.priv_dev ≠ VOLTD_PMIC ∧
      voltd.priv_id ∈ ["0", "1", "2"] ∧
      ∃ regu_id, pwr_scmi_to_regu_id voltd = some regu_id := by
  intro voltd hmem
  simp only [scmi0_voltage_domain, List.mem_cons, List.mem_singleton,
    List.mem_nil_iff, or_false] at hmem
  rcases hmem with h | h | h <;> subst h
  · exact ⟨rfl, by decide, by decide, pwr_regulator.PWR_REG11, by decide⟩
  · exact ⟨rfl, by decide, by decide, pwr_regulator.PWR_REG18, by decide⟩
  · exact ⟨rfl, by decide, by decide, pwr_regulator.PWR_USB33, by decide⟩

theorem clock_at_some {H : Type} {w : World H} {agent_id n : Nat}
    {clock : stm32_scmi_clk} (h : clock_at w agent_id n = some clock) :
    ∃ resource, w.tables[agent_id]? = some resource ∧
      resource.clock[n]? = some clock := by
  unfold clock_at at h
  cases hr : w.tables[agent_id]? with
  | none => simp [hr] at h
  | some resource =>
    simp only [hr] at h
    exact ⟨resource, rfl, h⟩

theorem quiet_step_refl {H : Type} (w : World H) : quiet_step w w :=
  ⟨rfl, [], (List.append_nil _).symm, fun _ hc => by cases hc⟩

theorem quiet_step_trans {H : Type} {w w1 w2 : World H}
    (h1 : quiet_step w w1) (h2 : quiet_step w1 w2) : quiet_step w w2 := by
  obtain ⟨ht1, a1, he1, hq1⟩ := h1
  obtain ⟨ht2, a2, he2, hq2⟩ := h2
  refine ⟨ht2.trans ht1, a1 ++ a2, ?_, ?_⟩
  · rw [he2, he1, List.append_assoc]
  · intro c hc
    rcases List.mem_append.mp hc with hc | hc
    · exact hq1 c hc
    · exact hq2 c hc

theorem pmic_get_level_quiet {H : Type} (p : Platform H) (w : World H)
    (voltd : stm32_scmi_voltd) :
    quiet_step w (pmic_get_level p w voltd).2 := by
  unfold pmic_get_level
  repeat' split
  all_goals first
    | exact quiet_step_refl w
    | simp [quiet_step, stm32mp1_set_opp_khz, clk_get_rate, stm32_reset_assert,
          stm32_reset_deassert, stm32_reset_set, stm32_reset_release,
          stm32_reset_assert_deassert_mcu, stm32mp1_pwr_regulator_mv,
          stm32mp1_pwr_regulator_is_enabled,
          stm32mp1_pwr_regulator_set_state, stm32mp_get_pmic,
          stm32mp_put_pmic, stpmic1_regulator_levels_mv,
          stpmic1_regulator_voltage_get, stpmic1_regulator_voltage_set,
          stpmic1_is_regulator_enabled, stpmic1_regulator_enable,
          stpmic1_regulator_disable, World.act, World.read, is_clk_enable,
          is_clk_disable]

theorem pmic_set_level_quiet {H : Type} (p : Platform H) (w : World H)
    (voltd : stm32_scmi_voltd) (level_uv : Int) :
    quiet_step w (pmic_set_level p w voltd level_uv).2 := by
  unfold pmic_set_level
  repeat' split
  all_goals first
    | exact quiet_step_refl w
    | simp [quiet_step, stm32mp1_set_opp_khz, clk_get_rate, stm32_reset_assert,
          stm32_reset_deassert, stm32_reset_set, stm32_reset_release,
          stm32_reset_assert_deassert_mcu, stm32mp1_pwr_regulator_mv,
          stm32mp1_pwr_regulator_is_enabled,
          stm32mp1_pwr_regulator_set_state, stm32mp_get_pmic,
          stm32mp_put_pmic, stpmic1_regulator_levels_mv,
          stpmic1_regulator_voltage_get, stpmic1_regulator_voltage_set,
          stpmic1_is_regulator_enabled, stpmic1_regulator_enable,
          stpmic1_regulator_disable, World.act, World.read, is_clk_enable,
          is_clk_disable]

theorem pmic_get_state_quiet {H : Type} (p : Platform H) (w : World H)
    (voltd : stm32_scmi_voltd) :
    quiet_step w (pmic_get_state p w voltd).2 := by
  unfold pmic_get_state
  repeat' split
  all_goals first
    | exact quiet_step_refl w
    | simp [quiet_step, stm32mp1_set_opp_khz, clk_get_rate, stm32_reset_assert,
          stm32_reset_deassert, stm32_reset_set, stm32_reset_release,
          stm32_reset_assert_deassert_mcu, stm32mp1_pwr_regulator_mv,
          stm32mp1_pwr_regulator_is_enabled,
          stm32mp1_pwr_regulator_set_state, stm32mp_get_pmic,
          stm32mp_put_pmic, stpmic1_regulator_levels_mv,
          stpmic1_regulator_voltage_get, stpmic1_regulator_voltage_set,
          stpmic1_is_regulator_enabled, stpmic1_regulator_enable,
          stpmic1_regulator_disable, World.act, World.read, is_clk_enable,
          is_clk_disable]

theorem pmic_set_state_acquired_quiet {H : Type} (p : Platform H)
    (w : World H) (voltd : stm32_scmi_voltd) :
    quiet_step w (pmic_set_state_acquired p w voltd) := by
  unfold pmic_set_state_acquired
  split
  all_goals simp [quiet_step, stm32mp1_set_opp_khz, clk_get_rate, stm32_reset_assert,
        stm32_reset_deassert, stm32_reset_set, stm32_reset_release,
        stm32_reset_assert_deassert_mcu, stm32mp1_pwr_regulator_mv,
        stm32mp1_pwr_regulator_is_enabled,
        stm32mp1_pwr_regulator_set_state, stm32mp_get_pmic,
        stm32mp_put_pmic, stpmic1_regulator_levels_mv,
        stpmic1_regulator_voltage_get, stpmic1_regulator_voltage_set,
        stpmic1_is_regulator_enabled, stpmic1_regulator_enable,
        stpmic1_regulator_disable, World.act, World.read, is_clk_enable,
        is_clk_disable]

theorem pmic_set_state_quiet {H : Type} (p : Platform H) (w : World H)
    (voltd : stm32_scmi_voltd) (enable : Bool) :
    quiet_step w (pmic_set_state p w voltd enable).2 := by
  unfold pmic_set_state
  repeat' split
  all_goals first
    | exact quiet_step_refl w
    | (refine quiet_step_trans (pmic_set_state_acquired_quiet p w voltd) ?_
       simp [quiet_step, stm32mp1_set_opp_khz, clk_get_rate, stm32_reset_assert,
           stm32_reset_deassert, stm32_reset_set, stm32_reset_release,
           stm32_reset_assert_deassert_mcu, stm32mp1_pwr_regulator_mv,
           stm32mp1_pwr_regulator_is_enabled,
           stm32mp1_pwr_regulator_set_state, stm32mp_get_pmic,
           stm32mp_put_pmic, stpmic1_regulator_levels_mv,
           stpmic1_regulator_voltage_get, stpmic1_regulator_voltage_set,
           stpmic1_is_regulator_enabled, stpmic1_regulator_enable,
           stpmic1_regulator_disable, World.act, World.read, is_clk_enable,
           is_clk_disable])

theorem pwr_get_level_quiet {H : Type} (p : Platform H) (w : World H)
    (voltd : stm32_scmi_voltd) (level : Int) (w1 : World H)
    (h : pwr_get_level p w voltd =
      some (level, w1)) : quiet_step w w1 := by
  unfold pwr_get_level at h
  repeat' split at h
  all_goals first
    | contradiction
    | (cases h
       simp [quiet_step, stm32mp1_set_opp_khz, clk_get_rate, stm32_reset_assert,
           stm32_reset_deassert, stm32_reset_set, stm32_reset_release,
           stm32_reset_assert_deassert_mcu, stm32mp1_pwr_regulator_mv,
           stm32mp1_pwr_regulator_is_enabled,
           stm32mp1_pwr_regulator_set_state, stm32mp_get_pmic,
           stm32mp_put_pmic, stpmic1_regulator_levels_mv,
           stpmic1_regulator_voltage_get, stpmic1_regulator_voltage_set,
           stpmic1_is_regulator_enabled, stpmic1_regulator_enable,
           stpmic1_regulator_disable, World.act, World.read, is_clk_enable,
           is_clk_disable])

theorem pwr_set_level_quiet {H : Type} (p : Platform H) (w : World H)
    (voltd : stm32_scmi_voltd) (level_uv : Int) (status : scmi_status) (w1 : World H)
    (h : pwr_set_level p w voltd level_uv =
      some (status, w1)) : quiet_step w w1 := by
  unfold pwr_set_level at h
  repeat' split at h
  all_goals first
    | contradiction
    | exact pwr_get_level_quiet p w _ _ _ h
    | (cases h; exact pwr_get_level_quiet p w _ _ _ (by assumption))

theorem pwr_describe_levels_quiet {H : Type} (p : Platform H) (w : World H)
    (voltd : stm32_scmi_voltd) (start_index : Nat)
    (microvolt : Option (List Int)) (nb_elts : Nat) (status : scmi_status)
    (out : Option (List Int)) (nb1 : Nat) (w1 : World H)
    (h : pwr_describe_levels p w voltd start_index microvolt nb_elts =
      some (status, out, nb1, w1)) : quiet_step w w1 := by
  unfold pwr_describe_levels at h
  repeat' split at h
  all_goals first
    | contradiction
    | exact pwr_get_level_quiet p w _ _ _ h
    | (cases h; exact pwr_get_level_quiet p w _ _ _ (by assumption))
    | (cases h; exact quiet_step_refl w)

theorem pwr_get_state_quiet {H : Type} (p : Platform H) (w : World H)
    (voltd : stm32_scmi_voltd) (state : Nat) (w1 : World H)
    (h : pwr_get_state p w voltd =
      some (state, w1)) : quiet_step w w1 := by
  unfold pwr_get_state at h
  repeat' split at h
  all_goals first
    | contradiction
    | (cases h
       simp [quiet_step, stm32mp1_set_opp_khz, clk_get_rate, stm32_reset_assert,
           stm32_reset_deassert, stm32_reset_set, stm32_reset_release,
           stm32_reset_assert_deassert_mcu, stm32mp1_pwr_regulator_mv,
           stm32mp1_pwr_regulator_is_enabled,
           stm32mp1_pwr_regulator_set_state, stm32mp_get_pmic,
           stm32mp_put_pmic, stpmic1_regulator_levels_mv,
           stpmic1_regulator_voltage_get, stpmic1_regulator_voltage_set,
           stpmic1_is_regulator_enabled, stpmic1_regulator_enable,
           stpmic1_regulator_disable, World.act, World.read, is_clk_enable,
           is_clk_disable])

theorem pmic_describe_levels_quiet {H : Type} (p : Platform H) (w : World H)
    (voltd : stm32_scmi_voltd) (start_index : Nat)
    (microvolt : Option (List Int)) (nb_elts : Nat) (status : scmi_status)
    (out : Option (List Int)) (nb1 : Nat) (w1 : World H)
    (h : pmic_describe_levels p w voltd start_index microvolt nb_elts =
      some (status, out, nb1, w1)) : quiet_step w w1 := by
  unfold pmic_describe_levels at h
  simp only [stpmic1_regulator_levels_mv] at h
  repeat' split at h
  all_goals first
    | contradiction
    | (cases h; exact quiet_step_refl w)
    | (cases h
       simp [quiet_step, stm32mp1_set_opp_khz, clk_get_rate, stm32_reset_assert,
           stm32_reset_deassert, stm32_reset_set, stm32_reset_release,
           stm32_reset_assert_deassert_mcu, stm32mp1_pwr_regulator_mv,
           stm32mp1_pwr_regulator_is_enabled,
           stm32mp1_pwr_regulator_set_state, stm32mp_get_pmic,
           stm32mp_put_pmic, stpmic1_regulator_levels_mv,
           stpmic1_regulator_voltage_get, stpmic1_regulator_voltage_set,
           stpmic1_is_regulator_enabled, stpmic1_regulator_enable,
           stpmic1_regulator_disable, World.act, World.read, is_clk_enable,
           is_clk_disable])

theorem pwr_set_state_quiet {H : Type} (p : Platform H) (w : World H)
    (voltd : stm32_scmi_voltd) (enable : Bool) (w1 : World H)
    (h : pwr_set_state p w voltd enable = some w1) : quiet_step w w1 := by
  unfold pwr_set_state at h
  split at h
  · simp at h
  · cases h
    cases hd : p.dmsg <;>
      simp [quiet_step, stm32mp1_set_opp_khz, clk_get_rate, stm32_reset_assert,
          stm32_reset_deassert, stm32_reset_set, stm32_reset_release,
          stm32_reset_assert_deassert_mcu, stm32mp1_pwr_regulator_mv,
          stm32mp1_pwr_regulator_is_enabled,
          stm32mp1_pwr_regulator_set_state, stm32mp_get_pmic,
          stm32mp_put_pmic, stpmic1_regulator_levels_mv,
          stpmic1_regulator_voltage_get, stpmic1_regulator_voltage_set,
          stpmic1_is_regulator_enabled, stpmic1_regulator_enable,
          stpmic1_regulator_disable, World.act, World.read, is_clk_enable,
          is_clk_disable]

theorem plat_scmi_clock_get_name_quiet {H : Type} (p : Platform H) (w : World H)
    (agent_id scmi_id : Nat) (name : Option String) (w1 : World H)
    (h : plat_scmi_clock_get_name p w agent_id scmi_id =
      some (name, w1)) : quiet_step w w1 := by
  unfold plat_scmi_clock_get_name at h
  repeat' split at h
  all_goals first
    | contradiction
    | (cases h; exact quiet_step_refl w)

theorem plat_scmi_clock_rates_by_step_quiet {H : Type} (p : Platform H) (w : World H)
    (agent_id scmi_id : Nat) (array : List Nat) (status : scmi_status)
    (out : List Nat) (w1 : World H)
    (h : plat_scmi_clock_rates_by_step p w agent_id scmi_id array =
      some (status, out, w1)) : quiet_step w w1 := by
  unfold plat_scmi_clock_rates_by_step at h
  repeat' split at h
  all_goals first
    | contradiction
    | (cases h; exact quiet_step_refl w)
    | (cases h
       simp [quiet_step, stm32mp1_set_opp_khz, clk_get_rate, stm32_reset_assert,
           stm32_reset_deassert, stm32_reset_set, stm32_reset_release,
           stm32_reset_assert_deassert_mcu, stm32mp1_pwr_regulator_mv,
           stm32mp1_pwr_regulator_is_enabled,
           stm32mp1_pwr_regulator_set_state, stm32mp_get_pmic,
           stm32mp_put_pmic, stpmic1_regulator_levels_mv,
           stpmic1_regulator_voltage_get, stpmic1_regulator_voltage_set,
           stpmic1_is_regulator_enabled, stpmic1_regulator_enable,
           stpmic1_regulator_disable, World.act, World.read, is_clk_enable,
           is_clk_disable])

theorem plat_scmi_clock_set_rate_quiet {H : Type} (p : Platform H) (w : World H)
    (agent_id scmi_id rate : Nat) (status : scmi_status) (w1 : World H)
    (h : plat_scmi_clock_set_rate p w agent_id scmi_id rate =
      some (status, w1)) : quiet_step w w1 := by
  unfold plat_scmi_clock_set_rate at h
  repeat' split at h
  all_goals first
    | contradiction
    | (cases h; exact quiet_step_refl w)
    | (cases h
       simp [quiet_step, stm32mp1_set_opp_khz, clk_get_rate, stm32_reset_assert,
           stm32_reset_deassert, stm32_reset_set, stm32_reset_release,
           stm32_reset_assert_deassert_mcu, stm32mp1_pwr_regulator_mv,
           stm32mp1_pwr_regulator_is_enabled,
           stm32mp1_pwr_regulator_set_state, stm32mp_get_pmic,
           stm32mp_put_pmic, stpmic1_regulator_levels_mv,
           stpmic1_regulator_voltage_get, stpmic1_regulator_voltage_set,
           stpmic1_is_regulator_enabled, stpmic1_regulator_enable,
           stpmic1_regulator_disable, World.act, World.read, is_clk_enable,
           is_clk_disable])

theorem plat_scmi_clock_get_rate_quiet {H : Type} (p : Platform H) (w : World H)
    (agent_id scmi_id rate : Nat) (w1 : World H)
    (h : plat_scmi_clock_get_rate p w agent_id scmi_id =
      some (rate, w1)) : quiet_step w w1 := by
  unfold plat_scmi_clock_get_rate at h
  repeat' split at h
  all_goals first
    | contradiction
    | (cases h; exact quiet_step_refl w)
    | (cases h
       simp [quiet_step, stm32mp1_set_opp_khz, clk_get_rate, stm32_reset_assert,
           stm32_reset_deassert, stm32_reset_set, stm32_reset_release,
           stm32_reset_assert_deassert_mcu, stm32mp1_pwr_regulator_mv,
           stm32mp1_pwr_regulator_is_enabled,
           stm32mp1_pwr_regulator_set_state, stm32mp_get_pmic,
           stm32mp_put_pmic, stpmic1_regulator_levels_mv,
           stpmic1_regulator_voltage_get, stpmic1_regulator_voltage_set,
           stpmic1_is_regulator_enabled, stpmic1_regulator_enable,
           stpmic1_regulator_disable, World.act, World.read, is_clk_enable,
           is_clk_disable])

theorem plat_scmi_clock_get_state_quiet {H : Type} (p : Platform H) (w : World H)
    (agent_id scmi_id : Nat) (state : Int) (w1 : World H)
    (h : plat_scmi_clock_get_state p w agent_id scmi_id =
      some (state, w1)) : quiet_step w w1 := by
  unfold plat_scmi_clock_get_state at h
  repeat' split at h
  all_goals first
    | contradiction
    | (cases h; exact quiet_step_refl w)

theorem plat_scmi_rd_get_name_quiet {H : Type} (p : Platform H) (w : World H)
    (agent_id scmi_id : Nat) (name : Option String) (w1 : World H)
    (h : plat_scmi_rd_get_name p w agent_id scmi_id =
      some (name, w1)) : quiet_step w w1 := by
  unfold plat_scmi_rd_get_name at h
  repeat' split at h
  all_goals first
    | contradiction
    | (cases h; exact quiet_step_refl w)

theorem plat_scmi_rd_autonomous_quiet {H : Type} (p : Platform H) (w : World H)
    (agent_id scmi_id state : Nat) (status : scmi_status) (w1 : World H)
    (h : plat_scmi_rd_autonomous p w agent_id scmi_id state =
      some (status, w1)) : quiet_step w w1 := by
  unfold plat_scmi_rd_autonomous at h
  repeat' split at h
  all_goals first
    | contradiction
    | (cases h; exact quiet_step_refl w)
    | (cases h
       simp [quiet_step, stm32mp1_set_opp_khz, clk_get_rate, stm32_reset_assert,
           stm32_reset_deassert, stm32_reset_set, stm32_reset_release,
           stm32_reset_assert_deassert_mcu, stm32mp1_pwr_regulator_mv,
           stm32mp1_pwr_regulator_is_enabled,
           stm32mp1_pwr_regulator_set_state, stm32mp_get_pmic,
           stm32mp_put_pmic, stpmic1_regulator_levels_mv,
           stpmic1_regulator_voltage_get, stpmic1_regulator_voltage_set,
           stpmic1_is_regulator_enabled, stpmic1_regulator_enable,
           stpmic1_regulator_disable, World.act, World.read, is_clk_enable,
           is_clk_disable])

theorem plat_scmi_rd_set_state_quiet {H : Type} (p : Platform H) (w : World H)
    (agent_id scmi_id : Nat) (assert_not_deassert : Bool)
    (status : scmi_status) (w1 : World H)
    (h : plat_scmi_rd_set_state p w agent_id scmi_id assert_not_deassert =
      some (status, w1)) : quiet_step w w1 := by
  unfold plat_scmi_rd_set_state at h
  repeat' split at h
  all_goals first
    | contradiction
    | (cases h; exact quiet_step_refl w)
    | (cases h
       simp [quiet_step, stm32mp1_set_opp_khz, clk_get_rate, stm32_reset_assert,
           stm32_reset_deassert, stm32_reset_set, stm32_reset_release,
           stm32_reset_assert_deassert_mcu, stm32mp1_pwr_regulator_mv,
           stm32mp1_pwr_regulator_is_enabled,
           stm32mp1_pwr_regulator_set_state, stm32mp_get_pmic,
           stm32mp_put_pmic, stpmic1_regulator_levels_mv,
           stpmic1_regulator_voltage_get, stpmic1_regulator_voltage_set,
           stpmic1_is_regulator_enabled, stpmic1_regulator_enable,
           stpmic1_regulator_disable, World.act, World.read, is_clk_enable,
           is_clk_disable])

theorem plat_scmi_voltd_get_name_quiet {H : Type} (p : Platform H) (w : World H)
    (agent_id scmi_id : Nat) (name : Option String) (w1 : World H)
    (h : plat_scmi_voltd_get_name p w agent_id scmi_id =
      some (name, w1)) : quiet_step w w1 := by
  unfold plat_scmi_voltd_get_name at h
  repeat' split at h
  all_goals first
    | contradiction
    | (cases h; exact quiet_step_refl w)

theorem plat_scmi_voltd_levels_array_quiet {H : Type} (p : Platform H) (w : World H)
    (agent_id scmi_id start_index : Nat) (levels : Option (List Int))
    (nb_elts : Nat) (status : scmi_status) (out : Option (List Int)) (nb1 : Nat) (w1 : World H)
    (h : plat_scmi_voltd_levels_array p w agent_id scmi_id start_index levels nb_elts =
      some (status, out, nb1, w1)) : quiet_step w w1 := by
  unfold plat_scmi_voltd_levels_array at h
  repeat' split at h
  all_goals first
    | contradiction
    | exact pwr_describe_levels_quiet p w _ _ _ _ _ _ _ _ h
    | exact pmic_describe_levels_quiet p w _ _ _ _ _ _ _ _ h
    | (cases h; exact quiet_step_refl w)

theorem plat_scmi_voltd_get_level_quiet {H : Type} (p : Platform H) (w : World H)
    (agent_id scmi_id : Nat) (level : Int) (w1 : World H)
    (h : plat_scmi_voltd_get_level p w agent_id scmi_id =
      some (level, w1)) : quiet_step w w1 := by
  unfold plat_scmi_voltd_get_level at h
  repeat' split at h
  all_goals first
    | contradiction
    | exact pwr_get_level_quiet p w _ _ _ h
    | (have h2 : (pmic_get_level p w _).2 = w1 :=
         congrArg Prod.snd (Option.some.inj h)
       rw [← h2]
       exact pmic_get_level_quiet p w _)
    | (cases h; exact quiet_step_refl w)

theorem plat_scmi_voltd_set_level_quiet {H : Type} (p : Platform H) (w : World H)
    (agent_id scmi_id : Nat) (level : Int) (status : scmi_status) (w1 : World H)
    (h : plat_scmi_voltd_set_level p w agent_id scmi_id level =
      some (status, w1)) : quiet_step w w1 := by
  unfold plat_scmi_voltd_set_level at h
  repeat' split at h
  all_goals first
    | contradiction
    | exact pwr_set_level_quiet p w _ _ _ _ h
    | (have h2 : (pmic_set_level p w _ _).2 = w1 :=
         congrArg Prod.snd (Option.some.inj h)
       rw [← h2]
       exact pmic_set_level_quiet p w _ _)
    | (cases h; exact quiet_step_refl w)

theorem plat_scmi_voltd_get_config_quiet {H : Type} (p : Platform H) (w : World H)
    (agent_id scmi_id config : Nat) (status : scmi_status) (out : Nat) (w1 : World H)
    (h : plat_scmi_voltd_get_config p w agent_id scmi_id config =
      some (status, out, w1)) : quiet_step w w1 := by
  unfold plat_scmi_voltd_get_config at h
  repeat' split at h
  all_goals first
    | contradiction
    | (cases h; exact pwr_get_state_quiet p w _ _ _ (by assumption))
    | (cases h; exact pmic_get_state_quiet p w _)
    | (cases h; exact quiet_step_refl w)

theorem plat_scmi_voltd_set_config_quiet {H : Type} (p : Platform H) (w : World H)
    (agent_id scmi_id config : Nat) (status : scmi_status) (w1 : World H)
    (h : plat_scmi_voltd_set_config p w agent_id scmi_id config =
      some (status, w1)) : quiet_step w w1 := by
  unfold plat_scmi_voltd_set_config at h
  repeat' split at h
  all_goals first
    | contradiction
    | (cases h; exact pwr_set_state_quiet p w _ _ _ (by assumption))
    | (have h2 : (pmic_set_state p w _ _).2 = w1 :=
         congrArg Prod.snd (Option.some.inj h)
       rw [← h2]
       exact pmic_set_state_quiet p w _ _)
    | (cases h; exact quiet_step_refl w)

theorem plat_scmi_protocol_count_quiet {H : Type} (p : Platform H) (w : World H)
    (count : Nat) (w1 : World H)
    (h : plat_scmi_protocol_count p w =
      some (count, w1)) : quiet_step w w1 := by
  unfold plat_scmi_protocol_count at h
  repeat' split at h
  all_goals first
    | contradiction
    | (cases h; exact quiet_step_refl w)

theorem plat_scmi_protocol_list_quiet {H : Type} (p : Platform H) (w : World H)
    (agent_id : Nat) (list : List Nat) (w1 : World H)
    (h : plat_scmi_protocol_list p w agent_id =
      some (list, w1)) : quiet_step w w1 := by
  unfold plat_scmi_protocol_list at h
  repeat' split at h
  all_goals first
    | contradiction
    | (cases h; exact quiet_step_refl w)

theorem issued_for_append (l1 l2 : List (Option (Nat × Nat) × DriverCall))
    (agent_id n : Nat) :
    issued_for (l1 ++ l2) agent_id n =
      issued_for l1 agent_id n ++ issued_for l2 agent_id n := by
  simp [issued_for, List.filter_append]

theorem net_enables_append (c1 c2 : List DriverCall) :
    net_enables (c1 ++ c2) = net_enables c1 + net_enables c2 := by
  simp only [net_enables, List.countP_append]
  push_cast
  ring

theorem net_enables_quiet (calls : List DriverCall)
    (h : ∀ c ∈ calls, is_clk_enable c = false ∧ is_clk_disable c = false) :
    net_enables calls = 0 := by
  have h1 : calls.countP is_clk_enable = 0 :=
    List.countP_eq_zero.mpr (fun c hc => by simp [(h c hc).1])
  have h2 : calls.countP is_clk_disable = 0 :=
    List.countP_eq_zero.mpr (fun c hc => by simp [(h c hc).2])
  simp [net_enables, h1, h2]

theorem mem_issued_for {ledger : List (Option (Nat × Nat) × DriverCall)}
    {agent_id n : Nat} {c : DriverCall} :
    c ∈ issued_for ledger agent_id n ↔ (some (agent_id, n), c) ∈ ledger := by
  simp only [issued_for, List.mem_map, List.mem_filter, decide_eq_true_eq]
  constructor
  · rintro ⟨⟨t, c1⟩, ⟨hm, ht⟩, rfl⟩
    simp only at ht
    subst ht
    exact hm
  · intro h
    exact ⟨(some (agent_id, n), c), ⟨h, rfl⟩, rfl⟩

theorem issued_for_of_no_tag
    {ledger : List (Option (Nat × Nat) × DriverCall)} {agent_id n : Nat}
    (h : ∀ x ∈ ledger, x.1 ≠ some (agent_id, n)) :
    issued_for ledger agent_id n = [] := by
  apply List.eq_nil_iff_forall_not_mem.mpr
  intro c hc
  exact h _ (mem_issued_for.mp hc) rfl

theorem new_calls_of_append {H : Type} {w w1 : World H}
    {added : List DriverCall} (h : w1.trace = w.trace ++ added) :
    new_calls w w1 = added := by
  simp [new_calls, h]

theorem clock_at_of_tables {H : Type} {w w1 : World H}
    (h : w1.tables = w.tables) (agent_id n : Nat) :
    clock_at w1 agent_id n = clock_at w agent_id n := by
  unfold clock_at
  rw [h]

theorem quiet_step_balanced {H : Type} {w w1 : World H}
    (t0 : List DriverCall) (ledger : List (Option (Nat × Nat) × DriverCall))
    (tag : Option (Nat × Nat)) (hq : quiet_step w w1)
    (hinv : ledger_balanced t0 w ledger) :
    ledger_balanced t0 w1
      (ledger ++ (new_calls w w1).map (fun c => (tag, c))) := by
  obtain ⟨ht, added, he, hquiet⟩ := hq
  obtain ⟨h1, h2, h3⟩ := hinv
  rw [new_calls_of_append he]
  refine ⟨?_, ?_, ?_⟩
  · rw [he, h1, List.map_append, List.map_map, List.append_assoc]
    congr 2
    simp
  · intro x hx hs
    rcases List.mem_append.mp hx with hx | hx
    · obtain ⟨a, i, clock, e1, e2, e3⟩ := h2 x hx hs
      exact ⟨a, i, clock, e1, (clock_at_of_tables ht a i).trans e2, e3⟩
    · obtain ⟨c, hc, rfl⟩ := List.mem_map.mp hx
      have hqc := hquiet c hc
      simp [hqc.1, hqc.2] at hs
  · intro a i clock hc
    rw [issued_for_append, net_enables_append,
      h3 a i clock ((clock_at_of_tables ht a i).symm.trans hc),
      net_enables_quiet _ (fun c hm => hquiet c
        (by
          have hm1 := mem_issued_for.mp hm
          obtain ⟨c1, hc1, e⟩ := List.mem_map.mp hm1
          cases e
          exact hc1))]
    simp

theorem find_clock_index {H : Type} {w : World H} {agent_id scmi_id n : Nat}
    (h : find_clock w agent_id scmi_id = some (some n)) : n = scmi_id := by
  unfold find_clock at h
  split at h
  · contradiction
  · rw [find_loop_spec] at h
    split at h
    · cases h
      rfl
    · cases h

theorem clock_set_state_cases {H : Type} (p : Platform H) (w : World H)
    (agent_id scmi_id : Nat) (enable : Bool) (status : scmi_status)
    (w1 : World H)
    (h : plat_scmi_clock_set_state p w agent_id scmi_id enable =
      some (status, w1)) :
    w1 = w ∨
    (∃ clock, clock_at w agent_id scmi_id = some clock ∧
      clock.enabled = false ∧
      w1 = store_enabled (clk_enable p w clock.clock_id) agent_id scmi_id
        true) ∨
    (∃ clock, clock_at w agent_id scmi_id = some clock ∧
      clock.enabled = true ∧
      w1 = store_enabled (clk_disable p w clock.clock_id) agent_id scmi_id
        false) := by
  unfold plat_scmi_clock_set_state at h
  split at h
  · contradiction
  · cases h
    exact Or.inl rfl
  · rename_i n hfind
    have hn := find_clock_index hfind
    subst hn
    split at h
    · contradiction
    · rename_i clock hat
      by_cases hpol : p.stm32mp_nsec_can_access_clock w.hw clock.clock_id = true
      · cases enable with
        | true =>
          cases hen : clock.enabled with
          | true =>
            simp [hpol, hen] at h
            exact Or.inl h.2.symm
          | false =>
            simp [hpol, hen] at h
            exact Or.inr (Or.inl ⟨clock, hat, hen, h.2.symm⟩)
        | false =>
          cases hen : clock.enabled with
          | false =>
            simp [hpol, hen] at h
            exact Or.inl h.2.symm
          | true =>
            simp [hpol, hen] at h
            exact Or.inr (Or.inr ⟨clock, hat, hen, h.2.symm⟩)
      · simp [hpol] at h
        exact Or.inl h.2.symm

theorem switch_step_balanced {H : Type} {w : World H} (h1 : H)
    (t0 : List DriverCall) (ledger : List (Option (Nat × Nat) × DriverCall))
    (agent_id n : Nat) (clock : stm32_scmi_clk) (v : Bool)
    (c : DriverCall)
    (hc : c = if v = true then DriverCall.clk_enable clock.clock_id
      else DriverCall.clk_disable clock.clock_id)
    (hat : clock_at w agent_id n = some clock)
    (hen : clock.enabled = !v)
    (hinv : ledger_balanced t0 w ledger) :
    ledger_balanced t0 (store_enabled (w.act c h1) agent_id n v)
      (ledger ++ [(some (agent_id, n), c)]) := by
  obtain ⟨i1, i2, i3⟩ := hinv
  have hat1 : clock_at (w.act c h1) agent_id n = some clock := hat
  have hsame := clock_at_store_enabled (w.act c h1) agent_id n v clock hat1
  have hother : ∀ a i, a ≠ agent_id ∨ i ≠ n →
      clock_at (store_enabled (w.act c h1) agent_id n v) a i =
        clock_at w a i :=
    fun a i hne => clock_at_store_enabled_other (w.act c h1) agent_id n v a i hne
  refine ⟨?_, ?_, ?_⟩
  · show w.trace ++ [c] = _
    rw [i1, List.map_append, List.append_assoc]
    rfl
  · intro x hx hs
    rcases List.mem_append.mp hx with hx | hx
    · obtain ⟨a, i, clock1, e1, e2, e3⟩ := i2 x hx hs
      by_cases hai : a = agent_id ∧ i = n
      · obtain ⟨rfl, rfl⟩ := hai
        rw [hat] at e2
        cases e2
        exact ⟨a, i, _, e1, hsame, e3⟩
      · have hne : a ≠ agent_id ∨ i ≠ n := by
          by_cases ha : a = agent_id
          · exact Or.inr (fun hi => hai ⟨ha, hi⟩)
          · exact Or.inl ha
        exact ⟨a, i, clock1, e1, (hother a i hne).trans e2, e3⟩
    · rw [List.mem_singleton] at hx
      subst hx
      refine ⟨agent_id, n, _, rfl, hsame, ?_⟩
      cases v
      · exact Or.inr hc
      · exact Or.inl hc
  · intro a i clock1 hc1
    rw [issued_for_append, net_enables_append]
    by_cases hai : a = agent_id ∧ i = n
    · obtain ⟨rfl, rfl⟩ := hai
      rw [hsame] at hc1
      cases hc1
      rw [i3 a i clock hat, hen]
      cases v <;> simp [hc, issued_for, net_enables, is_clk_enable,
        is_clk_disable]
    · have hne : a ≠ agent_id ∨ i ≠ n := by
        by_cases ha : a = agent_id
        · exact Or.inr (fun hi => hai ⟨ha, hi⟩)
        · exact Or.inl ha
      rw [hother a i hne] at hc1
      rw [i3 a i clock1 hc1]
      have hnil : issued_for [(some (agent_id, n), c)] a i = [] :=
        issued_for_of_no_tag (fun x hx => by
          rw [List.mem_singleton] at hx
          subst hx
          intro e
          cases e
          exact hai ⟨rfl, rfl⟩)
      rw [hnil]
      simp [net_enables]

theorem clock_set_state_balanced {H : Type} (p : Platform H) (w w1 : World H)
    (agent_id scmi_id : Nat) (enable : Bool) (status : scmi_status)
    (t0 : List DriverCall) (ledger : List (Option (Nat × Nat) × DriverCall))
    (h : plat_scmi_clock_set_state p w agent_id scmi_id enable =
      some (status, w1))
    (hinv : ledger_balanced t0 w ledger) :
    ledger_balanced t0 w1
      (ledger ++ (new_calls w w1).map
        (fun c => (some (agent_id, scmi_id), c))) := by
  rcases clock_set_state_cases p w agent_id scmi_id enable status w1 h with
    hw | ⟨clock, hat, hen, hw⟩ | ⟨clock, hat, hen, hw⟩
  · subst hw
    exact quiet_step_balanced t0 ledger _ (quiet_step_refl w1) hinv
  · subst hw
    have hn : new_calls w (store_enabled (clk_enable p w clock.clock_id)
        agent_id scmi_id true) = [DriverCall.clk_enable clock.clock_id] :=
      new_calls_of_append rfl
    rw [hn]
    exact switch_step_balanced (p.clk_enable w.hw clock.clock_id) t0 ledger
      agent_id scmi_id clock true _ rfl hat hen hinv
  · subst hw
    have hn : new_calls w (store_enabled (clk_disable p w clock.clock_id)
        agent_id scmi_id false) = [DriverCall.clk_disable clock.clock_id] :=
      new_calls_of_append rfl
    rw [hn]
    exact switch_step_balanced (p.clk_disable w.hw clock.clock_id) t0 ledger
      agent_id scmi_id clock false _ rfl hat hen hinv

theorem serve_balanced {H : Type} (p : Platform H) (w w1 : World H)
    (req : Request) (t0 : List DriverCall)
    (ledger : List (Option (Nat × Nat) × DriverCall))
    (h : serve p w req = some w1) (hinv : ledger_balanced t0 w ledger) :
    ledger_balanced t0 w1 (ledger ++ issued_by req w w1) := by
  unfold issued_by
  cases req with
  | clock_set_state agent_id scmi_id enable =>
    obtain ⟨r, hr, rfl⟩ := Option.map_eq_some'.mp h
    exact clock_set_state_balanced p w r.2 agent_id scmi_id enable r.1 t0
      ledger hr hinv
  | clock_get_name agent_id scmi_id =>
    obtain ⟨r, hr, rfl⟩ := Option.map_eq_some'.mp h
    exact quiet_step_balanced t0 ledger _
      (plat_scmi_clock_get_name_quiet p w _ _ _ _ hr) hinv
  | clock_rates_array agent_id scmi_id start_index array nb_elts =>
    have hw : w = w1 := Option.some.inj h
    subst hw
    exact quiet_step_balanced t0 ledger _ (quiet_step_refl w) hinv
  | clock_rates_by_step agent_id scmi_id array =>
    obtain ⟨r, hr, rfl⟩ := Option.map_eq_some'.mp h
    exact quiet_step_balanced t0 ledger _
      (plat_scmi_clock_rates_by_step_quiet p w _ _ _ _ _ _ hr) hinv
  | clock_set_rate agent_id scmi_id rate =>
    obtain ⟨r, hr, rfl⟩ := Option.map_eq_some'.mp h
    exact quiet_step_balanced t0 ledger _
      (plat_scmi_clock_set_rate_quiet p w _ _ _ _ _ hr) hinv
  | clock_get_rate agent_id scmi_id =>
    obtain ⟨r, hr, rfl⟩ := Option.map_eq_some'.mp h
    exact quiet_step_balanced t0 ledger _
      (plat_scmi_clock_get_rate_quiet p w _ _ _ _ hr) hinv
  | clock_get_state agent_id scmi_id =>
    obtain ⟨r, hr, rfl⟩ := Option.map_eq_some'.mp h
    exact quiet_step_balanced t0 ledger _
      (plat_scmi_clock_get_state_quiet p w _ _ _ _ hr) hinv
  | rd_get_name agent_id scmi_id =>
    obtain ⟨r, hr, rfl⟩ := Option.map_eq_some'.mp h
    exact quiet_step_balanced t0 ledger _
      (plat_scmi_rd_get_name_quiet p w _ _ _ _ hr) hinv
  | rd_autonomous agent_id scmi_id state =>
    obtain ⟨r, hr, rfl⟩ := Option.map_eq_some'.mp h
    exact quiet_step_balanced t0 ledger _
      (plat_scmi_rd_autonomous_quiet p w _ _ _ _ _ hr) hinv
  | rd_set_state agent_id scmi_id assert_not_deassert =>
    obtain ⟨r, hr, rfl⟩ := Option.map_eq_some'.mp h
    exact quiet_step_balanced t0 ledger _
      (plat_scmi_rd_set_state_quiet p w _ _ _ _ _ hr) hinv
  | voltd_get_name agent_id scmi_id =>
    obtain ⟨r, hr, rfl⟩ := Option.map_eq_some'.mp h
    exact quiet_step_balanced t0 ledger _
      (plat_scmi_voltd_get_name_quiet p w _ _ _ _ hr) hinv
  | voltd_levels_array agent_id scmi_id start_index levels nb_elts =>
    obtain ⟨r, hr, rfl⟩ := Option.map_eq_some'.mp h
    exact quiet_step_balanced t0 ledger _
      (plat_scmi_voltd_levels_array_quiet p w _ _ _ _ _ _ _ _ _ hr) hinv
  | voltd_get_level agent_id scmi_id =>
    obtain ⟨r, hr, rfl⟩ := Option.map_eq_some'.mp h
    exact quiet_step_balanced t0 ledger _
      (plat_scmi_voltd_get_level_quiet p w _ _ _ _ hr) hinv
  | voltd_set_level agent_id scmi_id level =>
    obtain ⟨r, hr, rfl⟩ := Option.map_eq_some'.mp h
    exact quiet_step_balanced t0 ledger _
      (plat_scmi_voltd_set_level_quiet p w _ _ _ _ _ hr) hinv
  | voltd_get_config agent_id scmi_id config =>
    obtain ⟨r, hr, rfl⟩ := Option.map_eq_some'.mp h
    exact quiet_step_balanced t0 ledger _
      (plat_scmi_voltd_get_config_quiet p w _ _ _ _ _ _ hr) hinv
  | voltd_set_config agent_id scmi_id config =>
    obtain ⟨r, hr, rfl⟩ := Option.map_eq_some'.mp h
    exact quiet_step_balanced t0 ledger _
      (plat_scmi_voltd_set_config_quiet p w _ _ _ _ _ hr) hinv
  | protocol_count =>
    obtain ⟨r, hr, rfl⟩ := Option.map_eq_some'.mp h
    exact quiet_step_balanced t0 ledger _
      (plat_scmi_protocol_count_quiet p w _ _ hr) hinv
  | protocol_list agent_id =>
    obtain ⟨r, hr, rfl⟩ := Option.map_eq_some'.mp h
    exact quiet_step_balanced t0 ledger _
      (plat_scmi_protocol_list_quiet p w _ _ _ hr) hinv

theorem served_balanced {H : Type} {w0 w : World H} (t0 : List DriverCall)
    {l0 ledger : List (Option (Nat × Nat) × DriverCall)}
    (hserved : Served w0 l0 w ledger)
    (hinv : ledger_balanced t0 w0 l0) : ledger_balanced t0 w ledger := by
  induction hserved with
  | start => exact hinv
  | call w1 w2 l1 p req _ hserve ih =>
    exact serve_balanced p w1 w2 req t0 l1 hserve ih

theorem init_clock_loop_cons {H : Type} (p : Platform H)
    (clk : stm32_scmi_clk) (rest : List stm32_scmi_clk) (w w1 : World H)
    (h : init_clock_loop p (clk :: rest) w = some w1) :
    init_clock_loop p [clk] w =
      some (if clk.enabled && p.stm32mp_nsec_can_access_clock w.hw clk.clock_id
        then clk_enable p w clk.clock_id else w) ∧
    init_clock_loop p rest
      (if clk.enabled && p.stm32mp_nsec_can_access_clock w.hw clk.clock_id
        then clk_enable p w clk.clock_id else w) = some w1 := by
  rw [init_clock_loop] at h
  rw [init_clock_loop]
  split at h
  · contradiction
  · rename_i name hname
    split at h
    · contradiction
    · rename_i hlen
      refine ⟨?_, h⟩
      simp only [hname, if_neg hlen, init_clock_loop]

theorem init_clock_issued_spec {H : Type} (p : Platform H) (agent_id : Nat) :
    ∀ (table : List stm32_scmi_clk) (n : Nat) (w w1 : World H),
      (∀ clk ∈ table, clk.enabled = true →
        ∀ h, p.stm32mp_nsec_can_access_clock h clk.clock_id = true) →
      init_clock_loop p table w = some w1 →
      w1.tables = w.tables ∧
      w1.trace = w.trace ++
        (init_clock_issued p agent_id table n w).map (fun x => x.2) ∧
      (∀ x ∈ init_clock_issued p agent_id table n w, ∃ k clk,
        table[k]? = some clk ∧
        x = (some (agent_id, n + k), DriverCall.clk_enable clk.clock_id)) ∧
      (∀ k clk, table[k]? = some clk →
        net_enables (issued_for (init_clock_issued p agent_id table n w)
          agent_id (n + k)) = if clk.enabled = true then 1 else 0) := by
  intro table
  induction table with
  | nil =>
    intro n w w1 _ h
    cases h
    refine ⟨rfl, by simp [init_clock_issued], ?_, ?_⟩
    · intro x hx
      cases hx
    · intro k clk hk
      simp at hk
  | cons head rest ih =>
    intro n w w1 hpol h
    obtain ⟨hs, hr⟩ := init_clock_loop_cons p head rest w w1 h
    have hrest : ∀ clk ∈ rest, clk.enabled = true →
        ∀ h, p.stm32mp_nsec_can_access_clock h clk.clock_id = true :=
      fun clk hclk => hpol clk (List.mem_cons_of_mem _ hclk)
    obtain ⟨ht, htr, htag, hbal⟩ := ih (n + 1) _ w1 hrest hr
    simp only [init_clock_issued, hs]
    cases hen : head.enabled with
    | false =>
      simp only [hen, Bool.false_and, Bool.false_eq_true, if_false] at ht htr htag hbal ⊢
      have hn : new_calls w w = [] := new_calls_of_append (List.append_nil _).symm
      simp only [hn, List.map_nil, List.nil_append]
      refine ⟨ht, htr, ?_, ?_⟩
      · intro x hx
        obtain ⟨k, clk, hk, hx⟩ := htag x hx
        refine ⟨k + 1, clk, by simpa using hk, ?_⟩
        rw [hx]
        congr 3
        omega
      · intro k clk hk
        cases k with
        | zero =>
          simp only [List.getElem?_cons_zero, Option.some.injEq] at hk
          subst hk
          rw [issued_for_of_no_tag, hen]
          · simp [net_enables]
          · intro x hx e
            obtain ⟨k, clk, _, hx⟩ := htag x hx
            rw [hx] at e
            simp at e
            omega
        | succ k =>
          simp only [List.getElem?_cons_succ] at hk
          have e : n + (k + 1) = n + 1 + k := by omega
          rw [e]
          exact hbal k clk hk
    | true =>
      have hp := hpol head (List.mem_cons_self _ _) hen w.hw
      simp only [hen, hp, Bool.and_self, if_true] at ht htr htag hbal ⊢
      have hn : new_calls w (clk_enable p w head.clock_id) =
          [DriverCall.clk_enable head.clock_id] := new_calls_of_append rfl
      simp only [hn, List.map_cons, List.map_nil]
      refine ⟨ht, ?_, ?_, ?_⟩
      · rw [htr]
        show w.trace ++ [DriverCall.clk_enable head.clock_id] ++ _ = _
        simp
      · intro x hx
        rcases List.mem_append.mp hx with hx | hx
        · rw [List.mem_singleton] at hx
          exact ⟨0, head, by simp, hx⟩
        · obtain ⟨k, clk, hk, hx⟩ := htag x hx
          refine ⟨k + 1, clk, by simpa using hk, ?_⟩
          rw [hx]
          congr 3
          omega
      · intro k clk hk
        rw [issued_for_append, net_enables_append]
        cases k with
        | zero =>
          simp only [List.getElem?_cons_zero, Option.some.injEq] at hk
          subst hk
          rw [@issued_for_of_no_tag (init_clock_issued _ _ _ _ _), hen]
          · simp [issued_for, net_enables, is_clk_enable, is_clk_disable]
          · intro x hx e
            obtain ⟨k, clk, _, hx⟩ := htag x hx
            rw [hx] at e
            simp at e
            omega
        | succ k =>
          simp only [List.getElem?_cons_succ] at hk
          have e : n + (k + 1) = n + 1 + k := by omega
          rw [e, hbal k clk hk, issued_for_of_no_tag]
          · simp [net_enables]
          · intro x hx e
            rw [List.mem_singleton] at hx
            subst hx
            simp at e
            omega

theorem init_issued_spec {H : Type} (p : Platform H) :
    ∀ (tables : List scmi_agent_resources) (i : Nat) (w w1 : World H),
      (∀ clk ∈ all_clocks tables, clk.enabled = true →
        ∀ h, p.stm32mp_nsec_can_access_clock h clk.clock_id = true) →
      init_agent_loop p tables w = some w1 →
      w1.tables = w.tables ∧
      w1.trace = w.trace ++ (init_issued p tables i w).map (fun x => x.2) ∧
      (∀ x ∈ init_issued p tables i w, ∃ a resource k clk,
        tables[a]? = some resource ∧ resource.clock[k]? = some clk ∧
        x = (some (i + a, k), DriverCall.clk_enable clk.clock_id)) ∧
      (∀ a resource k clk, tables[a]? = some resource →
        resource.clock[k]? = some clk →
        net_enables (issued_for (init_issued p tables i w) (i + a) k) =
          if clk.enabled = true then 1 else 0) := by
  intro tables
  induction tables with
  | nil =>
    intro i w w1 _ h
    cases h
    refine ⟨rfl, by simp [init_issued], ?_, ?_⟩
    · intro x hx
      cases hx
    · intro a resource k clk ha
      simp at ha
  | cons head rest ih =>
    intro i w w1 hpol h
    rw [init_agent_loop] at h
    split at h
    · contradiction
    · rename_i w2 hclk
      split at h
      · contradiction
      · split at h
        · contradiction
        · obtain ⟨ht2, htr2, htag2, hbal2⟩ :=
            init_clock_issued_spec p i head.clock 0 w w2
              (fun clk hmem => hpol clk (by
                rw [all_clocks]
                exact List.mem_append_left _ hmem)) hclk
          obtain ⟨ht1, htr1, htag1, hbal1⟩ := ih (i + 1) w2 w1
            (fun clk hmem => hpol clk (by
              rw [all_clocks]
              exact List.mem_append_right _ hmem)) h
          simp only [init_issued, hclk]
          refine ⟨ht1.trans ht2, ?_, ?_, ?_⟩
          · rw [htr1, htr2, List.map_append, List.append_assoc]
          · intro x hx
            rcases List.mem_append.mp hx with hx | hx
            · obtain ⟨k, clk, hk, hx⟩ := htag2 x hx
              refine ⟨0, head, k, clk, by simp, hk, ?_⟩
              rw [hx]
              simp
            · obtain ⟨a, resource, k, clk, ha, hk, hx⟩ := htag1 x hx
              refine ⟨a + 1, resource, k, clk, by simpa using ha, hk, ?_⟩
              rw [hx]
              congr 3
              omega
          · intro a resource k clk ha hk
            rw [issued_for_append, net_enables_append]
            cases a with
            | zero =>
              simp only [List.getElem?_cons_zero, Option.some.injEq] at ha
              subst ha
              have e := hbal2 k clk hk
              rw [Nat.zero_add] at e
              rw [Nat.add_zero, e, issued_for_of_no_tag]
              · simp [net_enables]
              · intro x hx e
                obtain ⟨a, resource, k1, clk1, _, _, hx⟩ := htag1 x hx
                rw [hx] at e
                simp at e
                omega
            | succ a =>
              simp only [List.getElem?_cons_succ] at ha
              have e : i + (a + 1) = i + 1 + a := by omega
              rw [e, hbal1 a resource k clk ha hk, issued_for_of_no_tag]
              · simp [net_enables]
              · intro x hx e
                obtain ⟨k1, clk1, _, hx⟩ := htag2 x hx
                rw [hx] at e
                simp at e
                omega

theorem init_balanced {H : Type} (p : Platform H) (w w1 : World H)
    (hpol : ∀ clk ∈ all_clocks w.tables, clk.enabled = true →
      ∀ h, p.stm32mp_nsec_can_access_clock h clk.clock_id = true)
    (hinit : stm32mp1_init_scmi_server p w = some w1) :
    ledger_balanced w.trace w1 (init_issued p w.tables 0 w) := by
  obtain ⟨ht, htr, htag, hbal⟩ := init_issued_spec p w.tables 0 w w1 hpol hinit
  refine ⟨htr, ?_, ?_⟩
  · intro x hx _
    obtain ⟨a, resource, k, clk, ha, hk, hx⟩ := htag x hx
    rw [Nat.zero_add] at hx
    refine ⟨a, k, clk, by rw [hx], ?_, Or.inl (by rw [hx])⟩
    unfold clock_at
    rw [ht, ha]
    exact hk
  · intro a k clock hc
    obtain ⟨resource, ha, hk⟩ := clock_at_some hc
    rw [ht] at ha
    have e := hbal a resource k clock ha hk
    rw [Nat.zero_add] at e
    exact e

/-! ## Theorems -/

/-- C1 (as amended): for every agent of the catalog and every handle, the
counts are the table lengths (21, 12, 3 entries for agent 0 and 3, 0, 0 for
agent 1 in the shipped tables), `find_clock`, `find_rd` and `find_voltd`
return the entry at the handle when the handle is below the count and `NULL`
otherwise, and with a handle at or above the count the handlers
`plat_scmi_clock_rates_by_step`, `plat_scmi_clock_set_rate`,
`plat_scmi_clock_set_state`, `plat_scmi_rd_autonomous`,
`plat_scmi_rd_set_state`, `plat_scmi_voltd_levels_array`,
`plat_scmi_voltd_set_level`, `plat_scmi_voltd_get_config` and
`plat_scmi_voltd_set_config` return `SCMI_NOT_FOUND` and leave the world
(flags, driver state, driver calls) and their outputs as they were. -/
theorem catalog_lookup_total {H : Type} (p : Platform H) (w : World H)
    (agent_id scmi_id : Nat) (hA : agent_id < w.tables.length) :
    (agent_resources p.dt).map
        (fun r => (r.clock_count, r.rd_count, r.voltd_count)) =
      [(21, 12, 3), (3, 0, 0)] ∧
    ∃ resource : scmi_agent_resources,
      find_resource w agent_id = some resource ∧
      plat_scmi_clock_count w agent_id = some resource.clock.length ∧
      plat_scmi_rd_count w agent_id = some resource.rd.length ∧
      plat_scmi_voltd_count w agent_id = some resource.voltd.length ∧
      (∀ h : scmi_id < resource.clock.length,
        find_clock w agent_id scmi_id = some (some scmi_id) ∧
        clock_at w agent_id scmi_id = some resource.clock[scmi_id]) ∧
      (∀ h : scmi_id < resource.rd.length,
        find_rd w agent_id scmi_id = some (some scmi_id) ∧
        rd_at w agent_id scmi_id = some resource.rd[scmi_id]) ∧
      (∀ h : scmi_id < resource.voltd.length,
        find_voltd w agent_id scmi_id = some (some scmi_id) ∧
        voltd_at w agent_id scmi_id = some resource.voltd[scmi_id]) ∧
      (resource.clock.length ≤ scmi_id →
        find_clock w agent_id scmi_id = some none ∧
        (∀ array, plat_scmi_clock_rates_by_step p w agent_id scmi_id array =
          some (SCMI_NOT_FOUND, array, w)) ∧
        (∀ rate, plat_scmi_clock_set_rate p w agent_id scmi_id rate =
          some (SCMI_NOT_FOUND, w)) ∧
        (∀ enable, plat_scmi_clock_set_state p w agent_id scmi_id enable =
          some (SCMI_NOT_FOUND, w))) ∧
      (resource.rd.length ≤ scmi_id →
        find_rd w agent_id scmi_id = some none ∧
        (∀ state, plat_scmi_rd_autonomous p w agent_id scmi_id state =
          some (SCMI_NOT_FOUND, w)) ∧
        (∀ assert_not_deassert,
          plat_scmi_rd_set_state p w agent_id scmi_id assert_not_deassert =
            some (SCMI_NOT_FOUND, w))) ∧
      (resource.voltd.length ≤ scmi_id →
        find_voltd w agent_id scmi_id = some none ∧
        (∀ start_index levels nb_elts,
          plat_scmi_voltd_levels_array p w agent_id scmi_id start_index levels
              nb_elts =
            some (SCMI_NOT_FOUND, levels, nb_elts, w)) ∧
        (∀ level, plat_scmi_voltd_set_level p w agent_id scmi_id level =
          some (SCMI_NOT_FOUND, w)) ∧
        (∀ config, plat_scmi_voltd_get_config p w agent_id scmi_id config =
          some (SCMI_NOT_FOUND, config, w)) ∧
        (∀ config, plat_scmi_voltd_set_config p w agent_id scmi_id config =
          some (SCMI_NOT_FOUND, w))) := by
  have hr : w.tables[agent_id]? = some w.tables[agent_id] :=
    List.getElem?_eq_getElem hA
  refine ⟨rfl, w.tables[agent_id], hr, ?_, ?_, ?_, ?_, ?_, ?_, ?_, ?_, ?_⟩
  · simp [plat_scmi_clock_count, find_resource, hr,
      scmi_agent_resources.clock_count]
  · simp [plat_scmi_rd_count, find_resource, hr,
      scmi_agent_resources.rd_count]
  · simp [plat_scmi_voltd_count, find_resource, hr,
      scmi_agent_resources.voltd_count]
  · intro h
    refine ⟨?_, ?_⟩
    · rw [find_clock_eq w agent_id scmi_id _ hr, if_pos h]
    · simp [clock_at, hr, List.getElem?_eq_getElem h]
  · intro h
    refine ⟨?_, ?_⟩
    · rw [find_rd_eq w agent_id scmi_id _ hr, if_pos h]
    · simp [rd_at, hr, List.getElem?_eq_getElem h]
  · intro h
    refine ⟨?_, ?_⟩
    · rw [find_voltd_eq w agent_id scmi_id _ hr, if_pos h]
    · simp [voltd_at, hr, List.getElem?_eq_getElem h]
  · intro h
    have hf : find_clock w agent_id scmi_id = some none := by
      rw [find_clock_eq w agent_id scmi_id _ hr, if_neg (by omega)]
    refine ⟨hf, ?_, ?_, ?_⟩
    · intro array
      simp [plat_scmi_clock_rates_by_step, hf]
    · intro rate
      simp [plat_scmi_clock_set_rate, hf]
    · intro enable
      simp [plat_scmi_clock_set_state, hf]
  · intro h
    have hf : find_rd w agent_id scmi_id = some none := by
      rw [find_rd_eq w agent_id scmi_id _ hr, if_neg (by omega)]
    refine ⟨hf, ?_, ?_⟩
    · intro state
      simp [plat_scmi_rd_autonomous, hf]
    · intro b
      simp [plat_scmi_rd_set_state, hf]
  · intro h
    have hf : find_voltd w agent_id scmi_id = some none := by
      rw [find_voltd_eq w agent_id scmi_id _ hr, if_neg (by omega)]
    refine ⟨hf, ?_, ?_, ?_, ?_⟩
    · intro start_index levels nb_elts
      simp [plat_scmi_voltd_levels_array, hf]
    · intro level
      simp [plat_scmi_voltd_set_level, hf]
    · intro config
      simp [plat_scmi_voltd_get_config, hf]
    · intro config
      simp [plat_scmi_voltd_set_config, hf]

/-- Witness for C1: agent 1 of the shipped tables and handle 5. -/
theorem catalog_lookup_total_witness :
    (1 : Nat) < sample_world.tables.length ∧
    plat_scmi_clock_set_state (sample_platform true 0 []) sample_world 1 5 true =
      some (SCMI_NOT_FOUND, sample_world) := by
  refine ⟨by decide, ?_⟩
  obtain ⟨_, resource, hres, _, _, _, _, _, _, hclock, _, _⟩ :=
    catalog_lookup_total (sample_platform true 0 []) sample_world 1 5
      (by decide)
  have hlen : resource.clock.length ≤ 5 := by
    have h1 : resource = sample_world.tables[1] := by
      have h2 : find_resource sample_world 1 = some sample_world.tables[1] := rfl
      rw [h2] at hres
      exact (Option.some.inj hres).symm
    rw [h1]
    decide
  exact (hclock hlen).2.2.2 true

/-- C1, counterexample to the claim as stated: on the shipped tables
`plat_scmi_clock_rates_array`, a status-returning handler, called with the
out-of-range handle 21 of agent 0 returns `SCMI_NOT_SUPPORTED`, not
`SCMI_NOT_FOUND`. -/
theorem rates_array_out_of_range_not_found_fails :
    find_clock sample_world 0 21 = some none ∧
    plat_scmi_clock_rates_array (sample_platform true 0 []) sample_world 0 21 0
        [] 0 =
      some (SCMI_NOT_SUPPORTED, [], 0, sample_world) ∧
    SCMI_NOT_SUPPORTED ≠ SCMI_NOT_FOUND := by
  refine ⟨by decide, rfl, by decide⟩

/-- C2: for an in-range handle whose resource the access policy denies,
`plat_scmi_clock_set_state`, `plat_scmi_clock_set_rate`,
`plat_scmi_rd_set_state` and `plat_scmi_rd_autonomous` return `SCMI_DENIED`
and hand back the world they were given: no enabled flag changed, no driver
call traced, driver state untouched. -/
theorem denied_calls_are_no_ops {H : Type} (p : Platform H) (w : World H)
    (agent_id scmi_id : Nat) :
    (∀ clock, clock_at w agent_id scmi_id = some clock →
      p.stm32mp_nsec_can_access_clock w.hw clock.clock_id = false →
      (∀ enable, plat_scmi_clock_set_state p w agent_id scmi_id enable =
        some (SCMI_DENIED, w)) ∧
      (∀ rate, plat_scmi_clock_set_rate p w agent_id scmi_id rate =
        some (SCMI_DENIED, w))) ∧
    (∀ rd, rd_at w agent_id scmi_id = some rd →
      p.stm32mp_nsec_can_access_reset w.hw rd.reset_id = false →
      (∀ assert_not_deassert,
        plat_scmi_rd_set_state p w agent_id scmi_id assert_not_deassert =
          some (SCMI_DENIED, w)) ∧
      (∀ state, plat_scmi_rd_autonomous p w agent_id scmi_id state =
        some (SCMI_DENIED, w))) := by
  refine ⟨?_, ?_⟩
  · intro clock hc hd
    have hf := find_clock_of_clock_at hc
    refine ⟨?_, ?_⟩
    · intro enable
      simp [plat_scmi_clock_set_state, hf, hc, hd]
    · intro rate
      simp [plat_scmi_clock_set_rate, hf, hc, hd]
  · intro rd hr hd
    have hf := find_rd_of_rd_at hr
    refine ⟨?_, ?_⟩
    · intro b
      simp [plat_scmi_rd_set_state, hf, hr, hd]
    · intro state
      simp [plat_scmi_rd_autonomous, hf, hr, hd]

/-- Witness for C2: the sample platform with a policy that denies
everything, agent 0, handle 3 of the shipped tables. -/
theorem denied_calls_are_no_ops_witness :
    plat_scmi_clock_set_state (sample_platform false 0 []) sample_world 0 3
        false = some (SCMI_DENIED, sample_world) ∧
    plat_scmi_rd_autonomous (sample_platform false 0 []) sample_world 0 3 0 =
      some (SCMI_DENIED, sample_world) :=
  ⟨((denied_calls_are_no_ops (sample_platform false 0 []) sample_world 0 3).1
      (CLOCK_CELL sample_dt.CK_LSE "ck_lse" true) rfl rfl).1 false,
   ((denied_calls_are_no_ops (sample_platform false 0 []) sample_world 0 3).2
      (RESET_CELL sample_dt.USART1_R "usart1") rfl rfl).2 0⟩

/-- C3: for an in-range clock handle, two consecutive
`plat_scmi_clock_set_state` calls with the same argument both return, the
second hands back the world the first one left (no driver call, no flag
changed), and over both calls the trace of driver calls grew by nothing or
by the single call `clk_enable` (argument true) or `clk_disable` (argument
false) of that clock. -/
theorem clock_set_state_idempotent {H : Type} (p : Platform H) (w : World H)
    (agent_id scmi_id : Nat) (enable : Bool) (clock : stm32_scmi_clk)
    (hc : clock_at w agent_id scmi_id = some clock) :
    ∃ s1 w1 s2,
      plat_scmi_clock_set_state p w agent_id scmi_id enable = some (s1, w1) ∧
      plat_scmi_clock_set_state p w1 agent_id scmi_id enable = some (s2, w1) ∧
      (w1.trace = w.trace ∨
        w1.trace = w.trace ++
          [if enable then DriverCall.clk_enable clock.clock_id
            else DriverCall.clk_disable clock.clock_id]) := by
  have hf := find_clock_of_clock_at hc
  by_cases hpol : p.stm32mp_nsec_can_access_clock w.hw clock.clock_id = true
  · cases enable with
    | true =>
      cases hen : clock.enabled with
      | true =>
        refine ⟨SCMI_SUCCESS, w, SCMI_SUCCESS, ?_, ?_, Or.inl rfl⟩ <;>
          simp [plat_scmi_clock_set_state, hf, hc, hpol, hen]
      | false =>
        have hc1 : clock_at (store_enabled (clk_enable p w clock.clock_id)
            agent_id scmi_id true) agent_id scmi_id =
            some { clock with enabled := true } :=
          clock_at_store_enabled (clk_enable p w clock.clock_id) agent_id
            scmi_id true clock hc
        have hf1 := find_clock_of_clock_at hc1
        by_cases hpol1 : p.stm32mp_nsec_can_access_clock
            (store_enabled (clk_enable p w clock.clock_id) agent_id scmi_id
              true).hw clock.clock_id = true
        · refine ⟨SCMI_SUCCESS, store_enabled (clk_enable p w clock.clock_id)
            agent_id scmi_id true, SCMI_SUCCESS, ?_, ?_, Or.inr rfl⟩
          · simp [plat_scmi_clock_set_state, hf, hc, hpol, hen]
          · simp [plat_scmi_clock_set_state, hf1, hc1, hpol1]
        · refine ⟨SCMI_SUCCESS, store_enabled (clk_enable p w clock.clock_id)
            agent_id scmi_id true, SCMI_DENIED, ?_, ?_, Or.inr rfl⟩
          · simp [plat_scmi_clock_set_state, hf, hc, hpol, hen]
          · simp [plat_scmi_clock_set_state, hf1, hc1, hpol1]
    | false =>
      cases hen : clock.enabled with
      | false =>
        refine ⟨SCMI_SUCCESS, w, SCMI_SUCCESS, ?_, ?_, Or.inl rfl⟩ <;>
          simp [plat_scmi_clock_set_state, hf, hc, hpol, hen]
      | true =>
        have hc1 : clock_at (store_enabled (clk_disable p w clock.clock_id)
            agent_id scmi_id false) agent_id scmi_id =
            some { clock with enabled := false } :=
          clock_at_store_enabled (clk_disable p w clock.clock_id) agent_id
            scmi_id false clock hc
        have hf1 := find_clock_of_clock_at hc1
        by_cases hpol1 : p.stm32mp_nsec_can_access_clock
            (store_enabled (clk_disable p w clock.clock_id) agent_id scmi_id
              false).hw clock.clock_id = true
        · refine ⟨SCMI_SUCCESS, store_enabled (clk_disable p w clock.clock_id)
            agent_id scmi_id false, SCMI_SUCCESS, ?_, ?_, Or.inr rfl⟩
          · simp [plat_scmi_clock_set_state, hf, hc, hpol, hen]
          · simp [plat_scmi_clock_set_state, hf1, hc1, hpol1]
        · refine ⟨SCMI_SUCCESS, store_enabled (clk_disable p w clock.clock_id)
            agent_id scmi_id false, SCMI_DENIED, ?_, ?_, Or.inr rfl⟩
          · simp [plat_scmi_clock_set_state, hf, hc, hpol, hen]
          · simp [plat_scmi_clock_set_state, hf1, hc1, hpol1]
  · refine ⟨SCMI_DENIED, w, SCMI_DENIED, ?_, ?_, Or.inl rfl⟩ <;>
      simp [plat_scmi_clock_set_state, hf, hc, hpol]

/-- Witness for C3: enabling twice the clock `cryp1` (agent 0, handle 10,
initially disabled) of the shipped tables. -/
theorem clock_set_state_idempotent_witness :
    clock_at sample_world 0 10 = some (CLOCK_CELL sample_dt.CRYP1 "cryp1" false) ∧
    ∃ s1 w1 s2,
      plat_scmi_clock_set_state (sample_platform true 0 []) sample_world 0 10
        true = some (s1, w1) ∧
      plat_scmi_clock_set_state (sample_platform true 0 []) w1 0 10 true =
        some (s2, w1) ∧
      (w1.trace = sample_world.trace ∨
        w1.trace = sample_world.trace ++
          [if true = true then
              DriverCall.clk_enable (CLOCK_CELL sample_dt.CRYP1 "cryp1" false).clock_id
            else
              DriverCall.clk_disable (CLOCK_CELL sample_dt.CRYP1 "cryp1" false).clock_id]) :=
  ⟨rfl, clock_set_state_idempotent (sample_platform true 0 []) sample_world 0 10
    true (CLOCK_CELL sample_dt.CRYP1 "cryp1" false) rfl⟩

/-- C4: for an in-range fixed-rail voltage domain (backend `VOLTD_PWR`, with
a private id that names a power-controller regulator) and every requested
level: `plat_scmi_voltd_get_level` returns the `long` product of the
regulator's millivolt value by 1000, which is 1000 times that value whenever
the product fits a `long`; `plat_scmi_voltd_set_level` returns `SCMI_SUCCESS`
when the request equals that level and `SCMI_INVALID_PARAMETERS` otherwise;
in both cases the only driver call is the read `stm32mp1_pwr_regulator_mv`,
the driver state and the tables stay as they were, and a
`plat_scmi_voltd_get_level` issued afterwards returns the same level. -/
theorem fixed_rail_set_level {H : Type} (p : Platform H) (w : World H)
    (agent_id scmi_id : Nat) (voltd : stm32_scmi_voltd)
    (regu_id : pwr_regulator) (level_uv : Int)
    (hv : voltd_at w agent_id scmi_id = some voltd)
    (hdev : voltd.priv_dev = VOLTD_PWR)
    (hid : pwr_scmi_to_regu_id voltd = some regu_id) :
    ∃ level : Int,
      plat_scmi_voltd_get_level p w agent_id scmi_id =
        some (level, w.read (DriverCall.stm32mp1_pwr_regulator_mv regu_id)) ∧
      (p.stm32mp1_pwr_regulator_mv w.hw regu_id ≤ 2147483 →
        level = 1000 * (p.stm32mp1_pwr_regulator_mv w.hw regu_id : Int)) ∧
      plat_scmi_voltd_set_level p w agent_id scmi_id level_uv =
        some (if level_uv = level then SCMI_SUCCESS
              else SCMI_INVALID_PARAMETERS,
          w.read (DriverCall.stm32mp1_pwr_regulator_mv regu_id)) ∧
      (plat_scmi_voltd_get_level p
          (w.read (DriverCall.stm32mp1_pwr_regulator_mv regu_id))
          agent_id scmi_id).map Prod.fst = some level := by
  have hf := find_voltd_of_voltd_at hv
  have hv1 : voltd_at (w.read (DriverCall.stm32mp1_pwr_regulator_mv regu_id))
      agent_id scmi_id = some voltd := hv
  have hf1 := find_voltd_of_voltd_at hv1
  refine ⟨to_long (to_long (p.stm32mp1_pwr_regulator_mv w.hw regu_id) * 1000),
    ?_, ?_, ?_, ?_⟩
  · simp [plat_scmi_voltd_get_level, hf, hv, hdev, pwr_get_level, hid,
      stm32mp1_pwr_regulator_mv]
  · intro hmv
    have h1 : to_long (p.stm32mp1_pwr_regulator_mv w.hw regu_id : Int) =
        (p.stm32mp1_pwr_regulator_mv w.hw regu_id : Int) :=
      to_long_of_range (by omega) (by omega)
    rw [h1, to_long_of_range (by omega) (by omega)]
    ring
  · by_cases hl : level_uv =
        to_long (to_long (p.stm32mp1_pwr_regulator_mv w.hw regu_id) * 1000)
    · simp [plat_scmi_voltd_set_level, hf, hv, hdev, pwr_set_level,
        pwr_get_level, hid, stm32mp1_pwr_regulator_mv, hl]
    · simp [plat_scmi_voltd_set_level, hf, hv, hdev, pwr_set_level,
        pwr_get_level, hid, stm32mp1_pwr_regulator_mv, hl]
  · simp [plat_scmi_voltd_get_level, hf1, hv1, hdev, pwr_get_level, hid,
      stm32mp1_pwr_regulator_mv, World.read_hw]

/-- Witness for C4: the domain `reg18` (agent 0, handle 1) of the shipped
tables, asked for 1.8 V. -/
theorem fixed_rail_set_level_witness :
    voltd_at sample_world 0 1 =
      some (VOLTD_CELL VOLTD_PWR PWR_REG18_NAME_ID "reg18") ∧
    ∃ level : Int,
      plat_scmi_voltd_get_level (sample_platform true 0 []) sample_world 0 1 =
        some (level, sample_world.read
          (DriverCall.stm32mp1_pwr_regulator_mv pwr_regulator.PWR_REG18)) ∧
      ((sample_platform true 0 []).stm32mp1_pwr_regulator_mv sample_world.hw
          pwr_regulator.PWR_REG18 ≤ 2147483 →
        level = 1000 * ((sample_platform true 0 []).stm32mp1_pwr_regulator_mv
          sample_world.hw pwr_regulator.PWR_REG18 : Int)) ∧
      plat_scmi_voltd_set_level (sample_platform true 0 []) sample_world 0 1
          1800000 =
        some (if (1800000 : Int) = level then SCMI_SUCCESS
              else SCMI_INVALID_PARAMETERS,
          sample_world.read
            (DriverCall.stm32mp1_pwr_regulator_mv pwr_regulator.PWR_REG18)) ∧
      (plat_scmi_voltd_get_level (sample_platform true 0 [])
          (sample_world.read
            (DriverCall.stm32mp1_pwr_regulator_mv pwr_regulator.PWR_REG18))
          0 1).map Prod.fst = some level :=
  ⟨rfl, fixed_rail_set_level (sample_platform true 0 []) sample_world 0 1
    (VOLTD_CELL VOLTD_PWR PWR_REG18_NAME_ID "reg18") pwr_regulator.PWR_REG18
    1800000 rfl rfl (by decide)⟩

/-- C5: for a PMIC domain the policy permits, with a level list of
`uint16_t` millivolt values, an output buffer of at least `nb_elts` slots and
a start index not above the length of the list, `pmic_describe_levels`
returns `SCMI_SUCCESS`, sets the count to the minimum of the remaining
length and `nb_elts`, writes 1000 times the level at `start_index + i` into
slot `i` for every `i` below that count, leaves the other slots as they
were, and calls the driver only to read the level list.  On the list
800, 850, 900, 1000 mV with start index 2 and capacity 10 the buffer starts
with 900000, 1000000 and the count is 2. -/
theorem pmic_describe_levels_paging {H : Type} (p : Platform H) (w : World H)
    (voltd : stm32_scmi_voltd) (start_index nb_elts : Nat) (buf : List Int)
    (hpol : p.stm32mp_nsec_can_access_pmic_regu w.hw voltd.priv_id = true)
    (hu16 : ∀ level ∈ p.stpmic1_regulator_levels_mv w.hw voltd.priv_id,
      level ≤ UINT16_MAX)
    (hlen : (p.stpmic1_regulator_levels_mv w.hw voltd.priv_id).length <
      SIZE_T_MOD)
    (hs : start_index ≤
      (p.stpmic1_regulator_levels_mv w.hw voltd.priv_id).length)
    (hcap : nb_elts ≤ buf.length) :
    pmic_describe_levels (sample_platform true 0 [800, 850, 900, 1000])
        sample_pmic_world (VOLTD_CELL VOLTD_PMIC "buck1" "vddcore") 2
        (some [0, 0, 0, 0, 0, 0, 0, 0, 0, 0]) 10 =
      some (SCMI_SUCCESS, some [900000, 1000000, 0, 0, 0, 0, 0, 0, 0, 0], 2,
        sample_pmic_world.read (DriverCall.stpmic1_regulator_levels_mv "buck1")) ∧
    ∃ out : List Int,
      pmic_describe_levels p w voltd start_index (some buf) nb_elts =
        some (SCMI_SUCCESS, some out,
          min ((p.stpmic1_regulator_levels_mv w.hw voltd.priv_id).length -
            start_index) nb_elts,
          w.read (DriverCall.stpmic1_regulator_levels_mv voltd.priv_id)) ∧
      out.length = buf.length ∧
      (∀ i, i < min ((p.stpmic1_regulator_levels_mv w.hw voltd.priv_id).length -
            start_index) nb_elts →
        out[i]? =
          ((p.stpmic1_regulator_levels_mv w.hw voltd.priv_id)[start_index + i]?).map
            (fun level : Nat => 1000 * (level : Int)) ∧
        start_index + i <
          (p.stpmic1_regulator_levels_mv w.hw voltd.priv_id).length) ∧
      (∀ i, min ((p.stpmic1_regulator_levels_mv w.hw voltd.priv_id).length -
            start_index) nb_elts ≤ i → out[i]? = buf[i]?) := by
  refine ⟨rfl, ?_⟩
  generalize hL : p.stpmic1_regulator_levels_mv w.hw voltd.priv_id = levels
    at hu16 hlen hs
  have hsub : size_t_sub levels.length start_index =
      levels.length - start_index := size_t_sub_of_le hs hlen
  have hover : (SUB_OVERFLOW levels.length start_index).1 = false := by
    unfold SUB_OVERFLOW
    unfold SIZE_T_MOD at hlen ⊢
    simp only [decide_eq_false_iff_not]
    have hsm : start_index % 2 ^ 32 = start_index :=
      Nat.mod_eq_of_lt (by omega)
    rw [Nat.mod_eq_of_lt hlen, hsm]
    omega
  have hdiff : (SUB_OVERFLOW levels.length start_index).2 =
      levels.length - start_index := hsub
  obtain ⟨out, hout, hlen_out, hin, hrest⟩ :=
    pmic_copy_levels_spec levels start_index
      (min (levels.length - start_index) nb_elts) 0 buf
      (by have := Nat.min_le_left (levels.length - start_index) nb_elts; omega)
      (by have := Nat.min_le_right (levels.length - start_index) nb_elts; omega)
  refine ⟨out, ?_, hlen_out, ?_, ?_⟩
  · simp [pmic_describe_levels, hpol, stpmic1_regulator_levels_mv, hL, hover,
      hdiff, hout]
  · intro i hi
    have hlt : start_index + i < levels.length := by
      have := Nat.min_le_left (levels.length - start_index) nb_elts
      omega
    refine ⟨?_, hlt⟩
    rw [hin i (Nat.zero_le i) (by omega), List.getElem?_eq_getElem hlt]
    simp only [Option.map_some']
    rw [level_to_microvolt (hu16 _ (List.getElem_mem hlt))]
  · intro i hi
    exact hrest i (Or.inr (by omega))

/-- Witness for C5: the four-level list paged from index 1 into a
three-slot buffer with capacity 2. -/
theorem pmic_describe_levels_paging_witness :
    ∃ out : List Int,
      pmic_describe_levels (sample_platform true 0 [800, 850, 900, 1000])
          sample_pmic_world (VOLTD_CELL VOLTD_PMIC "buck1" "vddcore") 1
          (some [7, 7, 7]) 2 =
        some (SCMI_SUCCESS, some out, 2,
          sample_pmic_world.read
            (DriverCall.stpmic1_regulator_levels_mv "buck1")) ∧
      out.length = 3 :=
  match (pmic_describe_levels_paging (sample_platform true 0 [800, 850, 900, 1000])
      sample_pmic_world (VOLTD_CELL VOLTD_PMIC "buck1" "vddcore") 1 2 [7, 7, 7]
      rfl (by decide) (by decide) (by decide) (by decide)).2 with
  | ⟨out, h1, h2, _⟩ => ⟨out, h1, h2⟩

/-- C6, the code at the failing input: on a PMIC domain the policy permits,
with four levels and start index 10, the count-only query (null buffer) of
`plat_scmi_voltd_levels_array` returns `SCMI_SUCCESS` with the wrapped count
`4 - 10 = 4294967290`, while the same query with a buffer returns
`SCMI_GENERIC_ERROR`. -/
theorem describe_levels_count_only_wraps :
    plat_scmi_voltd_levels_array (sample_platform true 0 [800, 850, 900, 1000])
        sample_pmic_world 0 0 10 none 0 =
      some (SCMI_SUCCESS, none, 4294967290,
        sample_pmic_world.read (DriverCall.stpmic1_regulator_levels_mv "buck1")) ∧
    plat_scmi_voltd_levels_array (sample_platform true 0 [800, 850, 900, 1000])
        sample_pmic_world 0 0 10 (some [0, 0]) 2 =
      some (SCMI_GENERIC_ERROR, some [0, 0], 2,
        sample_pmic_world.read (DriverCall.stpmic1_regulator_levels_mv "buck1")) :=
  ⟨rfl, rfl⟩

/-- C7 (as amended): `stm32mp1_init_scmi_server` stops in `panic` for every
catalog that holds a clock, reset-domain or voltage-domain entry whose name
is a null pointer or has 16 bytes or more. -/
theorem init_rejects_invalid_name {H : Type} (p : Platform H) (w : World H)
    (hbad : ∃ res ∈ w.tables,
      (∃ clk ∈ res.clock, name_rejected clk.name SCMI_CLOCK_NAME_SIZE) ∨
      (∃ rd ∈ res.rd, name_rejected rd.name SCMI_RD_NAME_SIZE) ∨
      (∃ voltd ∈ res.voltd, name_rejected voltd.name SCMI_VOLTD_NAME_SIZE)) :
    SCMI_CLOCK_NAME_SIZE = 16 ∧ SCMI_RD_NAME_SIZE = 16 ∧
    SCMI_VOLTD_NAME_SIZE = 16 ∧
    stm32mp1_init_scmi_server p w = none :=
  ⟨rfl, rfl, rfl, init_agent_loop_rejects p w.tables w hbad⟩

/-- Witness for C7: a catalog whose only reset domain has a name of 16
bytes. -/
theorem init_rejects_invalid_name_witness :
    SCMI_CLOCK_NAME_SIZE = 16 ∧ SCMI_RD_NAME_SIZE = 16 ∧
    SCMI_VOLTD_NAME_SIZE = 16 ∧
    stm32mp1_init_scmi_server (sample_platform true 0 [])
      { tables := [{ clock := [], rd := [RESET_CELL 0 "0123456789abcdef"],
                     voltd := [] }],
        hw := (), trace := [] } = none :=
  init_rejects_invalid_name (sample_platform true 0 [])
    { tables := [{ clock := [], rd := [RESET_CELL 0 "0123456789abcdef"],
                   voltd := [] }],
      hw := (), trace := [] }
    ⟨{ clock := [], rd := [RESET_CELL 0 "0123456789abcdef"], voltd := [] },
      List.mem_singleton.mpr rfl,
      Or.inr (Or.inl ⟨RESET_CELL 0 "0123456789abcdef", List.mem_singleton.mpr rfl,
        Or.inr ⟨"0123456789abcdef", rfl, by decide⟩⟩)⟩

/-- C7, counterexample to the claim as stated: a catalog whose clock,
reset-domain and voltage-domain entries all have the empty name `""` passes
`stm32mp1_init_scmi_server`, which returns with the catalog as it was. -/
theorem init_accepts_empty_name :
    stm32mp1_init_scmi_server (sample_platform true 0 [])
      { tables := [{ clock := [CLOCK_CELL 0 "" false],
                     rd := [RESET_CELL 0 ""],
                     voltd := [VOLTD_CELL VOLTD_PWR "0" ""] }],
        hw := (), trace := [] } =
      some { tables := [{ clock := [CLOCK_CELL 0 "" false],
                          rd := [RESET_CELL 0 ""],
                          voltd := [VOLTD_CELL VOLTD_PWR "0" ""] }],
             hw := (), trace := [] } :=
  rfl

/-- C8: for an in-range reset domain whose reset id is `MCU_HOLD_BOOT_R` and
which the policy permits, `plat_scmi_rd_autonomous` returns
`SCMI_NOT_SUPPORTED` for every requested state and hands back the world it
was given, so no reset driver function was called. -/
theorem hold_boot_autonomous_not_supported {H : Type} (p : Platform H)
    (w : World H) (agent_id scmi_id state : Nat) (rd : stm32_scmi_rd)
    (hr : rd_at w agent_id scmi_id = some rd)
    (hid : rd.reset_id = p.dt.MCU_HOLD_BOOT_R)
    (hpol : p.stm32mp_nsec_can_access_reset w.hw rd.reset_id = true) :
    plat_scmi_rd_autonomous p w agent_id scmi_id state =
      some (SCMI_NOT_SUPPORTED, w) := by
  have hf := find_rd_of_rd_at hr
  have hpol1 : p.stm32mp_nsec_can_access_reset w.hw p.dt.MCU_HOLD_BOOT_R =
      true := hid ▸ hpol
  simp [plat_scmi_rd_autonomous, hf, hr, hpol1, hid]

/-- Witness for C8: the entry `mcu_hold_boot` (agent 0, handle 11) of the
shipped tables, requested state 0. -/
theorem hold_boot_autonomous_not_supported_witness :
    rd_at sample_world 0 11 =
      some (RESET_CELL sample_dt.MCU_HOLD_BOOT_R "mcu_hold_boot") ∧
    plat_scmi_rd_autonomous (sample_platform true 0 []) sample_world 0 11 0 =
      some (SCMI_NOT_SUPPORTED, sample_world) :=
  ⟨rfl, hold_boot_autonomous_not_supported (sample_platform true 0 [])
    sample_world 0 11 0 (RESET_CELL sample_dt.MCU_HOLD_BOOT_R "mcu_hold_boot")
    rfl rfl rfl⟩

/-- C9: for an in-range reset domain the policy permits,
`plat_scmi_rd_set_state` returns `SCMI_SUCCESS` after exactly one driver
call: `stm32_reset_assert_deassert_mcu` with the requested boolean when the
reset id is `MCU_HOLD_BOOT_R`, and otherwise `stm32_reset_set` (boolean
true) or `stm32_reset_release` (boolean false) on the reset id of the
entry.  The tables are left as they were. -/
theorem rd_set_state_dispatch {H : Type} (p : Platform H) (w : World H)
    (agent_id scmi_id : Nat) (assert_not_deassert : Bool) (rd : stm32_scmi_rd)
    (hr : rd_at w agent_id scmi_id = some rd)
    (hpol : p.stm32mp_nsec_can_access_reset w.hw rd.reset_id = true) :
    ∃ w1, plat_scmi_rd_set_state p w agent_id scmi_id assert_not_deassert =
        some (SCMI_SUCCESS, w1) ∧
      w1.tables = w.tables ∧
      (rd.reset_id = p.dt.MCU_HOLD_BOOT_R →
        w1.trace = w.trace ++
          [DriverCall.stm32_reset_assert_deassert_mcu assert_not_deassert] ∧
        w1.hw = p.stm32_reset_assert_deassert_mcu w.hw assert_not_deassert) ∧
      (rd.reset_id ≠ p.dt.MCU_HOLD_BOOT_R → assert_not_deassert = true →
        w1.trace = w.trace ++ [DriverCall.stm32_reset_set rd.reset_id] ∧
        w1.hw = p.stm32_reset_set w.hw rd.reset_id) ∧
      (rd.reset_id ≠ p.dt.MCU_HOLD_BOOT_R → assert_not_deassert = false →
        w1.trace = w.trace ++ [DriverCall.stm32_reset_release rd.reset_id] ∧
        w1.hw = p.stm32_reset_release w.hw rd.reset_id) := by
  have hf := find_rd_of_rd_at hr
  by_cases hid : rd.reset_id = p.dt.MCU_HOLD_BOOT_R
  · refine ⟨stm32_reset_assert_deassert_mcu p w assert_not_deassert, ?_, rfl,
      fun _ => ⟨rfl, rfl⟩, fun h => absurd hid h, fun h => absurd hid h⟩
    have hpol1 : p.stm32mp_nsec_can_access_reset w.hw p.dt.MCU_HOLD_BOOT_R =
        true := hid ▸ hpol
    simp [plat_scmi_rd_set_state, hf, hr, hpol1, hid]
  · cases assert_not_deassert with
    | true =>
      refine ⟨stm32_reset_set p w rd.reset_id, ?_, rfl,
        fun h => absurd h hid, fun _ _ => ⟨rfl, rfl⟩, fun _ h => by cases h⟩
      simp [plat_scmi_rd_set_state, hf, hr, hpol, hid]
    | false =>
      refine ⟨stm32_reset_release p w rd.reset_id, ?_, rfl,
        fun h => absurd h hid, fun _ h => (by cases h), fun _ _ => ⟨rfl, rfl⟩⟩
      simp [plat_scmi_rd_set_state, hf, hr, hpol, hid]

/-- Witness for C9: asserting the entry `mcu_hold_boot` (agent 0, handle 11)
of the shipped tables. -/
theorem rd_set_state_dispatch_witness :
    rd_at sample_world 0 11 =
      some (RESET_CELL sample_dt.MCU_HOLD_BOOT_R "mcu_hold_boot") ∧
    ∃ w1, plat_scmi_rd_set_state (sample_platform true 0 []) sample_world 0 11
        true = some (SCMI_SUCCESS, w1) ∧
      w1.trace = [DriverCall.stm32_reset_assert_deassert_mcu true] :=
  match rd_set_state_dispatch (sample_platform true 0 []) sample_world 0 11 true
      (RESET_CELL sample_dt.MCU_HOLD_BOOT_R "mcu_hold_boot") rfl rfl with
  | ⟨w1, h1, _, h3, _, _⟩ => ⟨rfl, w1, h1, (h3 rfl).1⟩

/-- C10: for an in-range reset domain other than the hold-boot line that the
policy permits, `plat_scmi_rd_autonomous` with a non-zero state returns
`SCMI_NOT_SUPPORTED` and hands back the world it was given; with state 0 it
calls `stm32_reset_assert` with `TIMEOUT_US_1MS` (1000), and when that
returns non-zero it returns `SCMI_HARDWARE_ERROR` with no further call; when
it returns zero it calls `stm32_reset_deassert` with the same timeout once
and returns `SCMI_HARDWARE_ERROR` or `SCMI_SUCCESS` as that call returns
non-zero or zero. -/
theorem ordinary_reset_autonomous {H : Type} (p : Platform H) (w : World H)
    (agent_id scmi_id state : Nat) (rd : stm32_scmi_rd)
    (hr : rd_at w agent_id scmi_id = some rd)
    (hpol : p.stm32mp_nsec_can_access_reset w.hw rd.reset_id = true)
    (hid : rd.reset_id ≠ p.dt.MCU_HOLD_BOOT_R) :
    TIMEOUT_US_1MS = 1000 ∧
    (state ≠ 0 →
      plat_scmi_rd_autonomous p w agent_id scmi_id state =
        some (SCMI_NOT_SUPPORTED, w)) ∧
    (state = 0 →
      ∃ status w1,
        plat_scmi_rd_autonomous p w agent_id scmi_id state =
          some (status, w1) ∧
        w1.tables = w.tables ∧
        ((p.stm32_reset_assert w.hw rd.reset_id 1000).2 ≠ 0 →
          status = SCMI_HARDWARE_ERROR ∧
          w1.trace = w.trace ++ [DriverCall.stm32_reset_assert rd.reset_id 1000] ∧
          w1.hw = (p.stm32_reset_assert w.hw rd.reset_id 1000).1) ∧
        ((p.stm32_reset_assert w.hw rd.reset_id 1000).2 = 0 →
          w1.trace = w.trace ++
            [DriverCall.stm32_reset_assert rd.reset_id 1000,
             DriverCall.stm32_reset_deassert rd.reset_id 1000] ∧
          w1.hw = (p.stm32_reset_deassert
            (p.stm32_reset_assert w.hw rd.reset_id 1000).1 rd.reset_id 1000).1 ∧
          (status = SCMI_SUCCESS ↔
            (p.stm32_reset_deassert
              (p.stm32_reset_assert w.hw rd.reset_id 1000).1
              rd.reset_id 1000).2 = 0) ∧
          (status = SCMI_HARDWARE_ERROR ↔
            (p.stm32_reset_deassert
              (p.stm32_reset_assert w.hw rd.reset_id 1000).1
              rd.reset_id 1000).2 ≠ 0))) := by
  have hf := find_rd_of_rd_at hr
  refine ⟨rfl, ?_, ?_⟩
  · intro hs
    simp [plat_scmi_rd_autonomous, hf, hr, hpol, hid, hs]
  · intro hs
    subst hs
    by_cases ha : (p.stm32_reset_assert w.hw rd.reset_id 1000).2 = 0
    · by_cases hd : (p.stm32_reset_deassert
          (p.stm32_reset_assert w.hw rd.reset_id 1000).1 rd.reset_id 1000).2 = 0
      · refine ⟨SCMI_SUCCESS,
          (stm32_reset_deassert p
            (stm32_reset_assert p w rd.reset_id TIMEOUT_US_1MS).2
            rd.reset_id TIMEOUT_US_1MS).2, ?_, rfl, fun h => absurd ha h,
          fun _ => ⟨?_, rfl, ?_, ?_⟩⟩
        · simp [plat_scmi_rd_autonomous, hf, hr, hpol, hid, stm32_reset_assert,
            stm32_reset_deassert, TIMEOUT_US_1MS, ha, hd, World.act]
        · simp [stm32_reset_assert, stm32_reset_deassert, TIMEOUT_US_1MS,
            World.act]
        · simp [hd]
        · simp [hd]
      · refine ⟨SCMI_HARDWARE_ERROR,
          (stm32_reset_deassert p
            (stm32_reset_assert p w rd.reset_id TIMEOUT_US_1MS).2
            rd.reset_id TIMEOUT_US_1MS).2, ?_, rfl, fun h => absurd ha h,
          fun _ => ⟨?_, rfl, ?_, ?_⟩⟩
        · simp [plat_scmi_rd_autonomous, hf, hr, hpol, hid, stm32_reset_assert,
            stm32_reset_deassert, TIMEOUT_US_1MS, ha, hd, World.act]
        · simp [stm32_reset_assert, stm32_reset_deassert, TIMEOUT_US_1MS,
            World.act]
        · simp [hd]
        · simp [hd]
    · refine ⟨SCMI_HARDWARE_ERROR,
        (stm32_reset_assert p w rd.reset_id TIMEOUT_US_1MS).2, ?_, rfl,
        fun _ => ⟨rfl, rfl, rfl⟩, fun h => absurd h ha⟩
      simp [plat_scmi_rd_autonomous, hf, hr, hpol, hid, stm32_reset_assert,
        TIMEOUT_US_1MS, ha, World.act]

/-- Witness for C10: the entry `mcu` (agent 0, handle 10) of the shipped
tables with state 0, on a platform whose reset driver times out. -/
theorem ordinary_reset_autonomous_witness :
    rd_at sample_world 0 10 = some (RESET_CELL sample_dt.MCU_R "mcu") ∧
    ∃ w1, plat_scmi_rd_autonomous (sample_platform true 1 []) sample_world 0 10
        0 = some (SCMI_HARDWARE_ERROR, w1) ∧
      w1.trace = [DriverCall.stm32_reset_assert sample_dt.MCU_R 1000] :=
  match (ordinary_reset_autonomous (sample_platform true 1 []) sample_world 0
      10 0 (RESET_CELL sample_dt.MCU_R "mcu") rfl rfl (by decide)).2.2 rfl with
  | ⟨_, w1, h1, _, h3, _⟩ =>
    ⟨rfl, w1, (h3 (by decide)).1 ▸ h1, (h3 (by decide)).2.1⟩

/-- C11, the code at the failing input: under a policy that denies every
reset line, `plat_scmi_rd_get_name` on agent 0, handle 0 of the shipped
tables still returns the name `spi6`, while `plat_scmi_rd_set_state` on the
same handle returns `SCMI_DENIED` and `plat_scmi_clock_get_name` under the
same policy returns `NULL`. -/
theorem rd_get_name_ignores_policy :
    (sample_platform false 0 []).stm32mp_nsec_can_access_reset sample_world.hw
      sample_dt.SPI6_R = false ∧
    plat_scmi_rd_get_name (sample_platform false 0 []) sample_world 0 0 =
      some (some "spi6", sample_world) ∧
    plat_scmi_rd_set_state (sample_platform false 0 []) sample_world 0 0 true =
      some (SCMI_DENIED, sample_world) ∧
    plat_scmi_clock_get_name (sample_platform false 0 []) sample_world 0 0 =
      some (none, sample_world) :=
  ⟨rfl, rfl, rfl, rfl⟩

/-- C12: for every agent of the catalog and every handle,
`plat_scmi_clock_get_name` returns the name of the entry when the handle is
in range and the policy permits the clock, and `NULL` when the policy denies
it or the handle is out of range; `plat_scmi_voltd_get_name` returns the name
of the entry for every in-range handle, whatever the platform (so whatever
the policy answers), and `NULL` out of range.  Neither changes the world. -/
theorem clock_and_voltd_get_name {H : Type} (p : Platform H) (w : World H)
    (agent_id scmi_id : Nat) (hA : agent_id < w.tables.length) :
    (∀ clock, clock_at w agent_id scmi_id = some clock →
      p.stm32mp_nsec_can_access_clock w.hw clock.clock_id = true →
      plat_scmi_clock_get_name p w agent_id scmi_id = some (clock.name, w)) ∧
    (∀ clock, clock_at w agent_id scmi_id = some clock →
      p.stm32mp_nsec_can_access_clock w.hw clock.clock_id = false →
      plat_scmi_clock_get_name p w agent_id scmi_id = some (none, w)) ∧
    (clock_at w agent_id scmi_id = none →
      plat_scmi_clock_get_name p w agent_id scmi_id = some (none, w)) ∧
    (∀ voltd, voltd_at w agent_id scmi_id = some voltd →
      plat_scmi_voltd_get_name p w agent_id scmi_id = some (voltd.name, w)) ∧
    (voltd_at w agent_id scmi_id = none →
      plat_scmi_voltd_get_name p w agent_id scmi_id = some (none, w)) := by
  refine ⟨?_, ?_, ?_, ?_, ?_⟩
  · intro clock hc hpol
    simp [plat_scmi_clock_get_name, find_clock_of_clock_at hc, hc, hpol]
  · intro clock hc hpol
    simp [plat_scmi_clock_get_name, find_clock_of_clock_at hc, hc, hpol]
  · intro hc
    simp [plat_scmi_clock_get_name, find_clock_of_clock_at_none hA hc]
  · intro voltd hv
    simp [plat_scmi_voltd_get_name, find_voltd_of_voltd_at hv, hv]
  · intro hv
    simp [plat_scmi_voltd_get_name, find_voltd_of_voltd_at_none hA hv]

/-- Witness for C12: the clock `ck_hse` under a permitting policy and the
voltage domain `reg18` under a denying one, on the shipped tables. -/
theorem clock_and_voltd_get_name_witness :
    (0 : Nat) < sample_world.tables.length ∧
    plat_scmi_clock_get_name (sample_platform true 0 []) sample_world 0 0 =
      some (some "ck_hse", sample_world) ∧
    plat_scmi_voltd_get_name (sample_platform false 0 []) sample_world 0 1 =
      some (some "reg18", sample_world) :=
  ⟨by decide,
   (clock_and_voltd_get_name (sample_platform true 0 []) sample_world 0 0
      (by decide)).1 (CLOCK_CELL sample_dt.CK_HSE "ck_hse" true) rfl rfl,
   (clock_and_voltd_get_name (sample_platform false 0 []) sample_world 0 1
      (by decide)).2.2.2.1 (VOLTD_CELL VOLTD_PWR PWR_REG18_NAME_ID "reg18") rfl⟩

/-- C13: for an in-range clock the policy permits and every rate,
`plat_scmi_clock_set_rate` returns and leaves the tables (so every cached
flag) as they were.  On the handle `CK_SCMI0_MPU` (the entry `ck_mpu` of
agent 0 in the shipped tables; agent 1 has no such handle) its one driver
call is `stm32mp1_set_opp_khz (rate / 1000)`, and the status is
`SCMI_SUCCESS` when that returns zero and `SCMI_INVALID_PARAMETERS`
otherwise.  On every other handle its one driver call is the read
`clk_get_rate`, the driver state is untouched, and the status is
`SCMI_SUCCESS` exactly when the rate equals the current rate and
`SCMI_INVALID_PARAMETERS` exactly when it differs. -/
theorem clock_set_rate_spec {H : Type} (p : Platform H) (w : World H)
    (agent_id scmi_id rate : Nat) (clock : stm32_scmi_clk)
    (hc : clock_at w agent_id scmi_id = some clock)
    (hpol : p.stm32mp_nsec_can_access_clock w.hw clock.clock_id = true) :
    (agent_resources p.dt)[0]?.bind (fun r => r.clock[CK_SCMI0_MPU]?) =
      some (CLOCK_CELL p.dt.CK_MPU "ck_mpu" true) ∧
    (agent_resources p.dt)[1]?.bind (fun r => r.clock[CK_SCMI0_MPU]?) = none ∧
    ∃ status w1,
      plat_scmi_clock_set_rate p w agent_id scmi_id rate = some (status, w1) ∧
      w1.tables = w.tables ∧
      (scmi_id = CK_SCMI0_MPU →
        w1.trace = w.trace ++ [DriverCall.stm32mp1_set_opp_khz (rate / 1000)] ∧
        w1.hw = (p.stm32mp1_set_opp_khz w.hw (rate / 1000)).1 ∧
        ((p.stm32mp1_set_opp_khz w.hw (rate / 1000)).2 = 0 →
          status = SCMI_SUCCESS) ∧
        ((p.stm32mp1_set_opp_khz w.hw (rate / 1000)).2 ≠ 0 →
          status = SCMI_INVALID_PARAMETERS)) ∧
      (scmi_id ≠ CK_SCMI0_MPU →
        w1.trace = w.trace ++ [DriverCall.clk_get_rate clock.clock_id] ∧
        w1.hw = w.hw ∧
        (status = SCMI_SUCCESS ↔ rate = p.clk_get_rate w.hw clock.clock_id) ∧
        (status = SCMI_INVALID_PARAMETERS ↔
          rate ≠ p.clk_get_rate w.hw clock.clock_id)) := by
  have hf := find_clock_of_clock_at hc
  refine ⟨rfl, rfl, ?_⟩
  by_cases hm : scmi_id = CK_SCMI0_MPU
  · by_cases hrc : (p.stm32mp1_set_opp_khz w.hw (rate / 1000)).2 = 0
    · refine ⟨SCMI_SUCCESS, (stm32mp1_set_opp_khz p w (rate / 1000)).2, ?_, rfl,
        fun _ => ⟨rfl, rfl, fun _ => rfl, fun h => absurd hrc h⟩,
        fun h => absurd hm h⟩
      subst hm
      simp [plat_scmi_clock_set_rate, hf, hc, hpol, stm32mp1_set_opp_khz, hrc]
    · refine ⟨SCMI_INVALID_PARAMETERS,
        (stm32mp1_set_opp_khz p w (rate / 1000)).2, ?_, rfl,
        fun _ => ⟨rfl, rfl, fun h => absurd h hrc, fun _ => rfl⟩,
        fun h => absurd hm h⟩
      subst hm
      simp [plat_scmi_clock_set_rate, hf, hc, hpol, stm32mp1_set_opp_khz, hrc]
  · by_cases hr : rate = p.clk_get_rate w.hw clock.clock_id
    · refine ⟨SCMI_SUCCESS, (clk_get_rate p w clock.clock_id).2, ?_, rfl,
        fun h => absurd h hm, fun _ => ⟨rfl, rfl, ?_, ?_⟩⟩
      · simp [plat_scmi_clock_set_rate, hf, hc, hpol, clk_get_rate, hm, hr]
      · simp [hr]
      · simp [hr]
    · refine ⟨SCMI_INVALID_PARAMETERS, (clk_get_rate p w clock.clock_id).2, ?_,
        rfl, fun h => absurd h hm, fun _ => ⟨rfl, rfl, ?_, ?_⟩⟩
      · simp [plat_scmi_clock_set_rate, hf, hc, hpol, clk_get_rate, hm, hr]
      · simp [hr]
      · simp [hr]

/-- Witness for C13: 650 MHz asked of the clock `ck_mpu` (agent 0, handle 7)
of the shipped tables, on a platform whose operating-point selector
succeeds. -/
theorem clock_set_rate_spec_witness :
    clock_at sample_world 0 7 = some (CLOCK_CELL sample_dt.CK_MPU "ck_mpu" true) ∧
    ∃ w1, plat_scmi_clock_set_rate (sample_platform true 0 []) sample_world 0 7
        650000000 = some (SCMI_SUCCESS, w1) ∧
      w1.trace = [DriverCall.stm32mp1_set_opp_khz 650000] :=
  match (clock_set_rate_spec (sample_platform true 0 []) sample_world 0 7
      650000000 (CLOCK_CELL sample_dt.CK_MPU "ck_mpu" true) rfl rfl).2.2 with
  | ⟨_, w1, h1, _, h3, _⟩ =>
    ⟨rfl, w1, ((h3 rfl).2.2.1 rfl) ▸ h1, (h3 rfl).1⟩

/-- C14: `plat_scmi_clock_rates_array` returns `SCMI_NOT_SUPPORTED` for
every input, outputs and world untouched.  For an in-range clock the policy
permits, `plat_scmi_clock_rates_by_step` returns `SCMI_SUCCESS` and fills the
three slots with 0, `2 ^ 32 - 1`, 1 on the handle `CK_SCMI0_MPU` (the entry
`ck_mpu` of agent 0 in the shipped tables; agent 1 has no such handle), and
with the current rate, the current rate, 0 on every other handle, after the
single read `clk_get_rate`. -/
theorem clock_rates_description {H : Type} (p : Platform H) (w : World H)
    (agent_id scmi_id : Nat) (clock : stm32_scmi_clk) (a0 a1 a2 : Nat)
    (hc : clock_at w agent_id scmi_id = some clock)
    (hpol : p.stm32mp_nsec_can_access_clock w.hw clock.clock_id = true) :
    (∀ (agent scmi start : Nat) (array : List Nat) (nb_elts : Nat),
      plat_scmi_clock_rates_array p w agent scmi start array nb_elts =
        some (SCMI_NOT_SUPPORTED, array, nb_elts, w)) ∧
    (agent_resources p.dt)[0]?.bind (fun r => r.clock[CK_SCMI0_MPU]?) =
      some (CLOCK_CELL p.dt.CK_MPU "ck_mpu" true) ∧
    (agent_resources p.dt)[1]?.bind (fun r => r.clock[CK_SCMI0_MPU]?) = none ∧
    (scmi_id = CK_SCMI0_MPU →
      plat_scmi_clock_rates_by_step p w agent_id scmi_id [a0, a1, a2] =
        some (SCMI_SUCCESS, [0, 2 ^ 32 - 1, 1], w)) ∧
    (scmi_id ≠ CK_SCMI0_MPU →
      plat_scmi_clock_rates_by_step p w agent_id scmi_id [a0, a1, a2] =
        some (SCMI_SUCCESS,
          [p.clk_get_rate w.hw clock.clock_id,
           p.clk_get_rate w.hw clock.clock_id, 0],
          w.read (DriverCall.clk_get_rate clock.clock_id))) := by
  have hf := find_clock_of_clock_at hc
  refine ⟨fun _ _ _ _ _ => rfl, rfl, rfl, ?_, ?_⟩
  · intro hm
    subst hm
    simp [plat_scmi_clock_rates_by_step, hf, hc, hpol, UINT32_MAX]
  · intro hm
    simp [plat_scmi_clock_rates_by_step, hf, hc, hpol, hm, clk_get_rate]

/-- Witness for C14: the rate description of the clock `ck_mpu` (agent 0,
handle 7) of the shipped tables. -/
theorem clock_rates_description_witness :
    clock_at sample_world 0 7 = some (CLOCK_CELL sample_dt.CK_MPU "ck_mpu" true) ∧
    plat_scmi_clock_rates_by_step (sample_platform true 0 []) sample_world 0 7
        [5, 6, 7] = some (SCMI_SUCCESS, [0, 2 ^ 32 - 1, 1], sample_world) :=
  ⟨rfl, (clock_rates_description (sample_platform true 0 []) sample_world 0 7
    (CLOCK_CELL sample_dt.CK_MPU "ck_mpu" true) 5 6 7 rfl rfl).2.2.2.1 rfl⟩

/-- C15: when the policy permits the regulator, `pmic_set_level` returns
`SCMI_INVALID_PARAMETERS` with the world untouched for a level below 0 or
above 65535000; for any other level its driver calls are, in order,
`stm32mp_get_pmic`, one `stpmic1_regulator_voltage_set` with the level
divided by 1000 (at most 65535), and `stm32mp_put_pmic`, and the status is
`SCMI_SUCCESS` when the driver returns zero and `SCMI_GENERIC_ERROR`
otherwise. -/
theorem pmic_set_level_spec {H : Type} (p : Platform H) (w : World H)
    (voltd : stm32_scmi_voltd) (level_uv : Int)
    (hpol : p.stm32mp_nsec_can_access_pmic_regu w.hw voltd.priv_id = true) :
    ((level_uv < 0 ∨ level_uv > 65535000) →
      pmic_set_level p w voltd level_uv = (SCMI_INVALID_PARAMETERS, w)) ∧
    (0 ≤ level_uv → level_uv ≤ 65535000 →
      level_uv.toNat / 1000 ≤ 65535 ∧
      ((level_uv.toNat / 1000 : Nat) : Int) = level_uv / 1000 ∧
      (pmic_set_level p w voltd level_uv).2.trace =
        w.trace ++ [DriverCall.stm32mp_get_pmic,
          DriverCall.stpmic1_regulator_voltage_set voltd.priv_id
            (level_uv.toNat / 1000),
          DriverCall.stm32mp_put_pmic] ∧
      (pmic_set_level p w voltd level_uv).2.tables = w.tables ∧
      (pmic_set_level p w voltd level_uv).2.hw =
        p.stm32mp_put_pmic
          (p.stpmic1_regulator_voltage_set (p.stm32mp_get_pmic w.hw)
            voltd.priv_id (level_uv.toNat / 1000)).1 ∧
      ((p.stpmic1_regulator_voltage_set (p.stm32mp_get_pmic w.hw) voltd.priv_id
          (level_uv.toNat / 1000)).2 = 0 →
        (pmic_set_level p w voltd level_uv).1 = SCMI_SUCCESS) ∧
      ((p.stpmic1_regulator_voltage_set (p.stm32mp_get_pmic w.hw) voltd.priv_id
          (level_uv.toNat / 1000)).2 ≠ 0 →
        (pmic_set_level p w voltd level_uv).1 = SCMI_GENERIC_ERROR)) := by
  refine ⟨?_, ?_⟩
  · intro hbad
    have hbad1 : level_uv < 0 ∨ level_uv > (UINT16_MAX : Int) * 1000 := by
      unfold UINT16_MAX
      omega
    simp only [pmic_set_level, hpol, Bool.not_true, Bool.false_eq_true,
      if_false, if_pos hbad1]
  · intro h0 h1
    have hok : ¬ (level_uv < 0 ∨ level_uv > (UINT16_MAX : Int) * 1000) := by
      unfold UINT16_MAX
      omega
    refine ⟨by omega, by omega, ?_, ?_, ?_, ?_, ?_⟩
    · simp [pmic_set_level, hpol, hok, stm32mp_put_pmic, stm32mp_get_pmic,
        stpmic1_regulator_voltage_set, World.act]
    · simp [pmic_set_level, hpol, hok, stm32mp_put_pmic, stm32mp_get_pmic,
        stpmic1_regulator_voltage_set, World.act]
    · simp [pmic_set_level, hpol, hok, stm32mp_put_pmic, stm32mp_get_pmic,
        stpmic1_regulator_voltage_set, World.act]
    · intro hrc
      simp [pmic_set_level, hpol, hok, stm32mp_get_pmic,
        stpmic1_regulator_voltage_set, World.act, hrc]
    · intro hrc
      simp [pmic_set_level, hpol, hok, stm32mp_get_pmic,
        stpmic1_regulator_voltage_set, World.act, hrc]

/-- Witness for C15: 1.2 V asked of the regulator `buck1` on a platform
whose driver succeeds. -/
theorem pmic_set_level_spec_witness :
    (1200000 : Int).toNat / 1000 ≤ 65535 ∧
    (pmic_set_level (sample_platform true 0 []) sample_pmic_world
      (VOLTD_CELL VOLTD_PMIC "buck1" "vddcore") 1200000).1 = SCMI_SUCCESS :=
  ⟨((pmic_set_level_spec (sample_platform true 0 []) sample_pmic_world
      (VOLTD_CELL VOLTD_PMIC "buck1" "vddcore") 1200000 rfl).2
      (by decide) (by decide)).1,
   ((pmic_set_level_spec (sample_platform true 0 []) sample_pmic_world
      (VOLTD_CELL VOLTD_PMIC "buck1" "vddcore") 1200000 rfl).2
      (by decide) (by decide)).2.2.2.2.2.1 rfl⟩

/-- C16 (as amended): for a fixed-rail domain, `pwr_describe_levels` with
start index 0, an output buffer and a capacity of at least 1 returns
`SCMI_SUCCESS` with count 1 and the level of `pwr_get_level` in the first
slot; with start index 0, a buffer and capacity 0 it returns
`SCMI_GENERIC_ERROR` and writes nothing; with start index 0 and no buffer it
returns `SCMI_SUCCESS` with count 1; with a non-zero start index it returns
`SCMI_INVALID_PARAMETERS` and writes nothing. -/
theorem pwr_describe_levels_spec {H : Type} (p : Platform H) (w : World H)
    (voltd : stm32_scmi_voltd) (regu_id : pwr_regulator)
    (hid : pwr_scmi_to_regu_id voltd = some regu_id) :
    ∃ level : Int,
      pwr_get_level p w voltd =
        some (level, w.read (DriverCall.stm32mp1_pwr_regulator_mv regu_id)) ∧
      (∀ (slot : Int) (rest : List Int) (nb_elts : Nat), 1 ≤ nb_elts →
        pwr_describe_levels p w voltd 0 (some (slot :: rest)) nb_elts =
          some (SCMI_SUCCESS, some (level :: rest), 1,
            w.read (DriverCall.stm32mp1_pwr_regulator_mv regu_id))) ∧
      (∀ buf : List Int,
        pwr_describe_levels p w voltd 0 (some buf) 0 =
          some (SCMI_GENERIC_ERROR, some buf, 0, w)) ∧
      (∀ nb_elts : Nat,
        pwr_describe_levels p w voltd 0 none nb_elts =
          some (SCMI_SUCCESS, none, 1, w)) ∧
      (∀ (start_index : Nat) (microvolt : Option (List Int)) (nb_elts : Nat),
        start_index ≠ 0 →
        pwr_describe_levels p w voltd start_index microvolt nb_elts =
          some (SCMI_INVALID_PARAMETERS, microvolt, nb_elts, w)) := by
  refine ⟨to_long (to_long (p.stm32mp1_pwr_regulator_mv w.hw regu_id) * 1000),
    ?_, ?_, ?_, ?_, ?_⟩
  · simp [pwr_get_level, hid, stm32mp1_pwr_regulator_mv]
  · intro slot rest nb_elts hnb
    have hnb1 : ¬ nb_elts < 1 := by omega
    simp [pwr_describe_levels, hnb1, pwr_get_level, hid,
      stm32mp1_pwr_regulator_mv]
  · intro buf
    simp [pwr_describe_levels]
  · intro nb_elts
    simp [pwr_describe_levels]
  · intro start_index microvolt nb_elts hs
    simp [pwr_describe_levels, hs]

/-- Witness for C16: the domain `reg11` of the shipped tables described
into a two-slot buffer with capacity 2. -/
theorem pwr_describe_levels_spec_witness :
    ∃ level : Int,
      pwr_get_level (sample_platform true 0 []) sample_world
          (VOLTD_CELL VOLTD_PWR PWR_REG11_NAME_ID "reg11") =
        some (level, sample_world.read
          (DriverCall.stm32mp1_pwr_regulator_mv pwr_regulator.PWR_REG11)) ∧
      pwr_describe_levels (sample_platform true 0 []) sample_world
          (VOLTD_CELL VOLTD_PWR PWR_REG11_NAME_ID "reg11") 0 (some [7, 7]) 2 =
        some (SCMI_SUCCESS, some [level, 7], 1, sample_world.read
          (DriverCall.stm32mp1_pwr_regulator_mv pwr_regulator.PWR_REG11)) :=
  match pwr_describe_levels_spec (sample_platform true 0 []) sample_world
      (VOLTD_CELL VOLTD_PWR PWR_REG11_NAME_ID "reg11") pwr_regulator.PWR_REG11
      rfl with
  | ⟨level, h1, h2, _⟩ => ⟨level, h1, h2 7 [7] 2 (by decide)⟩

/-- C16, counterexample to the claim as stated: on the domain `reg11`
(agent 0, handle 0) of the shipped tables, whose level is 1100000,
`plat_scmi_voltd_levels_array` with start index 0, a buffer and capacity 0
returns `SCMI_GENERIC_ERROR` and no value. -/
theorem pwr_describe_levels_zero_capacity :
    pwr_scmi_to_regu_id (VOLTD_CELL VOLTD_PWR PWR_REG11_NAME_ID "reg11") =
      some pwr_regulator.PWR_REG11 ∧
    plat_scmi_voltd_levels_array (sample_platform true 0 []) sample_world 0 0 0
        (some [0]) 0 =
      some (SCMI_GENERIC_ERROR, some [0], 0, sample_world) ∧
    plat_scmi_voltd_get_level (sample_platform true 0 []) sample_world 0 0 =
      some (1100000, sample_world.read
        (DriverCall.stm32mp1_pwr_regulator_mv pwr_regulator.PWR_REG11)) :=
  ⟨rfl, rfl, rfl⟩

/-- C17: when the policy denies a PMIC regulator, `pmic_get_level` returns
0 and `pmic_get_state` returns the OFF value, both with the world untouched
(no PMIC acquisition, no driver call), `pmic_describe_levels` returns
`SCMI_DENIED` with outputs and world untouched, and the two values are the
same in any other world in which the regulator is denied. -/
theorem pmic_denied_reads_disclose_nothing {H : Type} (p : Platform H)
    (w : World H) (voltd : stm32_scmi_voltd)
    (hden : p.stm32mp_nsec_can_access_pmic_regu w.hw voltd.priv_id = false) :
    pmic_get_level p w voltd = (0, w) ∧
    pmic_get_state p w voltd = (p.SCMI_VOLTAGE_DOMAIN_CONFIG_ARCH_OFF, w) ∧
    (∀ (start_index : Nat) (microvolt : Option (List Int)) (nb_elts : Nat),
      pmic_describe_levels p w voltd start_index microvolt nb_elts =
        some (SCMI_DENIED, microvolt, nb_elts, w)) ∧
    (∀ w2 : World H,
      p.stm32mp_nsec_can_access_pmic_regu w2.hw voltd.priv_id = false →
      (pmic_get_level p w2 voltd).1 = (pmic_get_level p w voltd).1 ∧
      (pmic_get_state p w2 voltd).1 = (pmic_get_state p w voltd).1) := by
  refine ⟨?_, ?_, ?_, ?_⟩
  · simp [pmic_get_level, hden]
  · simp [pmic_get_state, hden]
  · intro start_index microvolt nb_elts
    simp [pmic_describe_levels, hden]
  · intro w2 hden2
    simp [pmic_get_level, pmic_get_state, hden, hden2]

/-- Witness for C17: the regulator `buck1` under a policy that denies
everything. -/
theorem pmic_denied_reads_disclose_nothing_witness :
    pmic_get_level (sample_platform false 0 [800, 850]) sample_pmic_world
        (VOLTD_CELL VOLTD_PMIC "buck1" "vddcore") = (0, sample_pmic_world) ∧
    pmic_get_state (sample_platform false 0 [800, 850]) sample_pmic_world
        (VOLTD_CELL VOLTD_PMIC "buck1" "vddcore") = (0, sample_pmic_world) :=
  ⟨(pmic_denied_reads_disclose_nothing (sample_platform false 0 [800, 850])
      sample_pmic_world (VOLTD_CELL VOLTD_PMIC "buck1" "vddcore") rfl).1,
   (pmic_denied_reads_disclose_nothing (sample_platform false 0 [800, 850])
      sample_pmic_world (VOLTD_CELL VOLTD_PMIC "buck1" "vddcore") rfl).2.1⟩

/-- C18: whenever `plat_scmi_clock_rates_by_step`,
`plat_scmi_voltd_levels_array` or `plat_scmi_voltd_get_config` returns a
status other than `SCMI_SUCCESS`, the output array, the level buffer with
the element count, and the config word are exactly what the caller passed
in. -/
theorem error_status_leaves_outputs {H : Type} (p : Platform H) (w : World H)
    (agent_id scmi_id : Nat) :
    (∀ (array : List Nat) (status : scmi_status) (out : List Nat)
        (w1 : World H),
      plat_scmi_clock_rates_by_step p w agent_id scmi_id array =
        some (status, out, w1) →
      status ≠ SCMI_SUCCESS → out = array) ∧
    (∀ (start_index : Nat) (levels : Option (List Int)) (nb_elts : Nat)
        (status : scmi_status) (out : Option (List Int)) (nb1 : Nat)
        (w1 : World H),
      plat_scmi_voltd_levels_array p w agent_id scmi_id start_index levels
        nb_elts = some (status, out, nb1, w1) →
      status ≠ SCMI_SUCCESS → out = levels ∧ nb1 = nb_elts) ∧
    (∀ (config : Nat) (status : scmi_status) (out : Nat) (w1 : World H),
      plat_scmi_voltd_get_config p w agent_id scmi_id config =
        some (status, out, w1) →
      status ≠ SCMI_SUCCESS → out = config) := by
  refine ⟨?_, ?_, ?_⟩
  · intro array status out w1 h hne
    unfold plat_scmi_clock_rates_by_step at h
    repeat' split at h
    all_goals simp_all
  · intro start_index levels nb_elts status out nb1 w1 h hne
    unfold plat_scmi_voltd_levels_array at h
    repeat' split at h
    all_goals first
      | exact pwr_describe_levels_error_frame p w _ _ _ _ _ _ _ _ h hne
      | exact pmic_describe_levels_error_frame p w _ _ _ _ _ _ _ _ h hne
      | simp_all
  · intro config status out w1 h hne
    unfold plat_scmi_voltd_get_config at h
    repeat' split at h
    all_goals simp_all

/-- Witness for C18: a denied `plat_scmi_clock_rates_by_step` and a
`plat_scmi_voltd_levels_array` with a non-zero start index on the shipped
tables. -/
theorem error_status_leaves_outputs_witness :
    plat_scmi_clock_rates_by_step (sample_platform false 0 []) sample_world 0 0
        [1, 2, 3] = some (SCMI_DENIED, [1, 2, 3], sample_world) ∧
    ([1, 2, 3] : List Nat) = [1, 2, 3] ∧
    plat_scmi_voltd_levels_array (sample_platform true 0 []) sample_world 0 0 4
        (some [9, 9]) 2 =
      some (SCMI_INVALID_PARAMETERS, some [9, 9], 2, sample_world) ∧
    ((some [9, 9] : Option (List Int)) = some [9, 9] ∧ (2 : Nat) = 2) :=
  ⟨rfl,
   (error_status_leaves_outputs (sample_platform false 0 []) sample_world 0
      0).1 [1, 2, 3] SCMI_DENIED [1, 2, 3] sample_world rfl (by decide),
   rfl,
   (error_status_leaves_outputs (sample_platform true 0 []) sample_world 0
      0).2.1 4 (some [9, 9]) 2 SCMI_INVALID_PARAMETERS (some [9, 9]) 2
      sample_world rfl (by decide)⟩

/-- C19: when the policy denies a PMIC regulator, `pmic_set_level` (for
every level, out-of-range ones included) and `pmic_set_state` (for either
argument) return `SCMI_DENIED` with the world untouched: no PMIC
acquisition, no driver call. -/
theorem pmic_denied_writes {H : Type} (p : Platform H)
    (w : World H) (voltd : stm32_scmi_voltd)
    (hden : p.stm32mp_nsec_can_access_pmic_regu w.hw voltd.priv_id = false) :
    (∀ level_uv : Int, pmic_set_level p w voltd level_uv = (SCMI_DENIED, w)) ∧
    (∀ enable : Bool, pmic_set_state p w voltd enable = (SCMI_DENIED, w)) := by
  refine ⟨?_, ?_⟩
  · intro level_uv
    simp [pmic_set_level, hden]
  · intro enable
    simp [pmic_set_state, hden]

/-- Witness for C19: the regulator `buck1` under a policy that denies
everything, asked for a negative level and for switching on. -/
theorem pmic_denied_writes_witness :
    pmic_set_level (sample_platform false 0 []) sample_pmic_world
        (VOLTD_CELL VOLTD_PMIC "buck1" "vddcore") (-5) =
      (SCMI_DENIED, sample_pmic_world) ∧
    pmic_set_state (sample_platform false 0 []) sample_pmic_world
        (VOLTD_CELL VOLTD_PMIC "buck1" "vddcore") true =
      (SCMI_DENIED, sample_pmic_world) :=
  ⟨(pmic_denied_writes (sample_platform false 0 []) sample_pmic_world
      (VOLTD_CELL VOLTD_PMIC "buck1" "vddcore") rfl).1 (-5),
   (pmic_denied_writes (sample_platform false 0 []) sample_pmic_world
      (VOLTD_CELL VOLTD_PMIC "buck1" "vddcore") rfl).2 true⟩

/-- C20: a `plat_scmi_clock_set_state` call that returns leaves every clock
entry other than the addressed one as it was and changes at most the
`enabled` field of the addressed one; when it returns `SCMI_SUCCESS` and the
policy permits the clock afterwards, `plat_scmi_clock_get_state` on the same
handle returns the requested state.  Every other handler that returns hands
back the tables it was given, hence the same enabled flags for every agent.
The three count functions and the vendor-name functions return a value and
no world: their bodies hold no store. -/
theorem clock_flags_frame {H : Type} (p : Platform H) (w : World H)
    (agent_id scmi_id : Nat) :
    (∀ (enable : Bool) (status : scmi_status) (w1 : World H),
      plat_scmi_clock_set_state p w agent_id scmi_id enable =
        some (status, w1) →
      (∀ a i, a ≠ agent_id ∨ i ≠ scmi_id → clock_at w1 a i = clock_at w a i) ∧
      (∀ clock, clock_at w agent_id scmi_id = some clock →
        ∃ v, clock_at w1 agent_id scmi_id =
          some { clock with enabled := v }) ∧
      (∀ clock, clock_at w agent_id scmi_id = some clock →
        status = SCMI_SUCCESS →
        p.stm32mp_nsec_can_access_clock w1.hw clock.clock_id = true →
        plat_scmi_clock_get_state p w1 agent_id scmi_id =
          some (if enable then 1 else 0, w1))) ∧
    (∀ name w1, plat_scmi_clock_get_name p w agent_id scmi_id =
      some (name, w1) → w1.tables = w.tables) ∧
    (∀ start_index array nb_elts status out nb1 w1,
      plat_scmi_clock_rates_array p w agent_id scmi_id start_index array
        nb_elts = some (status, out, nb1, w1) → w1.tables = w.tables) ∧
    (∀ array status out w1,
      plat_scmi_clock_rates_by_step p w agent_id scmi_id array =
        some (status, out, w1) → w1.tables = w.tables) ∧
    (∀ rate status w1, plat_scmi_clock_set_rate p w agent_id scmi_id rate =
      some (status, w1) → w1.tables = w.tables) ∧
    (∀ rate w1, plat_scmi_clock_get_rate p w agent_id scmi_id =
      some (rate, w1) → w1.tables = w.tables) ∧
    (∀ state w1, plat_scmi_clock_get_state p w agent_id scmi_id =
      some (state, w1) → w1.tables = w.tables) ∧
    (∀ name w1, plat_scmi_rd_get_name p w agent_id scmi_id =
      some (name, w1) → w1.tables = w.tables) ∧
    (∀ state status w1, plat_scmi_rd_autonomous p w agent_id scmi_id state =
      some (status, w1) → w1.tables = w.tables) ∧
    (∀ assert_not_deassert status w1,
      plat_scmi_rd_set_state p w agent_id scmi_id assert_not_deassert =
        some (status, w1) → w1.tables = w.tables) ∧
    (∀ name w1, plat_scmi_voltd_get_name p w agent_id scmi_id =
      some (name, w1) → w1.tables = w.tables) ∧
    (∀ start_index levels nb_elts status out nb1 w1,
      plat_scmi_voltd_levels_array p w agent_id scmi_id start_index levels
        nb_elts = some (status, out, nb1, w1) → w1.tables = w.tables) ∧
    (∀ level w1, plat_scmi_voltd_get_level p w agent_id scmi_id =
      some (level, w1) → w1.tables = w.tables) ∧
    (∀ level status w1, plat_scmi_voltd_set_level p w agent_id scmi_id level =
      some (status, w1) → w1.tables = w.tables) ∧
    (∀ config status out w1,
      plat_scmi_voltd_get_config p w agent_id scmi_id config =
        some (status, out, w1) → w1.tables = w.tables) ∧
    (∀ config status w1,
      plat_scmi_voltd_set_config p w agent_id scmi_id config =
        some (status, w1) → w1.tables = w.tables) ∧
    (∀ count w1, plat_scmi_protocol_count p w = some (count, w1) →
      w1.tables = w.tables) ∧
    (∀ list w1, plat_scmi_protocol_list p w agent_id = some (list, w1) →
      w1.tables = w.tables) ∧
    (∀ w1 : World H, w1.tables = w.tables →
      enabled_flags w1 = enabled_flags w) := by
  refine ⟨?_, ?_, ?_, ?_, ?_, ?_, ?_, ?_, ?_, ?_, ?_, ?_, ?_, ?_, ?_, ?_, ?_,
    ?_, ?_⟩
  · intro enable status w1 h
    unfold plat_scmi_clock_set_state at h
    split at h
    · simp at h
    · cases h
      exact ⟨fun _ _ _ => rfl, fun clock hc => ⟨clock.enabled, hc⟩,
        fun clock _ hs _ => by cases hs⟩
    · rename_i n hfind
      split at h
      · simp at h
      · rename_i clock hat
        have hn : n = scmi_id := by
          unfold find_clock at hfind
          split at hfind
          · simp at hfind
          · simp only [Option.some.injEq, find_loop_spec] at hfind
            split at hfind
            · exact (Option.some.inj hfind).symm
            · simp at hfind
        subst hn
        have hsame : ∀ c, clock_at w agent_id n = some c → c = clock := by
          intro c hc
          rw [hat] at hc
          exact (Option.some.inj hc).symm
        by_cases hpol : p.stm32mp_nsec_can_access_clock w.hw clock.clock_id = true
        · cases enable with
          | true =>
            cases hen : clock.enabled with
            | true =>
              simp [hpol, hen] at h
              obtain ⟨hs, rfl⟩ := h
              refine ⟨fun _ _ _ => rfl, fun c hc => ⟨c.enabled, hc⟩, ?_⟩
              intro c hc _ hp
              rw [hsame c hc] at hp
              rw [clock_get_state_eq p w agent_id n clock hat hp, hen]
            | false =>
              simp [hpol, hen] at h
              obtain ⟨hs, rfl⟩ := h
              have hc1 := clock_at_store_enabled
                (clk_enable p w clock.clock_id) agent_id n true clock hat
              refine ⟨?_, ?_, ?_⟩
              · intro a i hai
                exact clock_at_store_enabled_other
                  (clk_enable p w clock.clock_id) agent_id n true a i hai
              · intro c hc
                rw [hsame c hc]
                exact ⟨true, hc1⟩
              · intro c hc _ hp
                rw [hsame c hc] at hp
                rw [clock_get_state_eq p _ agent_id n _ hc1 hp]
          | false =>
            cases hen : clock.enabled with
            | false =>
              simp [hpol, hen] at h
              obtain ⟨hs, rfl⟩ := h
              refine ⟨fun _ _ _ => rfl, fun c hc => ⟨c.enabled, hc⟩, ?_⟩
              intro c hc _ hp
              rw [hsame c hc] at hp
              rw [clock_get_state_eq p w agent_id n clock hat hp, hen]
            | true =>
              simp [hpol, hen] at h
              obtain ⟨hs, rfl⟩ := h
              have hc1 := clock_at_store_enabled
                (clk_disable p w clock.clock_id) agent_id n false clock hat
              refine ⟨?_, ?_, ?_⟩
              · intro a i hai
                exact clock_at_store_enabled_other
                  (clk_disable p w clock.clock_id) agent_id n false a i hai
              · intro c hc
                rw [hsame c hc]
                exact ⟨false, hc1⟩
              · intro c hc _ hp
                rw [hsame c hc] at hp
                rw [clock_get_state_eq p _ agent_id n _ hc1 hp]
        · simp [hpol] at h
          obtain ⟨hs, rfl⟩ := h
          exact ⟨fun _ _ _ => rfl, fun c hc => ⟨c.enabled, hc⟩,
            fun c _ hsucc _ => by rw [← hs] at hsucc; cases hsucc⟩
  · intro name w1 h
    unfold plat_scmi_clock_get_name at h
    repeat' split at h
    all_goals first
      | (cases h; rfl)
      | simp at h
  · intro start_index array nb_elts status out nb1 w1 h
    cases h
    rfl
  · intro array status out w1 h
    unfold plat_scmi_clock_rates_by_step at h
    repeat' split at h
    all_goals first
      | (cases h; rfl)
      | simp at h
  · intro rate status w1 h
    unfold plat_scmi_clock_set_rate at h
    repeat' split at h
    all_goals first
      | (cases h; rfl)
      | simp at h
  · intro rate w1 h
    unfold plat_scmi_clock_get_rate at h
    repeat' split at h
    all_goals first
      | (cases h; rfl)
      | simp at h
  · intro state w1 h
    unfold plat_scmi_clock_get_state at h
    repeat' split at h
    all_goals first
      | (cases h; rfl)
      | simp at h
  · intro name w1 h
    unfold plat_scmi_rd_get_name at h
    repeat' split at h
    all_goals first
      | (cases h; rfl)
      | simp at h
  · intro state status w1 h
    unfold plat_scmi_rd_autonomous at h
    repeat' split at h
    all_goals first
      | (cases h; rfl)
      | simp at h
  · intro assert_not_deassert status w1 h
    unfold plat_scmi_rd_set_state at h
    repeat' split at h
    all_goals first
      | (cases h; rfl)
      | simp at h
  · intro name w1 h
    unfold plat_scmi_voltd_get_name at h
    repeat' split at h
    all_goals first
      | (cases h; rfl)
      | simp at h
  · intro start_index levels nb_elts status out nb1 w1 h
    unfold plat_scmi_voltd_levels_array at h
    repeat' split at h
    all_goals first
      | exact pwr_describe_levels_tables p w _ _ _ _ _ _ _ _ h
      | exact pmic_describe_levels_tables p w _ _ _ _ _ _ _ _ h
      | (cases h; rfl)
      | simp at h
  · intro level w1 h
    unfold plat_scmi_voltd_get_level at h
    repeat' split at h
    all_goals first
      | exact pwr_get_level_tables p w _ _ _ h
      | (have h2 : (pmic_get_level p w _).2 = w1 :=
           congrArg Prod.snd (Option.some.inj h)
         rw [← h2]
         exact pmic_get_level_tables p w _)
      | (cases h; rfl)
      | simp at h
  · intro level status w1 h
    unfold plat_scmi_voltd_set_level at h
    repeat' split at h
    all_goals first
      | exact pwr_set_level_tables p w _ _ _ _ h
      | (have h2 : (pmic_set_level p w _ _).2 = w1 :=
           congrArg Prod.snd (Option.some.inj h)
         rw [← h2]
         exact pmic_set_level_tables p w _ _)
      | (cases h; rfl)
      | simp at h
  · intro config status out w1 h
    unfold plat_scmi_voltd_get_config at h
    repeat' split at h
    all_goals first
      | (cases h; exact pwr_get_state_tables p w _ _ _ (by assumption))
      | (cases h; exact pmic_get_state_tables p w _)
      | (cases h; rfl)
      | simp at h
  · intro config status w1 h
    unfold plat_scmi_voltd_set_config at h
    repeat' split at h
    all_goals first
      | (cases h; exact pwr_set_state_tables p w _ _ _ (by assumption))
      | (have h2 : (pmic_set_state p w _ _).2 = w1 :=
           congrArg Prod.snd (Option.some.inj h)
         rw [← h2]
         exact pmic_set_state_tables p w _ _)
      | (cases h; rfl)
      | simp at h
  · intro count w1 h
    unfold plat_scmi_protocol_count at h
    split at h
    · cases h
      rfl
    · simp at h
  · intro list w1 h
    unfold plat_scmi_protocol_list at h
    split at h
    · cases h
      rfl
    · simp at h
  · intro w1 h
    exact enabled_flags_of_tables h

/-- Witness for C20: enabling the clock `cryp1` (agent 0, handle 10) of the
shipped tables leaves the entry of handle 9 as it was and is read back as
enabled. -/
theorem clock_flags_frame_witness :
    plat_scmi_clock_set_state (sample_platform true 0 []) sample_world 0 10
        true =
      some (SCMI_SUCCESS,
        store_enabled (clk_enable (sample_platform true 0 []) sample_world
          sample_dt.CRYP1) 0 10 true) ∧
    clock_at (store_enabled (clk_enable (sample_platform true 0 [])
        sample_world sample_dt.CRYP1) 0 10 true) 0 9 =
      clock_at sample_world 0 9 ∧
    plat_scmi_clock_get_state (sample_platform true 0 [])
        (store_enabled (clk_enable (sample_platform true 0 []) sample_world
          sample_dt.CRYP1) 0 10 true) 0 10 =
      some (if true = true then 1 else 0,
        store_enabled (clk_enable (sample_platform true 0 []) sample_world
          sample_dt.CRYP1) 0 10 true) :=
  ⟨rfl,
   ((clock_flags_frame (sample_platform true 0 []) sample_world 0 10).1 true
      SCMI_SUCCESS _ rfl).1 0 9 (Or.inr (by decide)),
   ((clock_flags_frame (sample_platform true 0 []) sample_world 0 10).1 true
      SCMI_SUCCESS _ rfl).2.2 (CLOCK_CELL sample_dt.CRYP1 "cryp1" false) rfl rfl
      rfl⟩

/-- C21: in `pmic_get_level`, `pmic_set_level`, `pmic_get_state` and
`pmic_set_state`, on every path (policy denied, level out of range, driver
success, driver failure, either `DMSG` setting), the driver calls the
function adds to the trace are scoped: `stm32mp_get_pmic` and
`stm32mp_put_pmic` alternate starting with the acquisition, every regulator
access lies between an acquisition and its release, the PMIC is not held at
return, and there are as many acquisitions as releases. -/
theorem pmic_acquisition_balanced {H : Type} (p : Platform H) (w : World H)
    (voltd : stm32_scmi_voltd) (level_uv : Int) (enable : Bool) :
    (∃ added, (pmic_get_level p w voltd).2.trace = w.trace ++ added ∧
      pmic_scoped false added = true ∧
      added.count DriverCall.stm32mp_get_pmic =
        added.count DriverCall.stm32mp_put_pmic) ∧
    (∃ added, (pmic_set_level p w voltd level_uv).2.trace = w.trace ++ added ∧
      pmic_scoped false added = true ∧
      added.count DriverCall.stm32mp_get_pmic =
        added.count DriverCall.stm32mp_put_pmic) ∧
    (∃ added, (pmic_get_state p w voltd).2.trace = w.trace ++ added ∧
      pmic_scoped false added = true ∧
      added.count DriverCall.stm32mp_get_pmic =
        added.count DriverCall.stm32mp_put_pmic) ∧
    (∃ added, (pmic_set_state p w voltd enable).2.trace = w.trace ++ added ∧
      pmic_scoped false added = true ∧
      added.count DriverCall.stm32mp_get_pmic =
        added.count DriverCall.stm32mp_put_pmic) := by
  by_cases hpol : p.stm32mp_nsec_can_access_pmic_regu w.hw voltd.priv_id = true
  · refine ⟨?_, ?_, ?_, ?_⟩
    · refine ⟨[DriverCall.stm32mp_get_pmic,
        DriverCall.stpmic1_regulator_voltage_get voltd.priv_id,
        DriverCall.stm32mp_put_pmic], ?_, rfl, ?_⟩
      · simp [pmic_get_level, hpol, stm32mp_put_pmic, stm32mp_get_pmic,
          stpmic1_regulator_voltage_get, World.act, World.read]
      · simp [List.count_cons]
    · by_cases hbad : level_uv < 0 ∨ level_uv > (UINT16_MAX : Int) * 1000
      · refine ⟨[], ?_, rfl, rfl⟩
        simp [pmic_set_level, hpol, hbad]
      · refine ⟨[DriverCall.stm32mp_get_pmic,
          DriverCall.stpmic1_regulator_voltage_set voltd.priv_id
            (level_uv.toNat / 1000),
          DriverCall.stm32mp_put_pmic], ?_, rfl, ?_⟩
        · simp [pmic_set_level, hpol, hbad, stm32mp_put_pmic, stm32mp_get_pmic,
            stpmic1_regulator_voltage_set, World.act]
        · simp [List.count_cons]
    · refine ⟨[DriverCall.stm32mp_get_pmic,
        DriverCall.stpmic1_is_regulator_enabled voltd.priv_id,
        DriverCall.stm32mp_put_pmic], ?_, rfl, ?_⟩
      · simp [pmic_get_state, hpol, stm32mp_put_pmic, stm32mp_get_pmic,
          stpmic1_is_regulator_enabled, World.act, World.read]
      · simp [List.count_cons]
    · cases hd : p.dmsg with
      | true =>
        cases enable with
        | true =>
          refine ⟨[DriverCall.stm32mp_get_pmic,
            DriverCall.stpmic1_is_regulator_enabled voltd.priv_id,
            DriverCall.stpmic1_regulator_enable voltd.priv_id,
            DriverCall.stm32mp_put_pmic], ?_, rfl, ?_⟩
          · simp [pmic_set_state, pmic_set_state_acquired, hpol, hd,
              stm32mp_put_pmic, stm32mp_get_pmic, stpmic1_regulator_enable,
              stpmic1_is_regulator_enabled, World.act, World.read]
          · simp [List.count_cons]
        | false =>
          refine ⟨[DriverCall.stm32mp_get_pmic,
            DriverCall.stpmic1_is_regulator_enabled voltd.priv_id,
            DriverCall.stpmic1_regulator_disable voltd.priv_id,
            DriverCall.stm32mp_put_pmic], ?_, rfl, ?_⟩
          · simp [pmic_set_state, pmic_set_state_acquired, hpol, hd,
              stm32mp_put_pmic, stm32mp_get_pmic, stpmic1_regulator_disable,
              stpmic1_is_regulator_enabled, World.act, World.read]
          · simp [List.count_cons]
      | false =>
        cases enable with
        | true =>
          refine ⟨[DriverCall.stm32mp_get_pmic,
            DriverCall.stpmic1_regulator_enable voltd.priv_id,
            DriverCall.stm32mp_put_pmic], ?_, rfl, ?_⟩
          · simp [pmic_set_state, pmic_set_state_acquired, hpol, hd,
              stm32mp_put_pmic, stm32mp_get_pmic, stpmic1_regulator_enable,
              World.act]
          · simp [List.count_cons]
        | false =>
          refine ⟨[DriverCall.stm32mp_get_pmic,
            DriverCall.stpmic1_regulator_disable voltd.priv_id,
            DriverCall.stm32mp_put_pmic], ?_, rfl, ?_⟩
          · simp [pmic_set_state, pmic_set_state_acquired, hpol, hd,
              stm32mp_put_pmic, stm32mp_get_pmic, stpmic1_regulator_disable,
              World.act]
          · simp [List.count_cons]
  · refine ⟨⟨[], ?_, rfl, rfl⟩, ⟨[], ?_, rfl, rfl⟩, ⟨[], ?_, rfl, rfl⟩,
      ⟨[], ?_, rfl, rfl⟩⟩
    · simp [pmic_get_level, hpol]
    · simp [pmic_set_level, hpol]
    · simp [pmic_get_state, hpol]
    · simp [pmic_set_state, hpol]

/-- C22: in every world whose tables have the counts of the shipped tables,
`plat_scmi_protocol_count_paranoid` is 3, `plat_scmi_protocol_count` returns
3 (its assertion holds), and `plat_scmi_protocol_list` returns, for every
agent id, the same list: clock, reset domain, voltage domain, then the null
termination (its assertion holds too). -/
theorem protocol_enumeration_static {H : Type} (p : Platform H) (w : World H)
    (hcounts : w.tables.map
        (fun r => (r.clock_count, r.rd_count, r.voltd_count)) =
      (agent_resources p.dt).map
        (fun r => (r.clock_count, r.rd_count, r.voltd_count))) :
    plat_scmi_protocol_count_paranoid w = 3 ∧
    plat_scmi_protocol_count p w = some (3, w) ∧
    (∀ agent_id, plat_scmi_protocol_list p w agent_id =
      some ([p.SCMI_PROTOCOL_ID_CLOCK, p.SCMI_PROTOCOL_ID_RESET_DOMAIN,
        p.SCMI_PROTOCOL_ID_VOLTAGE_DOMAIN, 0], w)) := by
  have hshipped : (agent_resources p.dt).map
      (fun r => (r.clock_count, r.rd_count, r.voltd_count)) =
      [(21, 12, 3), (3, 0, 0)] := rfl
  rw [hshipped] at hcounts
  have hlen : w.tables.length = 2 := by
    have := congrArg List.length hcounts
    simpa using this
  have hc : w.tables.map scmi_agent_resources.clock_count = [21, 3] := by
    have := congrArg (List.map (fun t : Nat × Nat × Nat => t.1)) hcounts
    simpa [List.map_map, Function.comp_def] using this
  have hr : w.tables.map scmi_agent_resources.rd_count = [12, 0] := by
    have := congrArg (List.map (fun t : Nat × Nat × Nat => t.2.1)) hcounts
    simpa [List.map_map, Function.comp_def] using this
  have hv : w.tables.map scmi_agent_resources.voltd_count = [3, 0] := by
    have := congrArg (List.map (fun t : Nat × Nat × Nat => t.2.2)) hcounts
    simpa [List.map_map, Function.comp_def] using this
  have hpar : plat_scmi_protocol_count_paranoid w = 3 := by
    unfold plat_scmi_protocol_count_paranoid
    rw [hc, hr, hv, hlen]
    rfl
  refine ⟨hpar, ?_, ?_⟩
  · simp [plat_scmi_protocol_count, plat_protocol_list, hpar]
  · intro agent_id
    simp [plat_scmi_protocol_list, plat_protocol_list, hpar]

/-- Witness for C22: the shipped tables on the sample platform. -/
theorem protocol_enumeration_static_witness :
    plat_scmi_protocol_count_paranoid sample_world = 3 ∧
    plat_scmi_protocol_count (sample_platform true 0 []) sample_world =
      some (3, sample_world) :=
  ⟨(protocol_enumeration_static (sample_platform true 0 []) sample_world rfl).1,
   (protocol_enumeration_static (sample_platform true 0 []) sample_world
      rfl).2.1⟩

/-- C23: every clock, reset-domain and voltage-domain entry of the shipped
tables of both agents has a name that is present, not empty and shorter than
16 bytes, and `stm32mp1_init_scmi_server` on the shipped tables returns, for
every platform, driver state and earlier trace: none of its three panics is
reached. -/
theorem shipped_tables_pass_init {H : Type} (p : Platform H) (hw : H)
    (trace : List DriverCall) :
    (∀ res ∈ agent_resources p.dt,
      (∀ clk ∈ res.clock,
        ∃ s, clk.name = some s ∧ 0 < strlen s ∧
          strlen s < SCMI_CLOCK_NAME_SIZE) ∧
      (∀ rd ∈ res.rd,
        ∃ s, rd.name = some s ∧ 0 < strlen s ∧ strlen s < SCMI_RD_NAME_SIZE) ∧
      (∀ voltd ∈ res.voltd,
        ∃ s, voltd.name = some s ∧ 0 < strlen s ∧
          strlen s < SCMI_VOLTD_NAME_SIZE)) ∧
    SCMI_CLOCK_NAME_SIZE = 16 ∧ SCMI_RD_NAME_SIZE = 16 ∧
    SCMI_VOLTD_NAME_SIZE = 16 ∧
    ∃ w1, stm32mp1_init_scmi_server p
        { tables := agent_resources p.dt, hw := hw, trace := trace } =
        some w1 ∧
      w1.tables = agent_resources p.dt := by
  refine ⟨fun res hres => ⟨shipped_clock_names p.dt res hres,
    shipped_rd_names p.dt res hres, shipped_voltd_names p.dt res hres⟩,
    rfl, rfl, rfl, ?_⟩
  apply init_agent_loop_accepts p (agent_resources p.dt)
  intro res hres
  refine ⟨?_, ?_, ?_⟩
  · intro clk hclk
    obtain ⟨s, h1, _, h3⟩ := shipped_clock_names p.dt res hres clk hclk
    exact ⟨s, h1, h3⟩
  · intro rd hrd
    obtain ⟨s, h1, _, h3⟩ := shipped_rd_names p.dt res hres rd hrd
    exact ⟨s, h1, h3⟩
  · intro voltd hvoltd
    obtain ⟨s, h1, _, h3⟩ := shipped_voltd_names p.dt res hres voltd hvoltd
    exact ⟨s, h1, h3⟩

/-- C24: in every world whose voltage-domain tables are the shipped ones,
for every agent (0 or 1) and every handle: an entry found at the handle has
backend `VOLTD_PWR` (so not `VOLTD_PMIC`), a private id among `"0"`, `"1"`,
`"2"`, and a regulator under `pwr_scmi_to_regu_id`; and each of the six
voltage-domain entry points returns instead of stopping in a panic, for
every argument (for `plat_scmi_voltd_levels_array`, with an output buffer
that has at least `nb_elts` slots). -/
theorem shipped_voltd_never_panics {H : Type} (p : Platform H) (w : World H)
    (agent_id scmi_id : Nat)
    (hshipped : w.tables.map (fun r => r.voltd) =
      (agent_resources p.dt).map (fun r => r.voltd))
    (hA : agent_id < 2) :
    (∀ voltd, voltd_at w agent_id scmi_id = some voltd →
      voltd.priv_dev = VOLTD_PWR ∧ voltd.priv_dev ≠ VOLTD_PMIC ∧
      voltd.priv_id ∈ ["0", "1", "2"] ∧
      ∃ regu_id, pwr_scmi_to_regu_id voltd = some regu_id) ∧
    (plat_scmi_voltd_get_name p w agent_id scmi_id).isSome = true ∧
    (∀ (start_index : Nat) (levels : Option (List Int)) (nb_elts : Nat),
      (∀ buf, levels = some buf → nb_elts ≤ buf.length) →
      (plat_scmi_voltd_levels_array p w agent_id scmi_id start_index levels
        nb_elts).isSome = true) ∧
    (plat_scmi_voltd_get_level p w agent_id scmi_id).isSome = true ∧
    (∀ level : Int,
      (plat_scmi_voltd_set_level p w agent_id scmi_id level).isSome = true) ∧
    (∀ config : Nat,
      (plat_scmi_voltd_get_config p w agent_id scmi_id config).isSome = true) ∧
    (∀ config : Nat,
      (plat_scmi_voltd_set_config p w agent_id scmi_id config).isSome =
        true) := by
  have hlen : w.tables.length = 2 := by
    have := congrArg List.length hshipped
    simpa [agent_resources] using this
  have hA1 : agent_id < w.tables.length := by omega
  have hentry : ∀ voltd, voltd_at w agent_id scmi_id = some voltd →
      voltd.priv_dev = VOLTD_PWR ∧ voltd.priv_dev ≠ VOLTD_PMIC ∧
      voltd.priv_id ∈ ["0", "1", "2"] ∧
      ∃ regu_id, pwr_scmi_to_regu_id voltd = some regu_id :=
    fun voltd hv => shipped_voltd_fixed_rail voltd
      (shipped_voltd_entry p w agent_id scmi_id voltd hshipped hv)
  refine ⟨hentry, ?_⟩
  cases hat : voltd_at w agent_id scmi_id with
  | none =>
    have hf := find_voltd_of_voltd_at_none hA1 hat
    refine ⟨?_, ?_, ?_, ?_, ?_, ?_⟩
    · simp [plat_scmi_voltd_get_name, hf]
    · intro start_index levels nb_elts _
      simp [plat_scmi_voltd_levels_array, hf]
    · simp [plat_scmi_voltd_get_level, hf]
    · intro level
      simp [plat_scmi_voltd_set_level, hf]
    · intro config
      simp [plat_scmi_voltd_get_config, hf]
    · intro config
      simp [plat_scmi_voltd_set_config, hf]
  | some voltd =>
    have hf := find_voltd_of_voltd_at hat
    obtain ⟨hdev, _, _, regu_id, hid⟩ := hentry voltd hat
    refine ⟨?_, ?_, ?_, ?_, ?_, ?_⟩
    · simp [plat_scmi_voltd_get_name, hf, hat]
    · intro start_index levels nb_elts hbuf
      simp only [plat_scmi_voltd_levels_array, hf, hat, hdev, if_true]
      unfold pwr_describe_levels
      by_cases hs : start_index ≠ 0
      · simp [hs]
      · simp only [if_neg hs]
        cases levels with
        | none => simp
        | some buf =>
          by_cases hnb : nb_elts < 1
          · simp [hnb]
          · have hb := hbuf buf rfl
            cases buf with
            | nil => simp at hb; omega
            | cons head rest =>
              simp [hnb, pwr_get_level, hid]
    · simp [plat_scmi_voltd_get_level, hf, hat, hdev, pwr_get_level, hid]
    · intro level
      simp only [plat_scmi_voltd_set_level, hf, hat, hdev, if_true,
        pwr_set_level, pwr_get_level, hid]
      split <;> simp
    · intro config
      by_cases hen : (stm32mp1_pwr_regulator_is_enabled p w regu_id).1 = true
      · simp [plat_scmi_voltd_get_config, hf, hat, hdev, pwr_get_state, hid,
          hen]
      · simp [plat_scmi_voltd_get_config, hf, hat, hdev, pwr_get_state, hid,
          hen]
    · intro config
      simp [plat_scmi_voltd_set_config, hf, hat, hdev, pwr_set_state, hid]

/-- Witness for C24: agent 0, handle 2 (`usb33`) of the shipped tables. -/
theorem shipped_voltd_never_panics_witness :
    (0 : Nat) < 2 ∧
    (plat_scmi_voltd_get_level (sample_platform true 0 []) sample_world 0
      2).isSome = true ∧
    (plat_scmi_voltd_set_config (sample_platform true 0 []) sample_world 0 2
      1).isSome = true :=
  ⟨by decide,
   (shipped_voltd_never_panics (sample_platform true 0 []) sample_world 0 2
      rfl (by decide)).2.2.2.1,
   (shipped_voltd_never_panics (sample_platform true 0 []) sample_world 0 2
      rfl (by decide)).2.2.2.2.2.2 1⟩

/-- C25: starting from the state left by `stm32mp1_init_scmi_server` when the
policy permits every clock whose table entry is initially enabled, after
every sequence of served requests, each under policy answers of its own,
with every driver call attributed to the clock table entry whose
initialisation step or whose request issued it: the attributed calls are
exactly the driver calls issued, every `clk_enable` or `clk_disable` call is
attributed to an entry of the tables and names the clock of that entry, and
for every clock table entry the number of `clk_enable` calls minus the number
of `clk_disable` calls issued for that entry is 1 if its cached enabled flag
is set and 0 otherwise. -/
theorem enable_disable_balance {H : Type} (p0 : Platform H)
    (w0 w_init w : World H)
    (ledger : List (Option (Nat × Nat) × DriverCall))
    (hpol : ∀ clk ∈ all_clocks w0.tables, clk.enabled = true →
      ∀ h, p0.stm32mp_nsec_can_access_clock h clk.clock_id = true)
    (hinit : stm32mp1_init_scmi_server p0 w0 = some w_init)
    (hserved : Served w_init (init_issued p0 w0.tables 0 w0) w ledger) :
    w.trace = w0.trace ++ ledger.map (fun x => x.2) ∧
    (∀ x ∈ ledger, is_clk_enable x.2 = true ∨ is_clk_disable x.2 = true →
      ∃ agent_id n clock, x.1 = some (agent_id, n) ∧
        clock_at w agent_id n = some clock ∧
        (x.2 = DriverCall.clk_enable clock.clock_id ∨
          x.2 = DriverCall.clk_disable clock.clock_id)) ∧
    (∀ agent_id n clock, clock_at w agent_id n = some clock →
      net_enables (issued_for ledger agent_id n) =
        if clock.enabled = true then 1 else 0) :=
  served_balanced w0.trace hserved (init_balanced p0 w0 w_init hpol hinit)

/-- Witness for C25: two agents that each expose an entry for the clock 7,
the entry of agent 0 initially enabled; after initialisation, a request of
agent 0 to disable its entry that the policy denies and a request of agent 1
to enable its entry, `clk_enable` was called twice for the clock and the
balance is 1 for each of the two entries. -/
theorem enable_disable_balance_witness :
    (∀ clk ∈ all_clocks shared_clock_world.tables, clk.enabled = true →
      ∀ h, (sample_platform true 0 []).stm32mp_nsec_can_access_clock h
        clk.clock_id = true) ∧
    stm32mp1_init_scmi_server (sample_platform true 0 [])
        shared_clock_world = some shared_clock_init_world ∧
    serve (sample_platform false 0 []) shared_clock_init_world
        (Request.clock_set_state 0 0 false) = some shared_clock_init_world ∧
    serve (sample_platform true 0 []) shared_clock_init_world
        (Request.clock_set_state 1 0 true) = some shared_clock_served_world ∧
    Served shared_clock_init_world
      (init_issued (sample_platform true 0 []) shared_clock_world.tables 0
        shared_clock_world)
      shared_clock_served_world shared_clock_ledger ∧
    net_enables (issued_for shared_clock_ledger 0 0) = 1 ∧
    net_enables (issued_for shared_clock_ledger 1 0) = 1 :=
  have hserved : Served shared_clock_init_world
      (init_issued (sample_platform true 0 []) shared_clock_world.tables 0
        shared_clock_world)
      shared_clock_served_world shared_clock_ledger :=
    Served.call shared_clock_init_world shared_clock_served_world _
      (sample_platform true 0 []) (Request.clock_set_state 1 0 true)
      (Served.call shared_clock_init_world shared_clock_init_world _
        (sample_platform false 0 []) (Request.clock_set_state 0 0 false)
        Served.start rfl) rfl
  have hbal := (enable_disable_balance (sample_platform true 0 [])
    shared_clock_world shared_clock_init_world shared_clock_served_world
    shared_clock_ledger (fun _ _ _ _ => rfl) rfl hserved).2.2
  ⟨fun _ _ _ _ => rfl, rfl, rfl, rfl, hserved,
    hbal 0 0 (CLOCK_CELL 7 "ck_a" true) rfl,
    hbal 1 0 (CLOCK_CELL 7 "ck_b" true) rfl⟩

/-- C26: for an in-range fixed-rail voltage domain and every config value,
`plat_scmi_voltd_set_config` returns `SCMI_SUCCESS`, leaves the tables as
they were, and calls `stm32mp1_pwr_regulator_set_state` exactly once, with
`config != 0` as its boolean, preceded only by the read of the regulator
state that the `DMSG` line makes when it is compiled in; and its result is
the same whatever the three access-policy functions are. -/
theorem fixed_rail_set_config {H : Type} (p : Platform H) (w : World H)
    (agent_id scmi_id config : Nat) (voltd : stm32_scmi_voltd)
    (regu_id : pwr_regulator)
    (hv : voltd_at w agent_id scmi_id = some voltd)
    (hdev : voltd.priv_dev = VOLTD_PWR)
    (hid : pwr_scmi_to_regu_id voltd = some regu_id) :
    (∃ w1, plat_scmi_voltd_set_config p w agent_id scmi_id config =
        some (SCMI_SUCCESS, w1) ∧
      w1.tables = w.tables ∧
      w1.hw = p.stm32mp1_pwr_regulator_set_state w.hw regu_id
        (decide (config ≠ 0)) ∧
      w1.trace = w.trace ++
        (if p.dmsg then [DriverCall.stm32mp1_pwr_regulator_is_enabled regu_id]
          else []) ++
        [DriverCall.stm32mp1_pwr_regulator_set_state regu_id
          (decide (config ≠ 0))]) ∧
    (∀ (clock_policy reset_policy : H → Nat → Bool)
        (pmic_policy : H → String → Bool),
      plat_scmi_voltd_set_config
          { p with
            stm32mp_nsec_can_access_clock := clock_policy,
            stm32mp_nsec_can_access_reset := reset_policy,
            stm32mp_nsec_can_access_pmic_regu := pmic_policy }
          w agent_id scmi_id config =
        plat_scmi_voltd_set_config p w agent_id scmi_id config) := by
  have hf := find_voltd_of_voltd_at hv
  refine ⟨?_, ?_⟩
  · refine ⟨stm32mp1_pwr_regulator_set_state p
      (if p.dmsg then (stm32mp1_pwr_regulator_is_enabled p w regu_id).2 else w)
      regu_id (decide (config ≠ 0)), ?_, ?_, ?_, ?_⟩
    · simp [plat_scmi_voltd_set_config, hf, hv, hdev, pwr_set_state, hid]
    · cases hd : p.dmsg <;> rfl
    · cases hd : p.dmsg <;> rfl
    · cases hd : p.dmsg <;>
        simp [stm32mp1_pwr_regulator_set_state,
          stm32mp1_pwr_regulator_is_enabled, World.act, World.read]
  · intro clock_policy reset_policy pmic_policy
    simp [plat_scmi_voltd_set_config, hf, hv, hdev, pwr_set_state, hid,
      stm32mp1_pwr_regulator_set_state, stm32mp1_pwr_regulator_is_enabled]

/-- Witness for C26: config 5 on the domain `usb33` (agent 0, handle 2) of
the shipped tables. -/
theorem fixed_rail_set_config_witness :
    voltd_at sample_world 0 2 =
      some (VOLTD_CELL VOLTD_PWR PWR_USB33_NAME_ID "usb33") ∧
    ∃ w1, plat_scmi_voltd_set_config (sample_platform true 0 []) sample_world 0
        2 5 = some (SCMI_SUCCESS, w1) ∧
      w1.tables = sample_world.tables :=
  match (fixed_rail_set_config (sample_platform true 0 []) sample_world 0 2 5
      (VOLTD_CELL VOLTD_PWR PWR_USB33_NAME_ID "usb33") pwr_regulator.PWR_USB33
      rfl rfl (by decide)).1 with
  | ⟨w1, h1, h2, _⟩ => ⟨rfl, w1, h1, h2⟩

end Stm32Scmi
